import Mathlib

/-!
Tickets chaincode: the payment state machine, its role guard, identity
resolution, and the handlers that write and read payments, the merchant
binding and the agent registry.

A shallow embedding of `chaincode/tickets.go` and `entities/payment.go`.
Go strings are Lean `String`s, `uint` is `Nat`, a Go pointer that may be nil
is an `Option`, and a call that can dereference a nil pointer has an explicit
`crash` result next to the returned error. The ledger is a map from keys to
stored values; a handler yields its response together with the writes and
events it made, and the ledger after an invocation is the ledger before it
with the writes of a successful response applied.

Layout: the embedding, then the vocabulary of the properties and the concrete
data used to instantiate them, then the lemmas and the theorems, claim by
claim.
-/

namespace Tickets

/-! ## entities/payment.go -/

/-- Go: `type PaymentState string`. -/
abbrev PaymentState := String

def PaymentStateEmpty : PaymentState := ""
def CheckFundsRequest : PaymentState := "CheckFundsRequest"
def CheckFundsInProgress : PaymentState := "CheckFundsInProgress"
def CheckFundsSuccess : PaymentState := "CheckFundsSuccess"
def CheckFundsFail : PaymentState := "CheckFundsFail"
def TicketIssuanceTimeout : PaymentState := "TicketIssuanceTimeout"
def DebitRequest : PaymentState := "DebitRequest"
def DebitInProgress : PaymentState := "DebitInProgress"
def DebitSuccess : PaymentState := "DebitSuccess"
def DebitFail : PaymentState := "DebitFail"
def TicketCanceled : PaymentState := "TicketCanceled"
def Refunded : PaymentState := "Refunded"

def TicketPaymentCreated : String := "TicketPaymentCreated"
def TicketPaymentStateChanged : String := "TicketPaymentStateChanged"

/-- Modelled from the spec: the `Member` record of the platform's core entities
package, whose declaration is not part of this repository. The fields are the
ones section 3 lists (organization identifier, organization type,
bank-organization binding, confirmation-by-bank flag, settlement account,
international tax number), under the names the chaincode uses for them. -/
structure Member where
  OrganizationId : String
  Type_ : String
  BankOrganizationId : String
  ConfirmedByBank : Bool
  SettlementAccount : String
  ITN : String
  deriving DecidableEq, Repr

structure PaymentCreatePayload where
  Id : String
  AgentId : String
  Amount : Nat
  Currency : String
  InternationalFlight : Bool
  PaymentType : String
  PayerId : String
  PayerAccount : String
  PayerNumber : String
  RecipientId : String
  RecipientAccount : String
  RecipientNumber : String
  VatIncluded : Bool
  deriving DecidableEq, Repr

structure Payment where
  Id : String
  TicketNumber : String
  State : PaymentState
  Amount : Nat
  Currency : String
  InternationalFlight : Bool
  PaymentType : String
  VatIncluded : Bool
  Purpose : String
  Meta : List (String × List Nat)
  PayerOrgId : String
  PayerBankOrgId : String
  PayerId : String
  PayerAccount : String
  PayerNumber : String
  RecipientOrgId : String
  RecipientBankOrgId : String
  RecipientId : String
  RecipientAccount : String
  RecipientNumber : String
  deriving DecidableEq, Repr

structure TicketsPaymentStateChangedEvent where
  PaymentKey : String
  PaymentId : String
  PreviousState : PaymentState
  CurrentState : PaymentState
  To : Member
  From : Member
  Amount : Nat
  Currency : String
  deriving DecidableEq, Repr

/-- Go: `RequestUpdateState` of `api/tickets/entities/request.go`. -/
structure RequestUpdateState where
  PaymentId : String
  State : PaymentState
  deriving DecidableEq, Repr

/-! ## Role names -/

def RoleAgent : String := "AGENT"
def RoleMerchant : String := "MERCHANT"
def RoleBank : String := "BANK"
def RoleUnknown : String := "UNKNOWN"

/-! ## The `looplab/fsm` calls used by `createFSM` -/

/-- Go: `fsm.EventDesc`. -/
structure EventDesc where
  Name : String
  Src : List String
  Dst : String
  deriving DecidableEq, Repr

/-- Go: `fsm.FSM`, reduced to the current state and the transition map
`eKey{event, src} -> dst`. The map is an association list read front to back;
`NewFSM` puts a later entry in front of an earlier one with the same key. -/
structure FSM where
  current : String
  transitions : List ((String × String) × String)
  deriving DecidableEq, Repr

inductive FsmError where
  | InvalidEventError (event state : String)
  | UnknownEventError (event : String)
  | NoTransitionError
  deriving DecidableEq, Repr

/-- Go: `fsm.NewFSM(initial, events, callbacks)` with no callbacks: every
event contributes one map entry per source state. -/
def NewFSM (initial : String) (events : List EventDesc) : FSM :=
  { current := initial
    transitions := events.foldl
      (fun acc e => e.Src.foldl (fun acc2 src => ((e.Name, src), e.Dst) :: acc2) acc) [] }

/-- Go: `(*FSM).Event(event)` with no callbacks and no transition in progress. -/
def FSM.Event (f : FSM) (event : String) : Except FsmError FSM :=
  match f.transitions.lookup (event, f.current) with
  | none =>
    if f.transitions.any (fun kv => kv.1.1 == event) then
      .error (.InvalidEventError event f.current)
    else
      .error (.UnknownEventError event)
  | some dst =>
    if f.current = dst then .error .NoTransitionError
    else .ok { f with current := dst }

/-! ## chaincode/tickets.go: the transition guard -/

/-- What a call yields: a nil error, a returned error with its message, or a
run-time panic (nil pointer dereference, index out of range). -/
inductive Outcome where
  | ok
  | error (msg : String)
  | crash
  deriving DecidableEq, Repr

/-- Go: `roleCanChangeState`. The map literal is keyed by the payment's
current state. -/
def roleCanChangeState (role : String) (state : PaymentState) : Bool :=
  let roleCanChangeState : List (PaymentState × String) :=
    [ (CheckFundsRequest, RoleBank),
      (CheckFundsInProgress, RoleBank),
      (CheckFundsSuccess, RoleAgent),
      (DebitRequest, RoleBank),
      (DebitInProgress, RoleBank),
      (DebitFail, RoleAgent) ]
  match roleCanChangeState.lookup state with
  | some needRole => role == needRole
  | none => false

/-- Go: `createFSM`. -/
def createFSM (currentState : PaymentState) : FSM :=
  NewFSM currentState
    [ { Name := CheckFundsInProgress, Src := [CheckFundsRequest], Dst := CheckFundsInProgress },
      { Name := CheckFundsSuccess, Src := [CheckFundsInProgress], Dst := CheckFundsSuccess },
      { Name := CheckFundsFail, Src := [CheckFundsInProgress], Dst := CheckFundsFail },
      { Name := DebitRequest, Src := [CheckFundsSuccess], Dst := DebitRequest },
      { Name := DebitInProgress, Src := [DebitRequest], Dst := DebitInProgress },
      { Name := DebitSuccess, Src := [DebitInProgress], Dst := DebitSuccess },
      { Name := DebitFail, Src := [DebitInProgress], Dst := DebitFail },
      { Name := TicketCanceled, Src := [DebitFail], Dst := TicketCanceled },
      { Name := TicketIssuanceTimeout, Src := [], Dst := TicketIssuanceTimeout },
      { Name := Refunded, Src := [DebitSuccess], Dst := Refunded } ]

def errRoleCannotChange (state : PaymentState) (role : String) : String :=
  "role can't change from state: " ++ state ++ ", role: " ++ role

def errAgentMismatch (invokerOrg payerOrg : String) : String :=
  "agent can't operate with payment of another agent. try to updatestate from: "
    ++ invokerOrg ++ ", payment originally from: " ++ payerOrg

def errBankMismatch : String := "bank can't process payment of another bank"

def errIllegalTransition (state newState : PaymentState) (role : String) : String :=
  "can't change payment state from: " ++ state ++ ", to: " ++ newState ++ ", role: " ++ role

/-- Go: `canChangePaymentState`. `invoker` is the `*Member` argument; reading
`invoker.OrganizationId` through a nil pointer is a crash. The two ownership
tests evaluate `invokerRole == ...` first, so the pointer is only read for the
roles AGENT and BANK. The steps are bound bottom-up: `fsmStep` is the last
statement, `bankStep` the one before it. -/
def canChangePaymentState (payment : Payment) (newPaymentState : PaymentState)
    (invoker : Option Member) (invokerRole : String) : Outcome :=
  let fsmStep : Outcome :=
    match (createFSM payment.State).Event newPaymentState with
    | .error _ => .error (errIllegalTransition payment.State newPaymentState invokerRole)
    | .ok _ => .ok
  let bankStep : Outcome :=
    if invokerRole = RoleBank then
      match invoker with
      | none => .crash
      | some inv =>
        if inv.OrganizationId ≠ payment.PayerBankOrgId then .error errBankMismatch
        else fsmStep
    else fsmStep
  if !roleCanChangeState invokerRole payment.State then
    .error (errRoleCannotChange payment.State invokerRole)
  else if invokerRole = RoleAgent then
    match invoker with
    | none => .crash
    | some inv =>
      if inv.OrganizationId ≠ payment.PayerOrgId then
        .error (errAgentMismatch inv.OrganizationId payment.PayerOrgId)
      else bankStep
  else bankStep

/-! ## The ledger, the invocation context and the collaborators -/

/-- A byte string held by the ledger, by what the chaincode does with it: the
JSON text `json.Marshal` gives for a `Payment` (and `json.Unmarshal` reads
back), or any other text. -/
inductive Bytes where
  | text (s : String)
  | json (p : Payment)
  deriving DecidableEq, Repr

/-- The world state: `GetState` of an absent key gives nil. -/
abbrev Ledger := String → Option Bytes

/-- Go: `len(value) == 0` for the bytes of a value; the JSON of a record is
never empty. -/
def Bytes.isEmpty : Bytes → Bool
  | .text s => s.data.isEmpty
  | .json _ => false

/-- Go: `stub.PutState(key, value)` on the world state. The ledger takes the
write of an empty value as the deletion of the key. -/
def Ledger.put (l : Ledger) (key : String) (value : Bytes) : Ledger :=
  fun k => if k = key then (if value.isEmpty then none else some value) else l k

/-- Payload of a response of the organizations chaincode, by what
`json.Unmarshal` makes of it: no bytes, bytes that fail to decode (with the
decoder's error), or the JSON of a `Member` (section 6: the collaborator
returns a Member or an error). -/
inductive MemberPayload where
  | empty
  | malformed (err : String)
  | member (m : Member)
  deriving DecidableEq, Repr

/-- Go: `pb.Response` as returned by `InvokeChaincode`. -/
structure PeerResponse where
  Status : Nat
  Message : String
  Payload : MemberPayload
  deriving DecidableEq, Repr

/-- Go: `shim.OK`. -/
def shimOK : Nat := 200

/-- The invocation context a handler runs in: the shim stub (arguments, world
state, creator, the organizations chaincode reached through `InvokeChaincode`)
and the results of the library calls whose code is outside the repository
(`encoding/json` on the argument strings, the platform's `BANK_TYPE`). -/
structure Stub where
  args : List String
  state : Ledger
  creator : Except String String
  organizationsGet : String → PeerResponse
  organizationsByITN : String → PeerResponse
  unmarshalPaymentCreatePayload : String → Except String PaymentCreatePayload
  unmarshalRequestUpdateState : String → Except String RequestUpdateState
  unmarshalPaymentError : String → String
  jsonText : Payment → String
  BANK_TYPE : String

/-- Go: `string(bytes)`. -/
def Stub.string (stub : Stub) : Bytes → String
  | .text s => s
  | .json p => stub.jsonText p

/-- Go: the `(*Member, error)` pair returned by the member lookups: a member
and no error, a member together with an error, or nil and an error. -/
inductive Lookup where
  | ok (m : Member)
  | withError (m : Member) (err : String)
  | failed (err : String)
  deriving DecidableEq, Repr

/-- The pointer half of the pair. -/
def Lookup.member? : Lookup → Option Member
  | .ok m => some m
  | .withError m _ => some m
  | .failed _ => none

/-- The error half of the pair. -/
def Lookup.err? : Lookup → Option String
  | .ok _ => none
  | .withError _ err => some err
  | .failed err => some err

/-- What a handler leaves behind: its response (or a crash), the `PutState`
calls it made and the `SetEvent` calls it made, in order. -/
inductive Response where
  | success (payload : Option Bytes)
  | error (msg : String)
  | crash
  deriving DecidableEq, Repr

structure Result where
  response : Response
  writes : List (String × Bytes)
  events : List (String × TicketsPaymentStateChangedEvent)
  deriving DecidableEq, Repr

/-- Go: `return t.WriteError(err)` before any write or event. -/
def WriteError (msg : String) : Result := ⟨.error msg, [], []⟩

/-- A run-time panic before any write or event. -/
def crashed : Result := ⟨.crash, [], []⟩

/-- The ledger after the invocation: the hosting platform applies the write
set of an invocation that returned success and drops that of any other. -/
def commit (l : Ledger) (r : Result) : Ledger :=
  match r.response with
  | .success _ => r.writes.foldl (fun acc kv => acc.put kv.1 kv.2) l
  | _ => l

/-! ## chaincode/tickets.go: identity resolution -/

def merchantKey : String := RoleMerchant
def agentKey : String := RoleAgent
def paymentKey : String := "PAYMENT"

/-- Go: `shim.CreateCompositeKey`: the namespace U+0000, the object type and
every attribute each followed by U+0000; an object type or attribute holding
U+0000 or U+10FFFF is refused. The shim's error texts are not part of this
repository: the text here stands for them and no property states it. -/
def CreateCompositeKey (objectType : String) (attributes : List String) :
    Except String String :=
  let bad (str : String) : Bool := str.data.any (fun c => c.val.toNat = 0 || c.val.toNat = 0x10FFFF)
  if bad objectType then .error ("invalid composite key attribute: " ++ objectType)
  else match attributes.find? bad with
    | some att => .error ("invalid composite key attribute: " ++ att)
    | none => .ok (attributes.foldl (fun ck att => ck ++ att ++ "\x00") ("\x00" ++ objectType ++ "\x00"))

/-- Go: `getMember`. -/
def getMember (stub : Stub) (memberId : String) : Lookup :=
  let response := stub.organizationsGet memberId
  if response.Status ≠ shimOK then .failed response.Message
  else match response.Payload with
    | .empty => .failed ("member not found: " ++ memberId)
    | .malformed err => .failed err
    | .member member =>
      if member.Type_ ≠ stub.BANK_TYPE ∧ member.ConfirmedByBank = false then
        .withError member ("member is not confirmed by bank: " ++ memberId)
      else .ok member

/-- Go: `getMerchant`. -/
def getMerchant (stub : Stub) : Lookup :=
  match stub.state merchantKey with
  | none => .failed "merchantId not set in state"
  | some merchantId => getMember stub (stub.string merchantId)

/-- Go: `getAgentKey`. -/
def getAgentKey (organizationId : String) : Except String String :=
  CreateCompositeKey agentKey [organizationId]

/-- Go: `getPaymentKey`. -/
def getPaymentKey (paymentId : String) : String :=
  paymentKey ++ "_" ++ paymentId

/-- Go: `getAgent`. -/
def getAgent (stub : Stub) (agentId : String) : Lookup :=
  match getAgentKey agentId with
  | .error err => .failed err
  | .ok agentKey =>
    match stub.state agentKey with
    | none => .failed ("agent not added with msp id = " ++ agentId)
    | some _ => getMember stub agentId

/-- Go: `getBank`. -/
def getBank (stub : Stub) (bankId : String) : Lookup :=
  match getMember stub bankId with
  | .ok bank =>
    if bank.Type_ ≠ stub.BANK_TYPE then
      .withError bank ("Organization is not bank, msp_id=" ++ bank.OrganizationId
        ++ ", type = " ++ bank.Type_)
    else .ok bank
  | r => r

/-- The values `getActors` returns with a nil error; `merchant` is then never
nil. -/
structure Actors where
  merchant : Member
  invoker : Option Member
  invokerRole : String
  deriving DecidableEq, Repr

/-- Go: `getActors`. -/
def getActors (stub : Stub) : Except String Actors :=
  match getMerchant stub with
  | .failed err => .error err
  | .withError _ err => .error err
  | .ok merchant =>
    match stub.creator with
    | .error err => .error err
    | .ok mspID =>
      if mspID = merchant.OrganizationId then
        .ok ⟨merchant, some merchant, RoleMerchant⟩
      else
        match getAgent stub mspID with
        | .ok agent => .ok ⟨merchant, some agent, RoleAgent⟩
        | _ =>
          match getBank stub mspID with
          | .ok bank => .ok ⟨merchant, some bank, RoleBank⟩
          | r => .ok ⟨merchant, r.member?, RoleUnknown⟩

/-! ## chaincode/tickets.go: payments -/

/-- Go: `getMemberByItn`. -/
def getMemberByItn (stub : Stub) (itn : String) : Except String Member :=
  let response := stub.organizationsByITN itn
  if response.Status ≠ shimOK then
    .error ("Error getting member by itn: " ++ itn ++ ", error: " ++ response.Message)
  else match response.Payload with
    | .empty => .error ("Member with itn " ++ itn ++ " not found")
    | .malformed err => .error err
    | .member member => .ok member

/-- Go: `isPaymentExists`. -/
def isPaymentExists (stub : Stub) (paymentId : String) : Bool :=
  (stub.state (getPaymentKey paymentId)).isSome

/-- Go: `getPayment`. -/
def getPayment (stub : Stub) (paymentId : String) : Except String Payment :=
  match stub.state (getPaymentKey paymentId) with
  | none => .error ("\npayment not found with id " ++ paymentId)
  | some (.text s) => .error (stub.unmarshalPaymentError s)
  | some (.json payment) => .ok payment

/-- Go: `validatePaymentPayload`; `none` is the nil error. -/
def validatePaymentPayload (stub : Stub) (paymentCreatePayload : PaymentCreatePayload)
    (invoker : Member) : Option String :=
  if isPaymentExists stub paymentCreatePayload.Id then some "payment already exists"
  else
    match getMemberByItn stub paymentCreatePayload.PayerNumber with
    | .error err => some err
    | .ok agentByItn =>
      match getMemberByItn stub paymentCreatePayload.RecipientNumber with
      | .error err => some err
      | .ok merchantByItn =>
        if invoker.OrganizationId ≠ agentByItn.OrganizationId then
          some ("agent itn mismatch in payment attributes " ++ agentByItn.OrganizationId)
        else if invoker.SettlementAccount ≠ paymentCreatePayload.PayerAccount then
          some ("agent account mismatch in payment attributes, agent account: "
            ++ invoker.SettlementAccount ++ ", payerAccount: "
            ++ paymentCreatePayload.PayerAccount)
        else if merchantByItn.SettlementAccount ≠ paymentCreatePayload.RecipientAccount then
          some ("merchant account mismatch in payment attributes, merchant account: "
            ++ merchantByItn.SettlementAccount ++ ", recipientAccount: "
            ++ paymentCreatePayload.RecipientAccount)
        else none

/-- Go: `create`. -/
def create (stub : Stub) : Result :=
  match stub.args with
  | [] => crashed
  | arg0 :: _ =>
    match stub.unmarshalPaymentCreatePayload arg0 with
    | .error err => WriteError err
    | .ok paymentCreatePayload =>
      match getActors stub with
      | .error err => WriteError err
      | .ok actors =>
        if actors.invokerRole ≠ RoleAgent then
          match actors.invoker with
          | none => crashed
          | some invoker =>
            WriteError ("only agent can add payment, your role is: " ++ actors.invokerRole
              ++ ", id: " ++ invoker.OrganizationId)
        else
          match actors.invoker with
          | none => crashed
          | some invoker =>
            match (getMember stub invoker.BankOrganizationId).err? with
            | some err => WriteError err
            | none =>
              match validatePaymentPayload stub paymentCreatePayload invoker with
              | some err => WriteError err
              | none =>
                let payment : Payment :=
                  { Id := paymentCreatePayload.Id
                    TicketNumber := ""
                    State := CheckFundsRequest
                    Amount := paymentCreatePayload.Amount
                    Currency := paymentCreatePayload.Currency
                    InternationalFlight := paymentCreatePayload.InternationalFlight
                    PaymentType := "SALE"
                    VatIncluded := false
                    Purpose := ""
                    Meta := []
                    PayerOrgId := invoker.OrganizationId
                    PayerBankOrgId := invoker.BankOrganizationId
                    PayerId := paymentCreatePayload.PayerId
                    PayerAccount := paymentCreatePayload.PayerAccount
                    PayerNumber := paymentCreatePayload.PayerNumber
                    RecipientOrgId := actors.merchant.OrganizationId
                    RecipientBankOrgId := actors.merchant.BankOrganizationId
                    RecipientId := paymentCreatePayload.RecipientId
                    RecipientAccount := paymentCreatePayload.RecipientAccount
                    RecipientNumber := paymentCreatePayload.RecipientNumber }
                let paymentKey := getPaymentKey payment.Id
                let event : TicketsPaymentStateChangedEvent :=
                  { PaymentKey := paymentKey
                    PaymentId := payment.Id
                    PreviousState := PaymentStateEmpty
                    CurrentState := CheckFundsRequest
                    To := actors.merchant
                    From := invoker
                    Amount := payment.Amount
                    Currency := "" }
                { response := .success none
                  writes := [(paymentKey, .json payment)]
                  events := [(TicketPaymentCreated, event)] }

/-- Go: `updateState`. -/
def updateState (stub : Stub) : Result :=
  match stub.args with
  | [] => crashed
  | arg0 :: _ =>
    match stub.unmarshalRequestUpdateState arg0 with
    | .error err => WriteError err
    | .ok payload =>
      if payload.State = PaymentStateEmpty then WriteError "state is empty"
      else if payload.PaymentId = "" then WriteError "paymentId is empty"
      else
        match getActors stub with
        | .error err => WriteError err
        | .ok actors =>
          match getPayment stub payload.PaymentId with
          | .error err => WriteError err
          | .ok payment =>
            match canChangePaymentState payment payload.State actors.invoker
                actors.invokerRole with
            | .crash => crashed
            | .error err => WriteError err
            | .ok =>
              match getMemberByItn stub payment.PayerNumber with
              | .error err => WriteError err
              | .ok agent =>
                let event : TicketsPaymentStateChangedEvent :=
                  { PaymentKey := getPaymentKey payment.Id
                    PaymentId := payment.Id
                    PreviousState := payment.State
                    CurrentState := payload.State
                    To := actors.merchant
                    From := agent
                    Amount := payment.Amount
                    Currency := payment.Currency }
                let payment : Payment := { payment with State := payload.State }
                { response := .success none
                  writes := [(getPaymentKey payment.Id, .json payment)]
                  events := [(TicketPaymentStateChanged, event)] }

/-! ## chaincode/tickets.go: reading a payment, the merchant binding, the agent registry -/

/-- Go: `fmt.Sprintf("%v", args)` for a `[]string`: the elements separated by
blanks, in square brackets. -/
def fmtArgs (args : List String) : String :=
  "[" ++ " ".intercalate args ++ "]"

/-- Go: `get`. The stored bytes are handed back as the payload, nil for an
absent key. -/
def get (stub : Stub) : Result :=
  match stub.args with
  | [arg0] => ⟨.success (stub.state (getPaymentKey arg0)), [], []⟩
  | args => ⟨.error ("Arguments count mismatch: " ++ fmtArgs args), [], []⟩

/-- Go: `initMerchant`, the handler of `/init`. -/
def initMerchant (stub : Stub) : Result :=
  match stub.args with
  | [arg0] =>
    match stub.state merchantKey with
    | some existsMerchantId =>
      WriteError ("MerchantId already set: " ++ stub.string existsMerchantId)
    | none => ⟨.success none, [(merchantKey, .text arg0)], []⟩
  | args => WriteError ("Arguments count mismatch: " ++ fmtArgs args)

/-- Go: `Ticket.Init`. `owner` is what the call
`t.owner.SetFromFirstArgOrCreator(stub)` of the platform's owner extension
does in this invocation (its response, its writes, its events); `Init` returns
that response after its own `PutState` of the merchant key. -/
def Init (stub : Stub) (owner : Result) : Result :=
  match stub.args with
  | [] => crashed
  | mspId :: _ =>
    { response := owner.response
      writes := (merchantKey, .text mspId) :: owner.writes
      events := owner.events }

/-- Go: `agentAdd`, the handler of `/agent/add`. -/
def agentAdd (stub : Stub) : Result :=
  match stub.args with
  | [arg0] =>
    match getActors stub with
    | .error err => WriteError err
    | .ok actors =>
      if actors.invokerRole ≠ RoleMerchant then
        WriteError ("only merchant can add agent, your role is: " ++ actors.invokerRole)
      else
        match getAgentKey arg0 with
        | .error err => WriteError err
        | .ok agentKey => ⟨.success none, [(agentKey, .text arg0)], []⟩
  | args => WriteError ("arguments count mismatch: " ++ fmtArgs args)

/-! ## chaincode/tickets.go: the merchant, the agent list, the history -/

/-- Go: `merchant`, the handler of `/merchant`. It does not read its
arguments; the success payload is the JSON of the member. -/
def merchant (stub : Stub) : Except String Member :=
  match getMerchant stub with
  | .ok merchant => .ok merchant
  | .withError _ err => .error err
  | .failed err => .error err

/-- Go: the loop of `agentList` over what the iterator yields, `agents` being
the slice built so far. -/
def agentListFrom (stub : Stub) : List (String × Bytes) → List Member →
    Except String (List Member)
  | [], agents => .ok agents
  | kv :: rest, agents =>
    match getMember stub (stub.string kv.2) with
    | .ok agent => agentListFrom stub rest (agents ++ [agent])
    | .withError _ err => .error err
    | .failed err => .error err

/-- Go: `agentList`, the handler of `/agent/list`. `iter` is what
`GetStateByPartialCompositeKey(agentKey, [])` yields, key and value, in
order. The handler does not read its arguments; the success payload is the
JSON of the members. -/
def agentList (stub : Stub) (iter : List (String × Bytes)) : Except String (List Member) :=
  agentListFrom stub iter []

/-- Go: `queryresult.KeyModification`, one element of what `GetHistoryForKey`
yields. -/
structure HistoryEntry where
  TxId : String
  Value : Bytes
  Timestamp : Int
  IsDelete : Bool
  deriving DecidableEq, Repr

/-- Modelled from the spec: the `KeyModification` record of the platform's
core entities package, whose declaration is not part of this repository
(section 4.2: txId, payload, timestamp, isDelete), under the field names
`history` fills. -/
structure KeyModification where
  TxID : String
  Payload : Bytes
  Time : Int
  IsDelete : Bool
  deriving DecidableEq, Repr

/-- Go: `history`, the handler of `/history`, with `GetKey` inlined.
`ErrKeyNotPresented` is the error of the platform's crud extension and
`GetHistoryForKey` what the ledger's history iterator yields for a key, in its
order. The success payload is the JSON of the modifications. -/
def history (stub : Stub) (ErrKeyNotPresented : String)
    (GetHistoryForKey : String → List HistoryEntry) : Except String (List KeyModification) :=
  match stub.args with
  | [] => .error ErrKeyNotPresented
  | arg0 :: _ =>
    .ok ((GetHistoryForKey (getPaymentKey arg0)).map fun modification =>
      { TxID := modification.TxId
        Payload := modification.Value
        Time := modification.Timestamp
        IsDelete := modification.IsDelete })

/-! ## The ledger's range query and history -/

/-- What `GetStateByPartialCompositeKey(objectType, [])` yields on a ledger:
the keys that start with U+0000, the object type and U+0000, each once with
the value the ledger holds for it, in the order of the keys, character by
character. -/
def IsPartialCompositeKeyRange (l : Ledger) (objectType : String)
    (iter : List (String × Bytes)) : Prop :=
  iter.Pairwise (fun a b => a.1.data < b.1.data) ∧
  ∀ k v, (k, v) ∈ iter ↔
    (l k = some v ∧ ("\x00" ++ objectType ++ "\x00").data <+: k.data)

/-- The committed writes of a ledger, oldest first, each with its key. -/
abbrev HistoryLog := List (String × HistoryEntry)

/-- The ledger together with its history. -/
structure World where
  state : Ledger
  log : HistoryLog

/-- Modelled from the spec: every write is versioned by the underlying ledger,
which retains the history of the values of a key. The history after an
invocation: a successful one adds one entry per write, under the
transaction's id and timestamp, the write of an empty value being a
deletion. -/
def recordWrites (log : HistoryLog) (txId : String) (timestamp : Int) (r : Result) :
    HistoryLog :=
  match r.response with
  | .success _ => log ++ r.writes.map fun kv => (kv.1, ⟨txId, kv.2, timestamp, kv.2.isEmpty⟩)
  | _ => log

/-- What the history iterator yields for a key: its entries, oldest first. -/
def World.historyForKey (w : World) (key : String) : List HistoryEntry :=
  (w.log.filter fun e => e.1 = key).map Prod.snd

/-- The invocation context `e` with the given creator, single argument and
ledger. -/
def invoke (e : Stub) (mspID arg : String) (l : Ledger) : Stub :=
  { e with creator := .ok mspID, args := [arg], state := l }

/-- One invocation of a handler by `mspID` with one argument, committed to the
ledger and its history. -/
def World.step (w : World) (e : Stub) (handler : Stub → Result) (mspID arg : String)
    (txId : String) (timestamp : Int) : World :=
  { state := commit w.state (handler (invoke e mspID arg w.state))
    log := recordWrites w.log txId timestamp (handler (invoke e mspID arg w.state)) }

/-- One invocation of a sequence: the handler, the creator, the single
argument, and the transaction's id and timestamp. -/
structure Invocation where
  handler : Stub → Result
  mspID : String
  arg : String
  txId : String
  timestamp : Int

/-- The world after a sequence of invocations, each committed before the next
starts. -/
def World.run (w : World) (e : Stub) : List Invocation → World
  | [] => w
  | i :: rest => World.run (w.step e i.handler i.mspID i.arg i.txId i.timestamp) e rest

/-- The responses of a sequence of invocations, in order. -/
def World.responses (w : World) (e : Stub) : List Invocation → List Response
  | [] => []
  | i :: rest =>
    (i.handler (invoke e i.mspID i.arg w.state)).response ::
      World.responses (w.step e i.handler i.mspID i.arg i.txId i.timestamp) e rest

/-- The end-to-end scenario: `A` creates with `payload`, `B` sends `u1` and
`u2`, `A` sends `u3`, `B` sends `u4` and `u5`; the n-th transaction has id
`tx n` and timestamp `time n`. -/
def paymentScenario (A B payload u1 u2 u3 u4 u5 : String) (tx : Nat → String)
    (time : Nat → Int) : List Invocation :=
  [ ⟨create, A, payload, tx 0, time 0⟩,
    ⟨updateState, B, u1, tx 1, time 1⟩,
    ⟨updateState, B, u2, tx 2, time 2⟩,
    ⟨updateState, A, u3, tx 3, time 3⟩,
    ⟨updateState, B, u4, tx 4, time 4⟩,
    ⟨updateState, B, u5, tx 5, time 5⟩ ]

/-- The state a recorded version holds, if it is a payment. -/
def KeyModification.state (k : KeyModification) : Option PaymentState :=
  match k.Payload with
  | .json p => some p.State
  | .text _ => none

/-! ## Vocabulary of the properties -/

/-- The nine (source, destination) pairs for which `createFSM` holds an entry. -/
def legalEdges : List (PaymentState × PaymentState) :=
  [ (CheckFundsRequest, CheckFundsInProgress),
    (CheckFundsInProgress, CheckFundsSuccess),
    (CheckFundsInProgress, CheckFundsFail),
    (CheckFundsSuccess, DebitRequest),
    (DebitRequest, DebitInProgress),
    (DebitInProgress, DebitSuccess),
    (DebitInProgress, DebitFail),
    (DebitFail, TicketCanceled),
    (DebitSuccess, Refunded) ]

/-- The eight (current state, requested state, role) triples of the
specification's acceptance list. -/
def acceptedTriples : List (PaymentState × PaymentState × String) :=
  [ (CheckFundsRequest, CheckFundsInProgress, RoleBank),
    (CheckFundsInProgress, CheckFundsSuccess, RoleBank),
    (CheckFundsInProgress, CheckFundsFail, RoleBank),
    (CheckFundsSuccess, DebitRequest, RoleAgent),
    (DebitRequest, DebitInProgress, RoleBank),
    (DebitInProgress, DebitSuccess, RoleBank),
    (DebitInProgress, DebitFail, RoleBank),
    (DebitFail, TicketCanceled, RoleAgent) ]

/-- The eleven enumerated payment states. -/
def paymentStates : List PaymentState :=
  [ CheckFundsRequest, CheckFundsInProgress, CheckFundsSuccess, CheckFundsFail,
    TicketIssuanceTimeout, DebitRequest, DebitInProgress, DebitSuccess, DebitFail,
    TicketCanceled, Refunded ]

/-- The invoker owns the payment in the sense of the two ownership tests: an
AGENT is the payer organization, a BANK is the payer's bank. -/
def passesOwnershipCheck (payment : Payment) (invoker : Member) (role : String) : Prop :=
  (role = RoleAgent → invoker.OrganizationId = payment.PayerOrgId) ∧
  (role = RoleBank → invoker.OrganizationId = payment.PayerBankOrgId)

/-- Every payment record sits under the key of its own identifier and is in
one of the enumerated states. -/
def WellKeyed (l : Ledger) : Prop :=
  ∀ k p, l k = some (.json p) → k = getPaymentKey p.Id ∧ p.State ∈ paymentStates

/-- No key of the ledger holds a payment record. -/
def NoPaymentRecords (l : Ledger) : Prop :=
  ∀ k p, l k ≠ some (.json p)

/-- Ledgers reached from one without payment records by `/create` and
`/updateState` invocations, each in an arbitrary invocation context over the
current ledger and each committed whether it succeeded or not. -/
inductive Reachable : Ledger → Prop where
  | start (l : Ledger) (h : NoPaymentRecords l) : Reachable l
  | create (stub : Stub) (h : Reachable stub.state) :
      Reachable (commit stub.state (create stub))
  | updateState (stub : Stub) (h : Reachable stub.state) :
      Reachable (commit stub.state (updateState stub))

/-- The nine states a payment can be stored in: the state `create` gives and
the destinations of the eight accepted triples. -/
def storableStates : List PaymentState :=
  [ CheckFundsRequest, CheckFundsInProgress, CheckFundsSuccess, CheckFundsFail,
    DebitRequest, DebitInProgress, DebitSuccess, DebitFail, TicketCanceled ]

/-- Every payment record is in one of the storable states. -/
def StorableOnly (l : Ledger) : Prop :=
  ∀ k p, l k = some (.json p) → p.State ∈ storableStates

/-- The position of a state along the accepted transitions: every accepted
transition leads to a state further on. -/
def stateRank (s : PaymentState) : Nat :=
  if s = CheckFundsInProgress then 1
  else if s = CheckFundsSuccess then 2
  else if s = CheckFundsFail then 2
  else if s = DebitRequest then 3
  else if s = DebitInProgress then 4
  else if s = DebitSuccess then 5
  else if s = DebitFail then 5
  else if s = TicketCanceled then 6
  else 0

/-- The state of the payment stored under the key of `pid`, if any. -/
def stateOf (pid : String) (l : Ledger) : Option PaymentState :=
  match l (getPaymentKey pid) with
  | some (.json p) => some p.State
  | _ => none

/-- The ledger `l2` is what a successful `/updateState` for payment `pid`
makes of the ledger `l1`. -/
def UpdatesPayment (pid : String) (l1 l2 : Ledger) : Prop :=
  ∃ (stub : Stub) (arg : String) (rest : List String) (s : PaymentState),
    stub.state = l1 ∧ stub.args = arg :: rest ∧
    stub.unmarshalRequestUpdateState arg = .ok ⟨pid, s⟩ ∧
    (updateState stub).response = .success none ∧
    l2 = commit l1 (updateState stub)

/-- Every value stored under a key of the agent registry is the text of the
organization id that key was built from. -/
def RegistryKeyed (l : Ledger) : Prop :=
  ∀ k v, l k = some v → ("\x00" ++ agentKey ++ "\x00").data <+: k.data →
    ∃ a, v = .text a ∧ getAgentKey a = .ok k

/-- Ledgers reached from one without agent-registry entries by `/init`,
`/agent/add`, `/create` and `/updateState` invocations, each in an arbitrary
invocation context over the current ledger and each committed whether it
succeeded or not. -/
inductive Operated : Ledger → Prop where
  | start (l : Ledger)
      (h : ∀ k v, l k = some v → ¬ ("\x00" ++ agentKey ++ "\x00").data <+: k.data) :
      Operated l
  | initMerchant (stub : Stub) (h : Operated stub.state) :
      Operated (commit stub.state (initMerchant stub))
  | agentAdd (stub : Stub) (h : Operated stub.state) :
      Operated (commit stub.state (agentAdd stub))
  | create (stub : Stub) (h : Operated stub.state) :
      Operated (commit stub.state (create stub))
  | updateState (stub : Stub) (h : Operated stub.state) :
      Operated (commit stub.state (updateState stub))

/-! ## Concrete organizations, payments and invocations -/

def exMerchant : Member :=
  { OrganizationId := "Org3MSP", Type_ := "MEMBER", BankOrganizationId := "Org2MSP",
    ConfirmedByBank := true, SettlementAccount := "40702-M", ITN := "7700000003" }

def exAgent : Member :=
  { OrganizationId := "Org4MSP", Type_ := "MEMBER", BankOrganizationId := "Org2MSP",
    ConfirmedByBank := true, SettlementAccount := "40702-A", ITN := "7700000004" }

def exOtherAgent : Member :=
  { OrganizationId := "Org6MSP", Type_ := "MEMBER", BankOrganizationId := "Org5MSP",
    ConfirmedByBank := true, SettlementAccount := "40702-C", ITN := "7700000006" }

def exBank : Member :=
  { OrganizationId := "Org2MSP", Type_ := "BANK", BankOrganizationId := "",
    ConfirmedByBank := false, SettlementAccount := "", ITN := "7700000002" }

def exOtherBank : Member :=
  { OrganizationId := "Org5MSP", Type_ := "BANK", BankOrganizationId := "",
    ConfirmedByBank := false, SettlementAccount := "", ITN := "7700000005" }

/-- A payment of `exAgent` through `exBank`, in the given state. -/
def exPayment (state : PaymentState) : Payment :=
  { Id := "p1", TicketNumber := "", State := state, Amount := 1500, Currency := "RUB",
    InternationalFlight := false, PaymentType := "SALE", VatIncluded := false,
    Purpose := "", Meta := [],
    PayerOrgId := "Org4MSP", PayerBankOrgId := "Org2MSP", PayerId := "payer-1",
    PayerAccount := "40702-A", PayerNumber := "7700000004",
    RecipientOrgId := "Org3MSP", RecipientBankOrgId := "Org2MSP", RecipientId := "rcpt-1",
    RecipientAccount := "40702-M", RecipientNumber := "7700000003" }

def exCreatePayload : PaymentCreatePayload :=
  { Id := "p1", AgentId := "Org4MSP", Amount := 1500, Currency := "RUB",
    InternationalFlight := false, PaymentType := "SALE", PayerId := "payer-1",
    PayerAccount := "40702-A", PayerNumber := "7700000004", RecipientId := "rcpt-1",
    RecipientAccount := "40702-M", RecipientNumber := "7700000003", VatIncluded := false }

/-- The organizations registry of the examples, by organization id. -/
def exOrganizationsGet (memberId : String) : PeerResponse :=
  if memberId = "Org3MSP" then ⟨shimOK, "", .member exMerchant⟩
  else if memberId = "Org4MSP" then ⟨shimOK, "", .member exAgent⟩
  else if memberId = "Org2MSP" then ⟨shimOK, "", .member exBank⟩
  else ⟨500, "organization not found", .empty⟩

/-- The organizations registry of the examples, by tax number. -/
def exOrganizationsByITN (itn : String) : PeerResponse :=
  if itn = "7700000003" then ⟨shimOK, "", .member exMerchant⟩
  else if itn = "7700000004" then ⟨shimOK, "", .member exAgent⟩
  else ⟨500, "organization not found", .empty⟩

/-- A ledger with the merchant bound to Org3MSP, Org4MSP registered as agent,
and no payment. -/
def exLedger0 : Ledger := fun k =>
  if k = "MERCHANT" then some (.text "Org3MSP")
  else if k = "\x00AGENT\x00Org4MSP\x00" then some (.text "Org4MSP")
  else none

/-- The ledger `exLedger0` with the given payment stored under its key. -/
def exLedgerHolding (p : Payment) : Ledger :=
  exLedger0.put (getPaymentKey p.Id) (.json p)

/-- An invocation context over the example registry: the given creator, one
argument, the given ledger. -/
def exStub (mspID : String) (l : Ledger) (update : RequestUpdateState) : Stub :=
  { args := ["payload"]
    state := l
    creator := .ok mspID
    organizationsGet := exOrganizationsGet
    organizationsByITN := exOrganizationsByITN
    unmarshalPaymentCreatePayload := fun _ => .ok exCreatePayload
    unmarshalRequestUpdateState := fun _ => .ok update
    unmarshalPaymentError := fun _ => "invalid character"
    jsonText := fun p => p.Id
    BANK_TYPE := "BANK" }

/-- The ledger after Org4MSP created payment p1 on `exLedger0`. -/
def exLedger1 : Ledger :=
  commit exLedger0 (create (exStub "Org4MSP" exLedger0 ⟨"p1", CheckFundsInProgress⟩))


/-- An organization that the registry knows but that no bank has confirmed. -/
def exUnconfirmed : Member :=
  { OrganizationId := "Org8MSP", Type_ := "MEMBER", BankOrganizationId := "Org2MSP",
    ConfirmedByBank := false, SettlementAccount := "40702-U", ITN := "7700000008" }

/-- The ledger `exLedger0` with Org8MSP added to the agent registry. -/
def exLedgerOrg8 : Ledger :=
  exLedger0.put "\x00AGENT\x00Org8MSP\x00" (.text "Org8MSP")

/-- Org8MSP invoking on `exLedgerOrg8`, with a registry that holds it as an
unconfirmed member. -/
def exStubOrg8 : Stub :=
  { exStub "Org8MSP" exLedgerOrg8 ⟨"p1", CheckFundsInProgress⟩ with
    organizationsGet := fun memberId =>
      if memberId = "Org8MSP" then ⟨shimOK, "", .member exUnconfirmed⟩
      else exOrganizationsGet memberId }

/-- The agent Org4MSP creating payment p1 again on `exLedger1`, with a
registry in which its bank Org2MSP is no longer found. -/
def exStubBankGone : Stub :=
  { exStub "Org4MSP" exLedger1 ⟨"p1", CheckFundsInProgress⟩ with
    organizationsGet := fun memberId =>
      if memberId = "Org2MSP" then ⟨500, "organization not found", .empty⟩
      else exOrganizationsGet memberId }

/-- The chaincode `Init` run again with argument Org7MSP on `exLedger1`, whose
merchant key holds Org3MSP. -/
def exStubReinit : Stub :=
  { exStub "Org3MSP" exLedger1 ⟨"p1", CheckFundsInProgress⟩ with args := ["Org7MSP"] }

/-- A payload like `exCreatePayload`, for payment p2, with payment type REFUND
and the VAT flag set. -/
def exCreatePayloadVat : PaymentCreatePayload :=
  { exCreatePayload with Id := "p2", PaymentType := "REFUND", VatIncluded := true }

/-- The agent Org4MSP sending `exCreatePayloadVat` on `exLedger0`. -/
def exStubVat : Stub :=
  { exStub "Org4MSP" exLedger0 ⟨"p2", CheckFundsInProgress⟩ with
    unmarshalPaymentCreatePayload := fun _ => .ok exCreatePayloadVat }

/-- The merchant Org3MSP adding Org8MSP to the agent registry on `exLedger0`,
with the registry of organizations of `exStubOrg8`. -/
def exStubAddOrg8 : Stub :=
  { exStubOrg8 with creator := .ok "Org3MSP", args := ["Org8MSP"], state := exLedger0 }

/-- The agent registry of `exLedgerOrg8`, as the range query yields it. -/
def exAgentRangeOrg8 : List (String × Bytes) :=
  [ ("\x00AGENT\x00Org4MSP\x00", .text "Org4MSP"),
    ("\x00AGENT\x00Org8MSP\x00", .text "Org8MSP") ]

/-- The ledger after the payer's bank moved payment p1 of `exLedger1` to
CheckFundsInProgress. -/
def exLedger2 : Ledger :=
  commit exLedger1 (updateState (exStub "Org2MSP" exLedger1 ⟨"p1", CheckFundsInProgress⟩))

/-- The invocation context of the scenario: the example registry, with the
five update requests decoded from the arguments u1 to u5. -/
def exScenarioStub : Stub :=
  { exStub "Org4MSP" exLedger0 ⟨"p1", CheckFundsInProgress⟩ with
    unmarshalRequestUpdateState := fun arg =>
      if arg = "u1" then .ok ⟨"p1", CheckFundsInProgress⟩
      else if arg = "u2" then .ok ⟨"p1", CheckFundsSuccess⟩
      else if arg = "u3" then .ok ⟨"p1", DebitRequest⟩
      else if arg = "u4" then .ok ⟨"p1", DebitInProgress⟩
      else if arg = "u5" then .ok ⟨"p1", DebitSuccess⟩
      else .error "unexpected end of JSON input" }

/-- The ledger `exLedger0` with an empty history. -/
def exWorld0 : World := ⟨exLedger0, []⟩

/-- The scenario on the example registry: the agent Org4MSP and its bank
Org2MSP, the n-th transaction with id "tx" and timestamp n. -/
def exScenario : List Invocation :=
  paymentScenario "Org4MSP" "Org2MSP" "payload" "u1" "u2" "u3" "u4" "u5"
    (fun _ => "tx") (fun n => n)

/-- A payload of the agent Org4MSP whose recipient number and account are those
of Org6MSP, which is not the merchant. -/
def exCreatePayloadToOther : PaymentCreatePayload :=
  { exCreatePayload with
    Id := "p3", RecipientAccount := "40702-C", RecipientNumber := "7700000006" }

/-- The agent Org4MSP sending `exCreatePayloadToOther` on `exLedger0`, the
registry of organizations resolving the tax number of Org6MSP as well. -/
def exStubToOther : Stub :=
  { exStub "Org4MSP" exLedger0 ⟨"p3", CheckFundsInProgress⟩ with
    unmarshalPaymentCreatePayload := fun _ => .ok exCreatePayloadToOther
    organizationsByITN := fun itn =>
      if itn = "7700000006" then ⟨shimOK, "", .member exOtherAgent⟩
      else exOrganizationsByITN itn }

/-- A ledger with the merchant bound to Org3MSP and nothing else. -/
def exLedgerMerchant : Ledger := fun k =>
  if k = "MERCHANT" then some (.text "Org3MSP") else none

/-- The handler `/init` invoked with the empty argument on a ledger that holds
nothing. -/
def exStubInitEmpty : Stub :=
  { exStubReinit with args := [""], state := fun _ => none }

/-- The merchant Org3MSP asking on `exLedger0` to add an id that holds
U+0000. -/
def exStubAddBadId : Stub :=
  { exStub "Org3MSP" exLedger0 ⟨"p1", CheckFundsInProgress⟩ with args := ["Org\x009MSP"] }

/-- The merchant Org3MSP asking on `exLedger0` to add the empty id. -/
def exStubAddEmpty : Stub :=
  { exStub "Org3MSP" exLedger0 ⟨"p1", CheckFundsInProgress⟩ with args := [""] }

/-! ## The transition table -/

theorem createFSM_transitions (st : PaymentState) :
    (createFSM st).transitions =
      [ (("Refunded", "DebitSuccess"), "Refunded"),
        (("TicketCanceled", "DebitFail"), "TicketCanceled"),
        (("DebitFail", "DebitInProgress"), "DebitFail"),
        (("DebitSuccess", "DebitInProgress"), "DebitSuccess"),
        (("DebitInProgress", "DebitRequest"), "DebitInProgress"),
        (("DebitRequest", "CheckFundsSuccess"), "DebitRequest"),
        (("CheckFundsFail", "CheckFundsInProgress"), "CheckFundsFail"),
        (("CheckFundsSuccess", "CheckFundsInProgress"), "CheckFundsSuccess"),
        (("CheckFundsInProgress", "CheckFundsRequest"), "CheckFundsInProgress") ] := rfl

theorem createFSM_current (st : PaymentState) : (createFSM st).current = st := rfl

theorem lookup_cons_ne {α β : Type} [BEq α] [LawfulBEq α] (k a : α) (b : β)
    (es : List (α × β)) (h : k ≠ a) :
    List.lookup k ((a, b) :: es) = List.lookup k es := by
  have hk : (k == a) = false := by simpa using h
  simp [List.lookup, hk]

/-- The state machine built by `createFSM` fires an event exactly on the nine
edges of the table. -/
theorem event_isOk_iff (st ev : PaymentState) :
    ((createFSM st).Event ev).isOk = true ↔ (st, ev) ∈ legalEdges := by
  unfold FSM.Event
  rw [createFSM_transitions, createFSM_current]
  by_cases h1 : (ev, st) = ("Refunded", "DebitSuccess")
  · cases h1; decide
  by_cases h2 : (ev, st) = ("TicketCanceled", "DebitFail")
  · cases h2; decide
  by_cases h3 : (ev, st) = ("DebitFail", "DebitInProgress")
  · cases h3; decide
  by_cases h4 : (ev, st) = ("DebitSuccess", "DebitInProgress")
  · cases h4; decide
  by_cases h5 : (ev, st) = ("DebitInProgress", "DebitRequest")
  · cases h5; decide
  by_cases h6 : (ev, st) = ("DebitRequest", "CheckFundsSuccess")
  · cases h6; decide
  by_cases h7 : (ev, st) = ("CheckFundsFail", "CheckFundsInProgress")
  · cases h7; decide
  by_cases h8 : (ev, st) = ("CheckFundsSuccess", "CheckFundsInProgress")
  · cases h8; decide
  by_cases h9 : (ev, st) = ("CheckFundsInProgress", "CheckFundsRequest")
  · cases h9; decide
  rw [lookup_cons_ne _ _ _ _ h1, lookup_cons_ne _ _ _ _ h2, lookup_cons_ne _ _ _ _ h3,
    lookup_cons_ne _ _ _ _ h4, lookup_cons_ne _ _ _ _ h5, lookup_cons_ne _ _ _ _ h6,
    lookup_cons_ne _ _ _ _ h7, lookup_cons_ne _ _ _ _ h8, lookup_cons_ne _ _ _ _ h9]
  have hno : (st, ev) ∉ legalEdges := by
    intro hmem
    simp only [legalEdges, List.mem_cons, List.mem_singleton, List.not_mem_nil, Prod.mk.injEq,
      or_false] at hmem
    rcases hmem with h | h | h | h | h | h | h | h | h
    all_goals
      obtain ⟨hst, hev⟩ := h
      subst hst hev
    · exact h9 rfl
    · exact h8 rfl
    · exact h7 rfl
    · exact h6 rfl
    · exact h5 rfl
    · exact h4 rfl
    · exact h3 rfl
    · exact h2 rfl
    · exact h1 rfl
  simp only [List.lookup, hno, iff_false]
  split <;> simp [Except.isOk, Except.toBool]

/-- The role map of `roleCanChangeState`, entry by entry. -/
theorem roleCanChangeState_iff (role : String) (st : PaymentState) :
    roleCanChangeState role st = true ↔
      (st = CheckFundsRequest ∧ role = RoleBank) ∨
      (st = CheckFundsInProgress ∧ role = RoleBank) ∨
      (st = CheckFundsSuccess ∧ role = RoleAgent) ∨
      (st = DebitRequest ∧ role = RoleBank) ∨
      (st = DebitInProgress ∧ role = RoleBank) ∨
      (st = DebitFail ∧ role = RoleAgent) := by
  unfold roleCanChangeState
  by_cases h1 : st = CheckFundsRequest
  · subst h1
    simp [List.lookup, CheckFundsRequest, CheckFundsInProgress, CheckFundsSuccess, DebitRequest,
      DebitInProgress, DebitFail]
  by_cases h2 : st = CheckFundsInProgress
  · subst h2
    simp [List.lookup, CheckFundsRequest, CheckFundsInProgress, CheckFundsSuccess, DebitRequest,
      DebitInProgress, DebitFail]
  by_cases h3 : st = CheckFundsSuccess
  · subst h3
    simp [List.lookup, CheckFundsRequest, CheckFundsInProgress, CheckFundsSuccess, DebitRequest,
      DebitInProgress, DebitFail]
  by_cases h4 : st = DebitRequest
  · subst h4
    simp [List.lookup, CheckFundsRequest, CheckFundsInProgress, CheckFundsSuccess, DebitRequest,
      DebitInProgress, DebitFail]
  by_cases h5 : st = DebitInProgress
  · subst h5
    simp [List.lookup, CheckFundsRequest, CheckFundsInProgress, CheckFundsSuccess, DebitRequest,
      DebitInProgress, DebitFail]
  by_cases h6 : st = DebitFail
  · subst h6
    simp [List.lookup, CheckFundsRequest, CheckFundsInProgress, CheckFundsSuccess, DebitRequest,
      DebitInProgress, DebitFail]
  have e1 : (st == CheckFundsRequest) = false := by simpa using h1
  have e2 : (st == CheckFundsInProgress) = false := by simpa using h2
  have e3 : (st == CheckFundsSuccess) = false := by simpa using h3
  have e4 : (st == DebitRequest) = false := by simpa using h4
  have e5 : (st == DebitInProgress) = false := by simpa using h5
  have e6 : (st == DebitFail) = false := by simpa using h6
  simp [List.lookup, e1, e2, e3, e4, e5, e6, h1, h2, h3, h4, h5, h6]

/-- A role the map lets through is AGENT or BANK. -/
theorem roleCanChangeState_role (role : String) (st : PaymentState)
    (h : roleCanChangeState role st = true) : role = RoleAgent ∨ role = RoleBank := by
  rcases (roleCanChangeState_iff role st).1 h with h | h | h | h | h | h
  all_goals simp [h.2]

/-- The first test of `canChangePaymentState`: a role the map refuses gets the
role error, whoever the invoker is. -/
theorem canChange_role_refused (p : Payment) (s : PaymentState) (inv : Option Member)
    (role : String) (h : roleCanChangeState role p.State = false) :
    canChangePaymentState p s inv role = .error (errRoleCannotChange p.State role) := by
  simp [canChangePaymentState, h]

/-- The guard with a present invoker, test by test. -/
theorem canChange_some (p : Payment) (s : PaymentState) (m : Member) (role : String) :
    canChangePaymentState p s (some m) role =
      if roleCanChangeState role p.State = false then
        .error (errRoleCannotChange p.State role)
      else if role = RoleAgent ∧ m.OrganizationId ≠ p.PayerOrgId then
        .error (errAgentMismatch m.OrganizationId p.PayerOrgId)
      else if role = RoleBank ∧ m.OrganizationId ≠ p.PayerBankOrgId then
        .error errBankMismatch
      else if (p.State, s) ∈ legalEdges then .ok
      else .error (errIllegalTransition p.State s role) := by
  have hev := event_isOk_iff p.State s
  unfold canChangePaymentState
  by_cases hr : roleCanChangeState role p.State = true
  · by_cases ha : role = RoleAgent <;> by_cases hb : role = RoleBank <;>
      by_cases hoa : m.OrganizationId = p.PayerOrgId <;>
      by_cases hob : m.OrganizationId = p.PayerBankOrgId <;>
      by_cases he : (p.State, s) ∈ legalEdges <;>
      cases hE : (createFSM p.State).Event s <;>
      simp_all [Except.isOk, Except.toBool]
  · simp at hr
    simp [hr]

/-- The guard with an absent invoker: the role error when the map refuses the
role, a nil dereference otherwise. -/
theorem canChange_none (p : Payment) (s : PaymentState) (role : String) :
    canChangePaymentState p s none role =
      if roleCanChangeState role p.State = false then
        .error (errRoleCannotChange p.State role)
      else .crash := by
  unfold canChangePaymentState
  by_cases hr : roleCanChangeState role p.State = true
  · rcases roleCanChangeState_role role p.State hr with ha | hb
    · simp [hr, ha]
    · have : RoleBank ≠ RoleAgent := by decide
      simp [hr, hb, this]
  · simp at hr
    simp [hr]


/-- The role map and the transition table together admit exactly the eight
triples of the acceptance list. -/
theorem role_and_edge_iff (st s : PaymentState) (role : String) :
    (roleCanChangeState role st = true ∧ (st, s) ∈ legalEdges) ↔
      (st, s, role) ∈ acceptedTriples := by
  rw [roleCanChangeState_iff]
  constructor
  · rintro ⟨h1, h2⟩
    rcases h1 with h | h | h | h | h | h <;> obtain ⟨hst, hrole⟩ := h <;> subst hst hrole <;>
      simp [legalEdges, acceptedTriples, CheckFundsRequest, CheckFundsInProgress,
        CheckFundsSuccess, CheckFundsFail, DebitRequest, DebitInProgress, DebitSuccess,
        DebitFail, TicketCanceled, Refunded, RoleAgent, RoleBank] at h2 ⊢ <;>
      exact h2
  · intro h
    simp only [acceptedTriples, List.mem_cons, List.mem_singleton, List.not_mem_nil,
      Prod.mk.injEq, or_false] at h
    rcases h with h | h | h | h | h | h | h | h <;> obtain ⟨hst, hs, hrole⟩ := h <;>
      subst hst hs hrole <;> decide

/-- When the guard returns no error. -/
theorem canChange_ok_iff (p : Payment) (s : PaymentState) (inv : Option Member)
    (role : String) :
    canChangePaymentState p s inv role = .ok ↔
      (p.State, s, role) ∈ acceptedTriples ∧
      ∃ m, inv = some m ∧
        ((role = RoleAgent ∧ m.OrganizationId = p.PayerOrgId) ∨
         (role = RoleBank ∧ m.OrganizationId = p.PayerBankOrgId)) := by
  rw [← role_and_edge_iff]
  have hab : RoleBank ≠ RoleAgent := by decide
  cases inv with
  | none =>
    rw [canChange_none]
    by_cases hr : roleCanChangeState role p.State = true
    · simp [hr]
    · simp at hr
      simp [hr]
  | some m =>
    rw [canChange_some]
    by_cases hr : roleCanChangeState role p.State = true
    · rcases roleCanChangeState_role role p.State hr with ha | hb
      · subst ha
        by_cases hoa : m.OrganizationId = p.PayerOrgId <;>
          by_cases he : (p.State, s) ∈ legalEdges <;>
          simp [hr, hoa, he, hab.symm]
      · subst hb
        by_cases hob : m.OrganizationId = p.PayerBankOrgId <;>
          by_cases he : (p.State, s) ∈ legalEdges <;>
          simp [hr, hob, he, hab]
    · simp at hr
      simp [hr]

/-- With a present invoker the guard never crashes. -/
theorem canChange_some_returns (p : Payment) (s : PaymentState) (m : Member) (role : String) :
    canChangePaymentState p s (some m) role = .ok ∨
      ∃ msg, canChangePaymentState p s (some m) role = .error msg := by
  rw [canChange_some]
  split
  · exact Or.inr ⟨_, rfl⟩
  · split
    · exact Or.inr ⟨_, rfl⟩
    · split
      · exact Or.inr ⟨_, rfl⟩
      · split
        · exact Or.inl rfl
        · exact Or.inr ⟨_, rfl⟩

/-! ## The transition guard: claims -/

/-- C1 (counterexample): the payment is in CheckFundsSuccess and the invoker is
its paying agent, so the ownership check passes; the request for DebitRequest
is accepted with role AGENT, which is not BANK, and refused for the payer's
bank with role BANK. Likewise the payer's bank, not the agent, moves the
payment from CheckFundsInProgress to CheckFundsSuccess and from
DebitInProgress to DebitFail. -/
theorem C1_counterexample :
    passesOwnershipCheck (exPayment CheckFundsSuccess) exAgent RoleAgent ∧
    passesOwnershipCheck (exPayment CheckFundsSuccess) exBank RoleBank ∧
    RoleAgent ≠ RoleBank ∧
    canChangePaymentState (exPayment CheckFundsSuccess) DebitRequest (some exAgent) RoleAgent
      = .ok ∧
    canChangePaymentState (exPayment CheckFundsSuccess) DebitRequest (some exBank) RoleBank
      = .error "role can't change from state: CheckFundsSuccess, role: BANK" ∧
    canChangePaymentState (exPayment CheckFundsInProgress) CheckFundsSuccess (some exBank)
        RoleBank = .ok ∧
    canChangePaymentState (exPayment CheckFundsInProgress) CheckFundsSuccess (some exAgent)
        RoleAgent = .error "role can't change from state: CheckFundsInProgress, role: AGENT" ∧
    canChangePaymentState (exPayment DebitInProgress) DebitFail (some exBank) RoleBank
      = .ok ∧
    canChangePaymentState (exPayment DebitInProgress) DebitFail (some exAgent) RoleAgent
      = .error "role can't change from state: DebitInProgress, role: AGENT" := by
  refine ⟨⟨fun _ => rfl, fun h => absurd h (by decide)⟩,
    ⟨fun h => absurd h (by decide), fun _ => rfl⟩, ?_⟩
  decide

/-- C1 (amended): the role required for a transition is determined by its
source state. For every payment whose invoker passes the ownership check,
CheckFundsRequest to CheckFundsInProgress, CheckFundsInProgress to
CheckFundsSuccess, DebitRequest to DebitInProgress and DebitInProgress to
DebitFail are accepted exactly when the role is BANK, and CheckFundsSuccess to
DebitRequest exactly when the role is AGENT; with any other role the request
is answered with an error. -/
theorem C1_role_follows_source_state (p : Payment) (m : Member) (role : String)
    (hown : passesOwnershipCheck p m role) :
    (p.State = CheckFundsRequest →
      (canChangePaymentState p CheckFundsInProgress (some m) role = .ok ↔ role = RoleBank)) ∧
    (p.State = CheckFundsInProgress →
      (canChangePaymentState p CheckFundsSuccess (some m) role = .ok ↔ role = RoleBank)) ∧
    (p.State = CheckFundsSuccess →
      (canChangePaymentState p DebitRequest (some m) role = .ok ↔ role = RoleAgent)) ∧
    (p.State = DebitRequest →
      (canChangePaymentState p DebitInProgress (some m) role = .ok ↔ role = RoleBank)) ∧
    (p.State = DebitInProgress →
      (canChangePaymentState p DebitFail (some m) role = .ok ↔ role = RoleBank)) ∧
    (∀ s, canChangePaymentState p s (some m) role ≠ .ok →
      ∃ msg, canChangePaymentState p s (some m) role = .error msg) := by
  have key : ∀ st s r, (st, s, r) ∈ acceptedTriples → p.State = st →
      (canChangePaymentState p s (some m) role = .ok ↔ role = r) := by
    intro st s r hmem hst
    rw [canChange_ok_iff, hst]
    constructor
    · rintro ⟨h, -⟩
      simp only [acceptedTriples, List.mem_cons, List.mem_singleton, List.not_mem_nil,
        Prod.mk.injEq, or_false] at h hmem
      rcases hmem with e | e | e | e | e | e | e | e <;> obtain ⟨est, es, er⟩ := e <;>
        subst est es er <;>
        simp [CheckFundsRequest, CheckFundsInProgress, CheckFundsSuccess, CheckFundsFail,
          DebitRequest, DebitInProgress, DebitSuccess, DebitFail, TicketCanceled] at h <;>
        exact h
    · intro hr
      subst hr
      refine ⟨hmem, m, rfl, ?_⟩
      have hrole : role = RoleAgent ∨ role = RoleBank := by
        simp only [acceptedTriples, List.mem_cons, List.mem_singleton, List.not_mem_nil,
          Prod.mk.injEq, or_false] at hmem
        rcases hmem with e | e | e | e | e | e | e | e <;> simp [e.2.2]
      rcases hrole with h | h
      · exact Or.inl ⟨h, hown.1 h⟩
      · exact Or.inr ⟨h, hown.2 h⟩
  refine ⟨key _ _ _ (by decide), key _ _ _ (by decide), key _ _ _ (by decide),
    key _ _ _ (by decide), key _ _ _ (by decide), ?_⟩
  intro s hne
  rcases canChange_some_returns p s m role with h | h
  · exact absurd h hne
  · exact h

/-- C1 (witness): the paying agent of a payment in CheckFundsSuccess. -/
theorem C1_role_follows_source_state_witness :
    passesOwnershipCheck (exPayment CheckFundsSuccess) exAgent RoleAgent ∧
    (canChangePaymentState (exPayment CheckFundsSuccess) DebitRequest (some exAgent) RoleAgent
      = .ok ↔ RoleAgent = RoleAgent) :=
  ⟨⟨fun _ => rfl, fun h => absurd h (by decide)⟩,
    (C1_role_follows_source_state (exPayment CheckFundsSuccess) exAgent RoleAgent
      ⟨fun _ => rfl, fun h => absurd h (by decide)⟩).2.2.1 rfl⟩

/-- C2: `canChangePaymentState` returns no error if and only if (current
state, requested state, role) is one of the eight listed triples and the
invoker's organization id is the payment's PayerOrgId for role AGENT, its
PayerBankOrgId for role BANK; for every other state, requested state, role and
invoker it returns an error. -/
theorem C2_accepts_exactly_eight_triples (p : Payment) (s : PaymentState) (role : String) :
    (∀ inv : Option Member,
      canChangePaymentState p s inv role = .ok ↔
        (p.State, s, role) ∈ acceptedTriples ∧
        ∃ m, inv = some m ∧
          ((role = RoleAgent ∧ m.OrganizationId = p.PayerOrgId) ∨
           (role = RoleBank ∧ m.OrganizationId = p.PayerBankOrgId))) ∧
    (∀ m : Member,
      canChangePaymentState p s (some m) role = .ok ∨
        ∃ msg, canChangePaymentState p s (some m) role = .error msg) :=
  ⟨fun inv => canChange_ok_iff p s inv role, fun m => canChange_some_returns p s m role⟩

/-- C3 (counterexample): the payer's bank moves a payment from DebitInProgress
to DebitSuccess and from CheckFundsInProgress to CheckFundsFail, and the
paying agent moves one from DebitFail to TicketCanceled. -/
theorem C3_counterexample :
    canChangePaymentState (exPayment DebitInProgress) DebitSuccess (some exBank) RoleBank
      = .ok ∧
    canChangePaymentState (exPayment CheckFundsInProgress) CheckFundsFail (some exBank) RoleBank
      = .ok ∧
    canChangePaymentState (exPayment DebitFail) TicketCanceled (some exAgent) RoleAgent
      = .ok := by
  decide

/-- C3 (amended): for every payment, invoker and role a request for Refunded
or TicketIssuanceTimeout is rejected (with an error whenever the invoker is
present); a request for CheckFundsFail or DebitSuccess is accepted exactly
from CheckFundsInProgress, respectively DebitInProgress, for the payer's bank
in role BANK, and a request for TicketCanceled exactly from DebitFail for the
paying agent in role AGENT. -/
theorem C3_unreachable_destinations (p : Payment) (inv : Option Member) (role : String) :
    canChangePaymentState p Refunded inv role ≠ .ok ∧
    canChangePaymentState p TicketIssuanceTimeout inv role ≠ .ok ∧
    (∀ m, ∃ msg, canChangePaymentState p Refunded (some m) role = .error msg) ∧
    (∀ m, ∃ msg, canChangePaymentState p TicketIssuanceTimeout (some m) role = .error msg) ∧
    (canChangePaymentState p CheckFundsFail inv role = .ok ↔
      p.State = CheckFundsInProgress ∧ role = RoleBank ∧
        ∃ m, inv = some m ∧ m.OrganizationId = p.PayerBankOrgId) ∧
    (canChangePaymentState p DebitSuccess inv role = .ok ↔
      p.State = DebitInProgress ∧ role = RoleBank ∧
        ∃ m, inv = some m ∧ m.OrganizationId = p.PayerBankOrgId) ∧
    (canChangePaymentState p TicketCanceled inv role = .ok ↔
      p.State = DebitFail ∧ role = RoleAgent ∧
        ∃ m, inv = some m ∧ m.OrganizationId = p.PayerOrgId) := by
  have hR : ∀ i, canChangePaymentState p Refunded i role ≠ .ok := by
    intro i h
    have h1 := ((canChange_ok_iff p Refunded i role).1 h).1
    simp [acceptedTriples, CheckFundsRequest, CheckFundsInProgress, CheckFundsSuccess,
      CheckFundsFail, DebitRequest, DebitInProgress, DebitSuccess, DebitFail, TicketCanceled,
      Refunded] at h1
  have hT : ∀ i, canChangePaymentState p TicketIssuanceTimeout i role ≠ .ok := by
    intro i h
    have h1 := ((canChange_ok_iff p TicketIssuanceTimeout i role).1 h).1
    simp [acceptedTriples, CheckFundsRequest, CheckFundsInProgress, CheckFundsSuccess,
      CheckFundsFail, DebitRequest, DebitInProgress, DebitSuccess, DebitFail, TicketCanceled,
      TicketIssuanceTimeout] at h1
  have hab : RoleAgent ≠ RoleBank := by decide
  refine ⟨hR inv, hT inv, ?_, ?_, ?_, ?_, ?_⟩
  · intro m
    rcases canChange_some_returns p Refunded m role with h | h
    · exact absurd h (hR _)
    · exact h
  · intro m
    rcases canChange_some_returns p TicketIssuanceTimeout m role with h | h
    · exact absurd h (hT _)
    · exact h
  · rw [canChange_ok_iff]
    constructor
    · rintro ⟨h1, m, rfl, h2⟩
      simp [acceptedTriples, CheckFundsRequest, CheckFundsInProgress, CheckFundsSuccess,
        CheckFundsFail, DebitRequest, DebitInProgress, DebitSuccess, DebitFail,
        TicketCanceled] at h1
      obtain ⟨hs, hr⟩ := h1
      subst hr
      rcases h2 with ⟨h, -⟩ | ⟨-, h⟩
      · exact absurd h.symm hab
      · exact ⟨hs, rfl, m, rfl, h⟩
    · rintro ⟨hs, rfl, m, rfl, ho⟩
      rw [hs]
      exact ⟨by decide, m, rfl, Or.inr ⟨rfl, ho⟩⟩
  · rw [canChange_ok_iff]
    constructor
    · rintro ⟨h1, m, rfl, h2⟩
      simp [acceptedTriples, CheckFundsRequest, CheckFundsInProgress, CheckFundsSuccess,
        CheckFundsFail, DebitRequest, DebitInProgress, DebitSuccess, DebitFail,
        TicketCanceled] at h1
      obtain ⟨hs, hr⟩ := h1
      subst hr
      rcases h2 with ⟨h, -⟩ | ⟨-, h⟩
      · exact absurd h.symm hab
      · exact ⟨hs, rfl, m, rfl, h⟩
    · rintro ⟨hs, rfl, m, rfl, ho⟩
      rw [hs]
      exact ⟨by decide, m, rfl, Or.inr ⟨rfl, ho⟩⟩
  · rw [canChange_ok_iff]
    constructor
    · rintro ⟨h1, m, rfl, h2⟩
      simp [acceptedTriples, CheckFundsRequest, CheckFundsInProgress, CheckFundsSuccess,
        CheckFundsFail, DebitRequest, DebitInProgress, DebitSuccess, DebitFail,
        TicketCanceled] at h1
      obtain ⟨hs, hr⟩ := h1
      subst hr
      rcases h2 with ⟨-, h⟩ | ⟨h, -⟩
      · exact ⟨hs, rfl, m, rfl, h⟩
      · exact absurd h hab
    · rintro ⟨hs, rfl, m, rfl, ho⟩
      rw [hs]
      exact ⟨by decide, m, rfl, Or.inl ⟨rfl, ho⟩⟩

/-- C4 (counterexample): a payment in DebitFail is moved to TicketCanceled by
its paying agent, so DebitFail is not terminal. -/
theorem C4_counterexample :
    (exPayment DebitFail).State = DebitFail ∧
    canChangePaymentState (exPayment DebitFail) TicketCanceled (some exAgent) RoleAgent
      = .ok ∧
    (updateState (exStub "Org4MSP" (exLedgerHolding (exPayment DebitFail))
        ⟨"p1", TicketCanceled⟩)).writes
      = [("PAYMENT_p1", .json (exPayment TicketCanceled))] := by
  decide

/-- C4 (amended): TicketCanceled, Refunded and TicketIssuanceTimeout are
terminal. For every payment whose current state is one of these three and for
every requested state, role and invoker (present or absent),
`canChangePaymentState` returns the role error, and an `/updateState` whose
request addresses such a payment returns that error, writes nothing and emits
nothing. -/
theorem C4_terminal_states (p : Payment) (s : PaymentState) (inv : Option Member)
    (role : String)
    (hterm : p.State = TicketCanceled ∨ p.State = Refunded ∨ p.State = TicketIssuanceTimeout) :
    canChangePaymentState p s inv role
      = .error ("role can't change from state: " ++ p.State ++ ", role: " ++ role) ∧
    ∀ (stub : Stub) (arg : String) (rest : List String) (payload : RequestUpdateState),
      stub.args = arg :: rest →
      stub.unmarshalRequestUpdateState arg = .ok payload →
      getPayment stub payload.PaymentId = .ok p →
      ∃ msg, updateState stub = ⟨.error msg, [], []⟩ := by
  have hrole : ∀ r, roleCanChangeState r p.State = false := by
    intro r
    cases hr : roleCanChangeState r p.State with
    | false => rfl
    | true =>
      exfalso
      have h := (roleCanChangeState_iff r p.State).1 hr
      rcases hterm with ht | ht | ht <;> rw [ht] at h <;>
        simp [CheckFundsRequest, CheckFundsInProgress, CheckFundsSuccess, DebitRequest,
          DebitInProgress, DebitFail, TicketCanceled, Refunded, TicketIssuanceTimeout] at h
  refine ⟨canChange_role_refused p s inv role (hrole role), ?_⟩
  intro stub arg rest payload hargs hdec hget
  unfold updateState
  simp only [hargs, hdec]
  split
  · exact ⟨_, rfl⟩
  · split
    · exact ⟨_, rfl⟩
    · cases hact : getActors stub with
      | error e => exact ⟨_, rfl⟩
      | ok actors =>
        simp only [hget, canChange_role_refused p payload.State actors.invoker
          actors.invokerRole (hrole _)]
        exact ⟨_, rfl⟩

/-- C4 (witness): a canceled payment, asked back to DebitFail by its agent. -/
theorem C4_terminal_states_witness :
    ((exPayment TicketCanceled).State = TicketCanceled ∨
      (exPayment TicketCanceled).State = Refunded ∨
      (exPayment TicketCanceled).State = TicketIssuanceTimeout) ∧
    canChangePaymentState (exPayment TicketCanceled) DebitFail (some exAgent) RoleAgent
      = .error ("role can't change from state: " ++ (exPayment TicketCanceled).State
          ++ ", role: " ++ RoleAgent) :=
  ⟨Or.inl rfl,
    (C4_terminal_states (exPayment TicketCanceled) DebitFail (some exAgent) RoleAgent
      (Or.inl rfl)).1⟩

/-- C5 (counterexample): another agent asks for a payment in CheckFundsRequest;
the answer is the role error, not the agent-mismatch error. -/
theorem C5_counterexample :
    exOtherAgent.OrganizationId ≠ (exPayment CheckFundsRequest).PayerOrgId ∧
    canChangePaymentState (exPayment CheckFundsRequest) CheckFundsInProgress
        (some exOtherAgent) RoleAgent
      = .error "role can't change from state: CheckFundsRequest, role: AGENT" ∧
    canChangePaymentState (exPayment CheckFundsRequest) CheckFundsInProgress
        (some exOtherAgent) RoleAgent
      ≠ .error ("agent can't operate with payment of another agent. try to updatestate from: "
          ++ "Org6MSP" ++ ", payment originally from: " ++ "Org4MSP") := by
  decide

/-- C5 (amended): for every payment, every requested state and every AGENT
invoker whose organization id differs from the payment's PayerOrgId,
`canChangePaymentState` fails; it fails with the agent-mismatch error when the
payment's current state is one the agent acts on (CheckFundsSuccess or
DebitFail), whether or not the requested transition is a legal edge, and with
the role error in every other current state. -/
theorem C5_agent_mismatch (p : Payment) (s : PaymentState) (m : Member)
    (hne : m.OrganizationId ≠ p.PayerOrgId) :
    canChangePaymentState p s (some m) RoleAgent ≠ .ok ∧
    (p.State = CheckFundsSuccess ∨ p.State = DebitFail →
      canChangePaymentState p s (some m) RoleAgent
        = .error ("agent can't operate with payment of another agent. try to updatestate from: "
            ++ m.OrganizationId ++ ", payment originally from: " ++ p.PayerOrgId)) ∧
    (¬ (p.State = CheckFundsSuccess ∨ p.State = DebitFail) →
      canChangePaymentState p s (some m) RoleAgent
        = .error ("role can't change from state: " ++ p.State ++ ", role: " ++ RoleAgent)) := by
  have hab : RoleAgent ≠ RoleBank := by decide
  have hrole : roleCanChangeState RoleAgent p.State = true ↔
      (p.State = CheckFundsSuccess ∨ p.State = DebitFail) := by
    rw [roleCanChangeState_iff]
    simp [hab]
  refine ⟨?_, ?_, ?_⟩
  · intro h
    obtain ⟨-, m', hm, h2⟩ := (canChange_ok_iff p s (some m) RoleAgent).1 h
    cases hm
    rcases h2 with ⟨-, h⟩ | ⟨h, -⟩
    · exact hne h
    · exact hab h
  · intro hst
    rw [canChange_some]
    simp [hrole.2 hst, hne, errAgentMismatch]
  · intro hst
    have hf : roleCanChangeState RoleAgent p.State = false := by
      cases hr : roleCanChangeState RoleAgent p.State with
      | false => rfl
      | true => exact absurd (hrole.1 hr) hst
    exact canChange_role_refused p s (some m) RoleAgent hf

/-- C5 (witness): another agent asks for a payment in CheckFundsSuccess. -/
theorem C5_agent_mismatch_witness :
    exOtherAgent.OrganizationId ≠ (exPayment CheckFundsSuccess).PayerOrgId ∧
    canChangePaymentState (exPayment CheckFundsSuccess) DebitRequest (some exOtherAgent)
        RoleAgent
      = .error ("agent can't operate with payment of another agent. try to updatestate from: "
          ++ exOtherAgent.OrganizationId ++ ", payment originally from: "
          ++ (exPayment CheckFundsSuccess).PayerOrgId) :=
  ⟨by decide,
    (C5_agent_mismatch (exPayment CheckFundsSuccess) DebitRequest exOtherAgent
      (by decide)).2.1 (Or.inl rfl)⟩

/-- C6: a BANK invoker whose organization id differs from the payment's
PayerBankOrgId never gets the transition, and for a payment in
CheckFundsRequest, CheckFundsInProgress, DebitRequest or DebitInProgress the
error is exactly "bank can't process payment of another bank", whatever state
is requested. -/
theorem C6_bank_mismatch (p : Payment) (s : PaymentState) (m : Member)
    (hne : m.OrganizationId ≠ p.PayerBankOrgId) :
    canChangePaymentState p s (some m) RoleBank ≠ .ok ∧
    (p.State = CheckFundsRequest ∨ p.State = CheckFundsInProgress ∨
        p.State = DebitRequest ∨ p.State = DebitInProgress →
      canChangePaymentState p s (some m) RoleBank
        = .error "bank can't process payment of another bank") := by
  have hab : RoleBank ≠ RoleAgent := by decide
  refine ⟨?_, ?_⟩
  · intro h
    obtain ⟨-, m', hm, h2⟩ := (canChange_ok_iff p s (some m) RoleBank).1 h
    cases hm
    rcases h2 with ⟨h, -⟩ | ⟨-, h⟩
    · exact hab h
    · exact hne h
  · intro hst
    have hr : roleCanChangeState RoleBank p.State = true := by
      rw [roleCanChangeState_iff]
      rcases hst with h | h | h | h <;> simp [h]
    rw [canChange_some]
    simp [hr, hne, hab, errBankMismatch]

/-- C6 (witness): another bank asks for a payment in DebitRequest. -/
theorem C6_bank_mismatch_witness :
    exOtherBank.OrganizationId ≠ (exPayment DebitRequest).PayerBankOrgId ∧
    canChangePaymentState (exPayment DebitRequest) DebitInProgress (some exOtherBank) RoleBank
      = .error "bank can't process payment of another bank" :=
  ⟨by decide,
    (C6_bank_mismatch (exPayment DebitRequest) DebitInProgress exOtherBank (by decide)).2
      (Or.inr (Or.inr (Or.inl rfl)))⟩

/-- C7: with role MERCHANT or UNKNOWN, for every payment state, every
requested state and every invoker, present or absent, `canChangePaymentState`
fails with "role can't change from state: <current state>, role: <role>". -/
theorem C7_merchant_and_unknown_refused (p : Payment) (s : PaymentState)
    (inv : Option Member) :
    canChangePaymentState p s inv RoleMerchant
      = .error ("role can't change from state: " ++ p.State ++ ", role: " ++ "MERCHANT") ∧
    canChangePaymentState p s inv RoleUnknown
      = .error ("role can't change from state: " ++ p.State ++ ", role: " ++ "UNKNOWN") := by
  have hno : ∀ r, r ≠ RoleAgent → r ≠ RoleBank → roleCanChangeState r p.State = false := by
    intro r h1 h2
    cases hr : roleCanChangeState r p.State with
    | false => rfl
    | true =>
      rcases roleCanChangeState_role r p.State hr with h | h
      · exact absurd h h1
      · exact absurd h h2
  exact ⟨canChange_role_refused p s inv RoleMerchant (hno _ (by decide) (by decide)),
    canChange_role_refused p s inv RoleUnknown (hno _ (by decide) (by decide))⟩

/-! ## Handlers: what an invocation leaves behind -/

/-- When `getActors` classifies the invoker as AGENT or BANK it hands back a
member, never nil. -/
theorem getActors_invoker (stub : Stub) (actors : Actors) (h : getActors stub = .ok actors)
    (hrole : actors.invokerRole = RoleAgent ∨ actors.invokerRole = RoleBank) :
    ∃ m, actors.invoker = some m := by
  unfold getActors at h
  split at h
  · cases h
  · cases h
  · split at h
    · cases h
    · split at h
      · cases h; exact ⟨_, rfl⟩
      · split at h
        · cases h; exact ⟨_, rfl⟩
        · split at h
          · cases h; exact ⟨_, rfl⟩
          · cases h
            rcases hrole with hr | hr <;> simp [RoleUnknown, RoleAgent, RoleBank] at hr

/-- The three ways `/create` ends: a crash or an error with nothing written
and nothing emitted, or success with the new payment written under its own key
in state CheckFundsRequest and one creation event. -/
theorem create_cases (stub : Stub) :
    create stub = crashed ∨
    (∃ msg, create stub = WriteError msg) ∨
    (∃ payment event, payment.State = CheckFundsRequest ∧
      create stub = ⟨.success none, [(getPaymentKey payment.Id, .json payment)],
        [(TicketPaymentCreated, event)]⟩) := by
  unfold create
  split
  · exact Or.inl rfl
  · split
    · exact Or.inr (Or.inl ⟨_, rfl⟩)
    · split
      · exact Or.inr (Or.inl ⟨_, rfl⟩)
      · split
        · split
          · exact Or.inl rfl
          · exact Or.inr (Or.inl ⟨_, rfl⟩)
        · split
          · exact Or.inl rfl
          · split
            · exact Or.inr (Or.inl ⟨_, rfl⟩)
            · split
              · exact Or.inr (Or.inl ⟨_, rfl⟩)
              · exact Or.inr (Or.inr ⟨_, _, rfl, rfl⟩)

/-- The ways `/updateState` ends: a crash only when it was given no argument,
an error with nothing written and nothing emitted, or success with the stored
payment rewritten under the key of its identifier, its state replaced by the
requested one, and one state-change event. -/
theorem updateState_cases (stub : Stub) :
    (stub.args = [] ∧ updateState stub = crashed) ∨
    (∃ msg, updateState stub = WriteError msg) ∨
    (∃ arg rest payload actors payment event,
      stub.args = arg :: rest ∧
      stub.unmarshalRequestUpdateState arg = .ok payload ∧
      getActors stub = .ok actors ∧
      getPayment stub payload.PaymentId = .ok payment ∧
      canChangePaymentState payment payload.State actors.invoker actors.invokerRole = .ok ∧
      updateState stub = ⟨.success none,
        [(getPaymentKey payment.Id, .json { payment with State := payload.State })],
        [(TicketPaymentStateChanged, event)]⟩) := by
  unfold updateState
  cases hargs : stub.args with
  | nil => exact Or.inl ⟨rfl, rfl⟩
  | cons arg rest =>
    simp only
    cases hdec : stub.unmarshalRequestUpdateState arg with
    | error e => exact Or.inr (Or.inl ⟨_, rfl⟩)
    | ok payload =>
      simp only
      split
      · exact Or.inr (Or.inl ⟨_, rfl⟩)
      · split
        · exact Or.inr (Or.inl ⟨_, rfl⟩)
        · cases hact : getActors stub with
          | error e => exact Or.inr (Or.inl ⟨_, rfl⟩)
          | ok actors =>
            simp only
            cases hget : getPayment stub payload.PaymentId with
            | error e => exact Or.inr (Or.inl ⟨_, rfl⟩)
            | ok payment =>
              simp only
              cases hcan : canChangePaymentState payment payload.State actors.invoker
                  actors.invokerRole with
              | crash =>
                exfalso
                cases hinv : actors.invoker with
                | some m =>
                  rw [hinv] at hcan
                  rcases canChange_some_returns payment payload.State m actors.invokerRole
                    with h | ⟨_, h⟩ <;> rw [h] at hcan <;> cases hcan
                | none =>
                  rw [hinv, canChange_none] at hcan
                  by_cases hr : roleCanChangeState actors.invokerRole payment.State = true
                  · obtain ⟨m, hm⟩ := getActors_invoker stub actors hact
                      (roleCanChangeState_role _ _ hr)
                    rw [hinv] at hm
                    cases hm
                  · simp at hr
                    simp [hr] at hcan
              | error e => exact Or.inr (Or.inl ⟨_, rfl⟩)
              | ok =>
                simp only
                cases hitn : getMemberByItn stub payment.PayerNumber with
                | error e => exact Or.inr (Or.inl ⟨_, rfl⟩)
                | ok agent =>
                  exact Or.inr (Or.inr ⟨arg, rest, payload, actors, payment, _,
                    rfl, hdec, rfl, hget, hcan, rfl⟩)

/-- A successful invocation that wrote one key commits as that one `put`. -/
theorem commit_success_one (l : Ledger) (k : String) (v : Bytes)
    (ev : List (String × TicketsPaymentStateChangedEvent)) :
    commit l ⟨.success none, [(k, v)], ev⟩ = l.put k v := rfl

theorem commit_WriteError (l : Ledger) (msg : String) : commit l (WriteError msg) = l := rfl

theorem commit_crashed (l : Ledger) : commit l crashed = l := rfl

theorem getPaymentKey_injective (a b : String) (h : getPaymentKey a = getPaymentKey b) :
    a = b := by
  unfold getPaymentKey at h
  have hd := congrArg String.data h
  simp only [String.data_append] at hd
  exact String.ext (List.append_cancel_left hd)

/-- A state the guard lets a payment move to is one of the enumerated
states. -/
theorem accepted_state_enumerated (p : Payment) (s : PaymentState) (inv : Option Member)
    (role : String) (h : canChangePaymentState p s inv role = .ok) : s ∈ paymentStates := by
  have h1 := ((canChange_ok_iff p s inv role).1 h).1
  simp only [acceptedTriples, List.mem_cons, List.mem_singleton, List.not_mem_nil,
    Prod.mk.injEq, or_false] at h1
  rcases h1 with e | e | e | e | e | e | e | e <;> rw [e.2.1] <;> decide

theorem put_wellKeyed (l : Ledger) (h : WellKeyed l) (p : Payment)
    (hp : p.State ∈ paymentStates) : WellKeyed (l.put (getPaymentKey p.Id) (.json p)) := by
  intro k q hk
  unfold Ledger.put at hk
  split at hk
  · next heq =>
    cases hk
    exact ⟨heq, hp⟩
  · exact h k q hk

/-- Every reachable ledger keeps each payment record under the key of its own
identifier and in an enumerated state. -/
theorem reachable_wellKeyed (l : Ledger) (h : Reachable l) : WellKeyed l := by
  induction h with
  | start l h0 => intro k p hk; exact absurd hk (h0 k p)
  | create stub _ ih =>
    rcases create_cases stub with h | ⟨msg, h⟩ | ⟨payment, event, hst, h⟩
    · rw [h, commit_crashed]; exact ih
    · rw [h, commit_WriteError]; exact ih
    · rw [h, commit_success_one]
      exact put_wellKeyed _ ih payment (by rw [hst]; decide)
  | updateState stub _ ih =>
    rcases updateState_cases stub with ⟨-, h⟩ | ⟨msg, h⟩ |
      ⟨arg, rest, payload, actors, payment, event, -, -, -, -, hcan, h⟩
    · rw [h, commit_crashed]; exact ih
    · rw [h, commit_WriteError]; exact ih
    · rw [h, commit_success_one]
      exact put_wellKeyed _ ih { payment with State := payload.State }
        (accepted_state_enumerated _ _ _ _ hcan)

theorem exLedger0_noPaymentRecords : NoPaymentRecords exLedger0 := by
  intro k p
  unfold exLedger0
  split
  · simp
  · split <;> simp

theorem exLedger1_reachable : Reachable exLedger1 :=
  Reachable.create (exStub "Org4MSP" exLedger0 ⟨"p1", CheckFundsInProgress⟩)
    (Reachable.start exLedger0 exLedger0_noPaymentRecords)

/-! ## The ledger: claims -/

/-- C8: in every ledger reached from one without payment records by `/create`
and `/updateState` invocations, successful or not, every stored payment's
State is one of the eleven enumerated values and is not the empty sentinel. -/
theorem C8_stored_state_enumerated (l : Ledger) (hreach : Reachable l) (k : String)
    (p : Payment) (hk : l k = some (.json p)) :
    p.State ∈ paymentStates ∧ p.State ≠ PaymentStateEmpty := by
  have hmem := (reachable_wellKeyed l hreach k p hk).2
  refine ⟨hmem, ?_⟩
  intro hempty
  rw [hempty] at hmem
  revert hmem
  decide

/-- C8 (witness): the ledger after Org4MSP created payment p1. -/
theorem C8_stored_state_enumerated_witness :
    Reachable exLedger1 ∧
    exLedger1 "PAYMENT_p1" = some (.json (exPayment CheckFundsRequest)) ∧
    ((exPayment CheckFundsRequest).State ∈ paymentStates ∧
      (exPayment CheckFundsRequest).State ≠ PaymentStateEmpty) :=
  ⟨exLedger1_reachable, by decide,
    C8_stored_state_enumerated exLedger1 exLedger1_reachable "PAYMENT_p1"
      (exPayment CheckFundsRequest) (by decide)⟩

/-- C9: when `/updateState` succeeds on a reachable ledger for payment id
`pid` with requested state `s`, a record was stored under the key of `pid`
before the call, and the record stored there afterwards is that record with
State replaced by `s` and every other field unchanged; no other key
changes. -/
theorem C9_updateState_replaces_state_only (stub : Stub) (arg : String) (rest : List String)
    (pid : String) (s : PaymentState)
    (hreach : Reachable stub.state)
    (hargs : stub.args = arg :: rest)
    (hdec : stub.unmarshalRequestUpdateState arg = .ok ⟨pid, s⟩)
    (hok : (updateState stub).response = .success none) :
    ∃ old : Payment,
      stub.state (getPaymentKey pid) = some (.json old) ∧
      commit stub.state (updateState stub) (getPaymentKey pid)
        = some (.json { old with State := s }) ∧
      ∀ k, k ≠ getPaymentKey pid → commit stub.state (updateState stub) k = stub.state k := by
  rcases updateState_cases stub with ⟨-, h⟩ | ⟨msg, h⟩ |
    ⟨arg', rest', payload, actors, payment, event, hargs', hdec', -, hget, -, h⟩
  · rw [h] at hok; cases hok
  · rw [h] at hok; cases hok
  · rw [hargs] at hargs'
    cases hargs'
    rw [hdec] at hdec'
    cases hdec'
    have hstored : stub.state (getPaymentKey pid) = some (.json payment) := by
      unfold getPayment at hget
      split at hget
      · cases hget
      · cases hget
      · next heq => cases hget; exact heq
    have hkey : getPaymentKey pid = getPaymentKey payment.Id :=
      (reachable_wellKeyed _ hreach _ _ hstored).1
    refine ⟨payment, hstored, ?_, ?_⟩
    · rw [h, commit_success_one, ← hkey]
      simp [Ledger.put, Bytes.isEmpty]
    · intro k hk
      rw [h, commit_success_one, ← hkey]
      simp [Ledger.put, hk]

/-- C9 (witness): the payer's bank moves payment p1 of `exLedger1` to
CheckFundsInProgress. -/
theorem C9_updateState_replaces_state_only_witness :
    Reachable (exStub "Org2MSP" exLedger1 ⟨"p1", CheckFundsInProgress⟩).state ∧
    (updateState (exStub "Org2MSP" exLedger1 ⟨"p1", CheckFundsInProgress⟩)).response
      = .success none ∧
    ∃ old : Payment,
      exLedger1 (getPaymentKey "p1") = some (.json old) ∧
      commit exLedger1 (updateState (exStub "Org2MSP" exLedger1 ⟨"p1", CheckFundsInProgress⟩))
          (getPaymentKey "p1")
        = some (.json { old with State := CheckFundsInProgress }) ∧
      ∀ k, k ≠ getPaymentKey "p1" →
        commit exLedger1 (updateState (exStub "Org2MSP" exLedger1 ⟨"p1", CheckFundsInProgress⟩))
          k = exLedger1 k :=
  ⟨exLedger1_reachable, by decide,
    C9_updateState_replaces_state_only (exStub "Org2MSP" exLedger1 ⟨"p1", CheckFundsInProgress⟩)
      "payload" [] "p1" CheckFundsInProgress exLedger1_reachable rfl rfl (by decide)⟩

/-- Apart from the crash, `/create` is all or nothing: an error with no write
and no event, or success with exactly one write, to the payment's key, and
exactly one event. -/
theorem create_all_or_nothing (stub : Stub) :
    ((create stub).response = .crash ∧ (create stub).writes = [] ∧ (create stub).events = []) ∨
    (∃ msg, (create stub).response = .error msg ∧ (create stub).writes = [] ∧
      (create stub).events = []) ∨
    (∃ payment event, (create stub).response = .success none ∧
      (create stub).writes = [(getPaymentKey payment.Id, .json payment)] ∧
      (create stub).events = [(TicketPaymentCreated, event)]) := by
  rcases create_cases stub with h | ⟨msg, h⟩ | ⟨payment, event, -, h⟩
  · exact Or.inl (by rw [h]; exact ⟨rfl, rfl, rfl⟩)
  · exact Or.inr (Or.inl ⟨msg, by rw [h]; exact ⟨rfl, rfl, rfl⟩⟩)
  · exact Or.inr (Or.inr ⟨payment, event, by rw [h]; exact ⟨rfl, rfl, rfl⟩⟩)

/-- Given an argument, `/updateState` is all or nothing and does not crash: an
error with no write and no event, or success with exactly one write, to the
payment's key, and exactly one event. -/
theorem updateState_all_or_nothing (stub : Stub) (hargs : stub.args ≠ []) :
    (∃ msg, (updateState stub).response = .error msg ∧ (updateState stub).writes = [] ∧
      (updateState stub).events = []) ∨
    (∃ payment event, (updateState stub).response = .success none ∧
      (updateState stub).writes = [(getPaymentKey payment.Id, .json payment)] ∧
      (updateState stub).events = [(TicketPaymentStateChanged, event)]) := by
  rcases updateState_cases stub with ⟨h0, -⟩ | ⟨msg, h⟩ |
    ⟨_, _, payload, _, payment, event, -, -, -, -, -, h⟩
  · exact absurd h0 hargs
  · exact Or.inl ⟨msg, by rw [h]; exact ⟨rfl, rfl, rfl⟩⟩
  · exact Or.inr ⟨{ payment with State := payload.State }, event,
      by rw [h]; exact ⟨rfl, rfl, rfl⟩⟩

/-- `/create` crashes exactly on the refusal path of an invoker that is not an
agent and was resolved to no member. -/
theorem create_crash_iff (stub : Stub) (arg : String) (rest : List String)
    (payload : PaymentCreatePayload) (hargs : stub.args = arg :: rest)
    (hdec : stub.unmarshalPaymentCreatePayload arg = .ok payload) :
    (create stub).response = .crash ↔
      ∃ actors, getActors stub = .ok actors ∧ actors.invoker = none := by
  unfold create
  simp only [hargs, hdec]
  cases hact : getActors stub with
  | error e => simp [WriteError]
  | ok actors =>
    simp only
    by_cases hr : actors.invokerRole = RoleAgent
    · obtain ⟨m, hm⟩ := getActors_invoker stub actors hact (Or.inl hr)
      simp only [hr, hm, ne_eq, not_true_eq_false, if_false]
      split
      · simp [WriteError, hm]
      · split <;> simp [WriteError, hm]
    · cases hinv : actors.invoker with
      | none => simp [hr, crashed, hinv]
      | some m => simp [hr, WriteError, hinv]

/-- C10 (failing input): Org9MSP is not the merchant, not a registered agent
and unknown to the organizations registry, so `getActors` classifies it as
UNKNOWN with a nil invoker; its `/create` then crashes while building the
refusal message instead of returning an error. -/
theorem C10_create_crashes_for_unresolved_invoker :
    getActors (exStub "Org9MSP" exLedger0 ⟨"p1", CheckFundsInProgress⟩)
      = .ok ⟨exMerchant, none, RoleUnknown⟩ ∧
    create (exStub "Org9MSP" exLedger0 ⟨"p1", CheckFundsInProgress⟩)
      = ⟨.crash, [], []⟩ :=
  ⟨rfl, by decide⟩


/-! ## Keys and the parts of the ledger a handler reads -/

theorem getPaymentKey_data (id : String) :
    (getPaymentKey id).data = 'P' :: 'A' :: 'Y' :: 'M' :: 'E' :: 'N' :: 'T' :: '_' :: id.data := by
  unfold getPaymentKey paymentKey
  simp only [String.data_append]
  rfl

theorem getAgentKey_data (a k : String) (h : getAgentKey a = .ok k) :
    ∃ tail, k.data = Char.ofNat 0 :: tail := by
  unfold getAgentKey CreateCompositeKey at h
  simp only at h
  split at h
  · cases h
  · split at h
    · cases h
    · cases h
      refine ⟨("AGENT\x00" ++ a ++ "\x00").data, ?_⟩
      simp only [List.foldl, String.data_append, agentKey, RoleAgent]
      rfl

theorem getPaymentKey_ne_merchantKey (id : String) : getPaymentKey id ≠ merchantKey := by
  intro h
  have hd := congrArg String.data h
  have hm : merchantKey.data = 'M' :: "ERCHANT".data := rfl
  rw [getPaymentKey_data, hm] at hd
  exact absurd (List.cons.inj hd).1 (by decide)

theorem getAgentKey_ne_merchantKey (a k : String) (h : getAgentKey a = .ok k) :
    k ≠ merchantKey := by
  intro hk
  obtain ⟨tail, ht⟩ := getAgentKey_data a k h
  have hm : merchantKey.data = 'M' :: "ERCHANT".data := rfl
  rw [hk, hm] at ht
  exact absurd (List.cons.inj ht).1 (by decide)

theorem getAgentKey_ne_paymentKey (a k id : String) (h : getAgentKey a = .ok k) :
    k ≠ getPaymentKey id := by
  intro hk
  obtain ⟨tail, ht⟩ := getAgentKey_data a k h
  rw [hk, getPaymentKey_data] at ht
  have h0 := (List.cons.inj ht).1
  exact absurd h0 (by decide)

/-- The member lookup reads the organizations registry only. -/
theorem getMember_state (stub : Stub) (l : Ledger) (memberId : String) :
    getMember { stub with state := l } memberId = getMember stub memberId := rfl

theorem getMemberByItn_state (stub : Stub) (l : Ledger) (itn : String) :
    getMemberByItn { stub with state := l } itn = getMemberByItn stub itn := rfl

/-- Identity resolution reads the merchant key and one agent-registry key: a
write under a payment key does not change its result. -/
theorem getActors_put_payment (stub : Stub) (id : String) (v : Bytes) :
    getActors { stub with state := stub.state.put (getPaymentKey id) v } = getActors stub := by
  have hm : getMerchant { stub with state := stub.state.put (getPaymentKey id) v }
      = getMerchant stub := by
    unfold getMerchant
    simp only [Ledger.put, (getPaymentKey_ne_merchantKey id).symm, if_false]
    rfl
  have ha : ∀ a, getAgent { stub with state := stub.state.put (getPaymentKey id) v } a
      = getAgent stub a := by
    intro a
    unfold getAgent
    cases hk : getAgentKey a with
    | error e => rfl
    | ok k =>
      simp only [Ledger.put, getAgentKey_ne_paymentKey a k id hk, if_false]
      rfl
  have hb : ∀ a, getBank { stub with state := stub.state.put (getPaymentKey id) v } a
      = getBank stub a := fun a => rfl
  unfold getActors
  rw [hm]
  simp only [ha, hb]

theorem put_same (l : Ledger) (k : String) (v : Bytes) (hv : v.isEmpty = false) :
    (l.put k v) k = some v := by
  simp [Ledger.put, hv]

theorem put_same_json (l : Ledger) (k : String) (p : Payment) :
    (l.put k (.json p)) k = some (.json p) :=
  put_same l k (.json p) rfl

/-- The write of an empty value leaves nothing under the key. -/
theorem put_empty (l : Ledger) (k : String) : (l.put k (.text "")) k = none := by
  simp [Ledger.put, Bytes.isEmpty]

/-- The empty text is the only empty value. -/
theorem isEmpty_text (s : String) : (Bytes.text s).isEmpty = false ↔ s ≠ "" := by
  cases s with
  | mk data => cases data <;> simp [Bytes.isEmpty, String.ext_iff]

theorem put_other (l : Ledger) (k k2 : String) (v : Bytes) (h : k2 ≠ k) :
    (l.put k v) k2 = l k2 := by
  simp [Ledger.put, h]

/-! ## `/create`, step by step -/

/-- `/create` for an invoker resolved as AGENT: the bank lookup, then the
payload validation, then the write and the event. -/
theorem create_of_agent (stub : Stub) (arg : String) (rest : List String)
    (payload : PaymentCreatePayload) (actors : Actors) (invoker : Member)
    (hargs : stub.args = arg :: rest)
    (hdec : stub.unmarshalPaymentCreatePayload arg = .ok payload)
    (hact : getActors stub = .ok actors)
    (hrole : actors.invokerRole = RoleAgent)
    (hinv : actors.invoker = some invoker) :
    create stub =
      match (getMember stub invoker.BankOrganizationId).err? with
      | some err => WriteError err
      | none =>
        match validatePaymentPayload stub payload invoker with
        | some err => WriteError err
        | none =>
          { response := .success none
            writes := [(getPaymentKey payload.Id, .json
              { Id := payload.Id, TicketNumber := "", State := CheckFundsRequest,
                Amount := payload.Amount, Currency := payload.Currency,
                InternationalFlight := payload.InternationalFlight, PaymentType := "SALE",
                VatIncluded := false, Purpose := "", Meta := [],
                PayerOrgId := invoker.OrganizationId,
                PayerBankOrgId := invoker.BankOrganizationId,
                PayerId := payload.PayerId, PayerAccount := payload.PayerAccount,
                PayerNumber := payload.PayerNumber,
                RecipientOrgId := actors.merchant.OrganizationId,
                RecipientBankOrgId := actors.merchant.BankOrganizationId,
                RecipientId := payload.RecipientId,
                RecipientAccount := payload.RecipientAccount,
                RecipientNumber := payload.RecipientNumber })]
            events := [(TicketPaymentCreated,
              { PaymentKey := getPaymentKey payload.Id, PaymentId := payload.Id,
                PreviousState := PaymentStateEmpty, CurrentState := CheckFundsRequest,
                To := actors.merchant, From := invoker, Amount := payload.Amount,
                Currency := "" })] } := by
  unfold create
  simp only [hargs, hdec, hact, hrole, hinv, ne_eq, not_true_eq_false, if_false]

/-- `/create` for an invoker resolved to a member in a role other than AGENT:
the refusal message. -/
theorem create_of_non_agent (stub : Stub) (arg : String) (rest : List String)
    (payload : PaymentCreatePayload) (actors : Actors) (invoker : Member)
    (hargs : stub.args = arg :: rest)
    (hdec : stub.unmarshalPaymentCreatePayload arg = .ok payload)
    (hact : getActors stub = .ok actors)
    (hrole : actors.invokerRole ≠ RoleAgent)
    (hinv : actors.invoker = some invoker) :
    create stub = WriteError ("only agent can add payment, your role is: "
      ++ actors.invokerRole ++ ", id: " ++ invoker.OrganizationId) := by
  unfold create
  simp only [hargs, hdec, hact, hrole, hinv, ne_eq, not_false_eq_true, if_true]

/-- A successful `/create` had an argument that decoded and an invoker
resolved as AGENT to a member. -/
theorem create_success_agent (stub : Stub) (h : (create stub).response = .success none) :
    ∃ arg rest payload actors invoker,
      stub.args = arg :: rest ∧
      stub.unmarshalPaymentCreatePayload arg = .ok payload ∧
      getActors stub = .ok actors ∧
      actors.invokerRole = RoleAgent ∧
      actors.invoker = some invoker := by
  unfold create at h
  cases hargs : stub.args with
  | nil => simp [hargs, crashed] at h
  | cons arg rest =>
    simp only [hargs] at h
    cases hdec : stub.unmarshalPaymentCreatePayload arg with
    | error e => simp [hdec, WriteError] at h
    | ok payload =>
      simp only [hdec] at h
      cases hact : getActors stub with
      | error e => simp [hact, WriteError] at h
      | ok actors =>
        simp only [hact] at h
        by_cases hrole : actors.invokerRole = RoleAgent
        · cases hinv : actors.invoker with
          | none => simp [hrole, hinv, crashed] at h
          | some invoker => exact ⟨arg, rest, payload, actors, invoker, rfl, hdec, rfl, hrole, hinv⟩
        · cases hinv : actors.invoker with
          | none => simp [hrole, hinv, crashed] at h
          | some invoker => simp [hrole, hinv, WriteError] at h

/-- An agent whose bank resolves sends a payload whose identifier has just
been written: the existence test refuses it. -/
theorem create_over_stored (stub : Stub) (arg : String) (rest : List String)
    (payload : PaymentCreatePayload) (actors : Actors) (invoker : Member) (v : Bytes)
    (hargs : stub.args = arg :: rest)
    (hdec : stub.unmarshalPaymentCreatePayload arg = .ok payload)
    (hact : getActors stub = .ok actors)
    (hrole : actors.invokerRole = RoleAgent)
    (hinv : actors.invoker = some invoker)
    (hbank : (getMember stub invoker.BankOrganizationId).err? = none)
    (hv : v.isEmpty = false) :
    create { stub with state := stub.state.put (getPaymentKey payload.Id) v }
      = ⟨.error "payment already exists", [], []⟩ := by
  have hact2 : getActors { stub with state := stub.state.put (getPaymentKey payload.Id) v }
      = .ok actors := by
    rw [getActors_put_payment]
    exact hact
  have hc2 := create_of_agent
    { stub with state := stub.state.put (getPaymentKey payload.Id) v }
    arg rest payload actors invoker hargs hdec hact2 hrole hinv
  have hb2 : (getMember { stub with state := stub.state.put (getPaymentKey payload.Id) v }
      invoker.BankOrganizationId).err? = none := hbank
  have hv2 : validatePaymentPayload
      { stub with state := stub.state.put (getPaymentKey payload.Id) v } payload invoker
      = some "payment already exists" := by
    unfold validatePaymentPayload isPaymentExists
    simp [put_same _ _ _ hv]
  rw [hc2, hb2, hv2]
  rfl

/-! ## `/updateState` and `/create`: requests, reads and refusals -/

/-- C11: with a payload whose state is empty `/updateState` returns "state is
empty", and with a non-empty state and an empty payment id it returns
"paymentId is empty", whatever the ledger, the invoker and the registry are
(the merchant may be unbound, the payment absent); nothing is written and
nothing is emitted. -/
theorem C11_empty_request_fields (stub : Stub) (arg : String) (rest : List String)
    (payload : RequestUpdateState)
    (hargs : stub.args = arg :: rest)
    (hdec : stub.unmarshalRequestUpdateState arg = .ok payload) :
    (payload.State = PaymentStateEmpty →
      updateState stub = ⟨.error "state is empty", [], []⟩) ∧
    (payload.State ≠ PaymentStateEmpty → payload.PaymentId = "" →
      updateState stub = ⟨.error "paymentId is empty", [], []⟩) := by
  constructor
  · intro hs
    unfold updateState
    simp only [hargs, hdec, hs, if_true, WriteError]
  · intro hs hp
    unfold updateState
    simp only [hargs, hdec, hs, hp, if_true, if_false, WriteError]

/-- C11 (witness): an empty ledger (no merchant binding, no payment) and a
creator that cannot be read. -/
theorem C11_empty_request_fields_witness :
    updateState { exStub "Org9MSP" (fun _ => none) ⟨"p1", ""⟩ with
        creator := .error "no creator" }
      = ⟨.error "state is empty", [], []⟩ ∧
    updateState { exStub "Org9MSP" (fun _ => none) ⟨"", CheckFundsInProgress⟩ with
        creator := .error "no creator" }
      = ⟨.error "paymentId is empty", [], []⟩ :=
  ⟨(C11_empty_request_fields
      { exStub "Org9MSP" (fun _ => none) ⟨"p1", ""⟩ with creator := .error "no creator" }
      "payload" [] ⟨"p1", ""⟩ rfl rfl).1 rfl,
    (C11_empty_request_fields
      { exStub "Org9MSP" (fun _ => none) ⟨"", CheckFundsInProgress⟩ with
        creator := .error "no creator" }
      "payload" [] ⟨"", CheckFundsInProgress⟩ rfl rfl).2 (by decide) rfl⟩

/-- C12: after a successful `/create` of a payload by an agent invoker, a
`/get` of the payload's identifier on the resulting ledger, by any invoker,
returns a payment in CheckFundsRequest whose identifier, amount, currency,
international-flight flag, payer id, account and number and recipient id,
account and number are the payload's, whose payer organization and payer bank
are the invoker's organization id and bank organization id, and whose
recipient organization and recipient bank are the merchant's. -/
theorem C12_create_then_get (stub : Stub) (arg : String) (rest : List String)
    (payload : PaymentCreatePayload)
    (hargs : stub.args = arg :: rest)
    (hdec : stub.unmarshalPaymentCreatePayload arg = .ok payload)
    (hok : (create stub).response = .success none) :
    ∃ actors invoker,
      getActors stub = .ok actors ∧ actors.invokerRole = RoleAgent ∧
      actors.invoker = some invoker ∧
      ∀ reader : Stub,
        reader.state = commit stub.state (create stub) → reader.args = [payload.Id] →
        ∃ p : Payment,
          get reader = ⟨.success (some (.json p)), [], []⟩ ∧
          p.State = CheckFundsRequest ∧
          p.Id = payload.Id ∧ p.Amount = payload.Amount ∧ p.Currency = payload.Currency ∧
          p.InternationalFlight = payload.InternationalFlight ∧
          p.PayerId = payload.PayerId ∧ p.PayerAccount = payload.PayerAccount ∧
          p.PayerNumber = payload.PayerNumber ∧
          p.RecipientId = payload.RecipientId ∧
          p.RecipientAccount = payload.RecipientAccount ∧
          p.RecipientNumber = payload.RecipientNumber ∧
          p.PayerOrgId = invoker.OrganizationId ∧
          p.PayerBankOrgId = invoker.BankOrganizationId ∧
          p.RecipientOrgId = actors.merchant.OrganizationId ∧
          p.RecipientBankOrgId = actors.merchant.BankOrganizationId := by
  obtain ⟨arg', rest', payload', actors, invoker, hargs', hdec', hact, hrole, hinv⟩ :=
    create_success_agent stub hok
  rw [hargs] at hargs'
  cases hargs'
  rw [hdec] at hdec'
  cases hdec'
  refine ⟨actors, invoker, hact, hrole, hinv, ?_⟩
  intro reader hstate hrargs
  have hc := create_of_agent stub arg rest payload actors invoker hargs hdec hact hrole hinv
  cases hb : (getMember stub invoker.BankOrganizationId).err? with
  | some e =>
    rw [hc, hb] at hok
    cases hok
  | none =>
    cases hv : validatePaymentPayload stub payload invoker with
    | some e =>
      rw [hc, hb, hv] at hok
      cases hok
    | none =>
      rw [hb, hv] at hc
      simp only at hc
      have hget : ∀ v, commit stub.state (create stub) (getPaymentKey payload.Id) = some v →
          get reader = ⟨.success (some v), [], []⟩ := by
        intro v hv
        unfold get
        rw [hrargs, hstate]
        simp only [hv]
      rw [hc, commit_success_one, put_same_json] at hget
      exact ⟨_, hget _ rfl, rfl, rfl, rfl, rfl, rfl, rfl, rfl, rfl, rfl, rfl, rfl, rfl, rfl,
        rfl, rfl⟩

/-- C12 (witness): Org4MSP creates payment p1 on `exLedger0`, Org9MSP reads
it. -/
theorem C12_create_then_get_witness :
    (create (exStub "Org4MSP" exLedger0 ⟨"p1", CheckFundsInProgress⟩)).response
      = .success none ∧
    get { exStub "Org9MSP" exLedger1 ⟨"p1", CheckFundsInProgress⟩ with args := ["p1"] }
      = ⟨.success (some (.json (exPayment CheckFundsRequest))), [], []⟩ ∧
    ∃ actors invoker,
      getActors (exStub "Org4MSP" exLedger0 ⟨"p1", CheckFundsInProgress⟩) = .ok actors ∧
      actors.invokerRole = RoleAgent ∧ actors.invoker = some invoker :=
  ⟨by decide, by decide,
    (C12_create_then_get (exStub "Org4MSP" exLedger0 ⟨"p1", CheckFundsInProgress⟩)
      "payload" [] exCreatePayload rfl rfl (by decide)).imp
      fun _ h => h.imp fun _ h => ⟨h.1, h.2.1, h.2.2.1⟩⟩

/-- C13 (counterexample): payment p1 is stored and the agent Org4MSP sends its
payload again, but its bank is not found in the registry any more: the call
fails on the bank lookup, which comes before the existence test, not with
"payment already exists". -/
theorem C13_counterexample :
    isPaymentExists exStubBankGone exCreatePayload.Id = true ∧
    getActors exStubBankGone = .ok ⟨exMerchant, some exAgent, RoleAgent⟩ ∧
    create exStubBankGone = ⟨.error "organization not found", [], []⟩ :=
  ⟨by decide, rfl, by decide⟩

/-- C13 (amended): on every ledger in which a payment with identifier i is
stored, `/create` by an agent invoker with a payload whose identifier is i
fails and leaves the ledger, so the stored record, unchanged; the error is
"payment already exists" whenever the invoker's bank organization resolves as
a member (otherwise it is the bank lookup's error). In particular a second
`/create` with the same arguments, invoker and registry right after a
successful one fails with "payment already exists". -/
theorem C13_create_existing_payment (stub : Stub) (arg : String) (rest : List String)
    (payload : PaymentCreatePayload) (actors : Actors)
    (hargs : stub.args = arg :: rest)
    (hdec : stub.unmarshalPaymentCreatePayload arg = .ok payload)
    (hact : getActors stub = .ok actors)
    (hrole : actors.invokerRole = RoleAgent)
    (hexists : isPaymentExists stub payload.Id = true) :
    (∃ msg, create stub = ⟨.error msg, [], []⟩) ∧
    commit stub.state (create stub) = stub.state ∧
    (∀ invoker bank, actors.invoker = some invoker →
      getMember stub invoker.BankOrganizationId = .ok bank →
      create stub = ⟨.error "payment already exists", [], []⟩) ∧
    (∀ first : Stub, (create first).response = .success none →
      create { first with state := commit first.state (create first) }
        = ⟨.error "payment already exists", [], []⟩) := by
  obtain ⟨invoker, hinv⟩ := getActors_invoker stub actors hact (Or.inl hrole)
  have hc := create_of_agent stub arg rest payload actors invoker hargs hdec hact hrole hinv
  have hval : validatePaymentPayload stub payload invoker = some "payment already exists" := by
    unfold validatePaymentPayload
    simp [hexists]
  have hfail : ∃ msg, create stub = ⟨.error msg, [], []⟩ := by
    cases hb : (getMember stub invoker.BankOrganizationId).err? with
    | some e =>
      rw [hb] at hc
      exact ⟨e, hc⟩
    | none =>
      rw [hb, hval] at hc
      exact ⟨_, hc⟩
  refine ⟨hfail, ?_, ?_, ?_⟩
  · obtain ⟨msg, hm⟩ := hfail
    rw [hm]
    rfl
  · intro invoker' bank hinv' hbank
    rw [hinv] at hinv'
    cases hinv'
    have hb : (getMember stub invoker.BankOrganizationId).err? = none := by
      rw [hbank]
      rfl
    rw [hb, hval] at hc
    exact hc
  · intro first hok
    obtain ⟨a1, r1, p1, act1, inv1, hargs1, hdec1, hact1, hrole1, hinv1⟩ :=
      create_success_agent first hok
    have hc1 := create_of_agent first a1 r1 p1 act1 inv1 hargs1 hdec1 hact1 hrole1 hinv1
    cases hb1 : (getMember first inv1.BankOrganizationId).err? with
    | some e =>
      rw [hc1, hb1] at hok
      cases hok
    | none =>
      cases hv1 : validatePaymentPayload first p1 inv1 with
      | some e =>
        rw [hc1, hb1, hv1] at hok
        cases hok
      | none =>
        rw [hb1, hv1] at hc1
        simp only at hc1
        rw [hc1, commit_success_one]
        exact create_over_stored first a1 r1 p1 act1 inv1 _ hargs1 hdec1 hact1 hrole1 hinv1 hb1
          rfl

/-- C13 (witness): the agent Org4MSP sends the payload of p1 again on
`exLedger1`, with its bank in the registry. -/
theorem C13_create_existing_payment_witness :
    isPaymentExists (exStub "Org4MSP" exLedger1 ⟨"p1", CheckFundsInProgress⟩)
      exCreatePayload.Id = true ∧
    create (exStub "Org4MSP" exLedger1 ⟨"p1", CheckFundsInProgress⟩)
      = ⟨.error "payment already exists", [], []⟩ :=
  ⟨by decide,
    (C13_create_existing_payment (exStub "Org4MSP" exLedger1 ⟨"p1", CheckFundsInProgress⟩)
      "payload" [] exCreatePayload ⟨exMerchant, some exAgent, RoleAgent⟩ rfl rfl rfl rfl
      (by decide)).2.2.1 exAgent exBank rfl rfl⟩

/-- C14 (failing input): Org9MSP is resolved to role UNKNOWN and to no member
at all, and its `/create` crashes instead of returning the refusal. For the
merchant, for a bank and for an UNKNOWN invoker that the registry does hold,
the refusal "only agent can add payment, your role is: ..., id: ..." is
returned. -/
theorem C14_create_refusal_crashes_without_member :
    getActors (exStub "Org9MSP" exLedger1 ⟨"p1", CheckFundsInProgress⟩)
      = .ok ⟨exMerchant, none, RoleUnknown⟩ ∧
    (create (exStub "Org9MSP" exLedger1 ⟨"p1", CheckFundsInProgress⟩)).response = .crash ∧
    create (exStub "Org3MSP" exLedger1 ⟨"p1", CheckFundsInProgress⟩)
      = ⟨.error "only agent can add payment, your role is: MERCHANT, id: Org3MSP", [], []⟩ ∧
    create (exStub "Org2MSP" exLedger1 ⟨"p1", CheckFundsInProgress⟩)
      = ⟨.error "only agent can add payment, your role is: BANK, id: Org2MSP", [], []⟩ ∧
    create exStubOrg8
      = ⟨.error "only agent can add payment, your role is: UNKNOWN, id: Org8MSP", [], []⟩ :=
  ⟨rfl, by decide, by decide, by decide, by decide⟩

/-- A successful `/updateState`, with the record it read, the member it
resolved for the payer number, what it wrote and what it emitted. -/
theorem updateState_success (stub : Stub) (h : (updateState stub).response = .success none) :
    ∃ arg rest payload actors payment agent,
      stub.args = arg :: rest ∧
      stub.unmarshalRequestUpdateState arg = .ok payload ∧
      getActors stub = .ok actors ∧
      getPayment stub payload.PaymentId = .ok payment ∧
      getMemberByItn stub payment.PayerNumber = .ok agent ∧
      updateState stub = ⟨.success none,
        [(getPaymentKey payment.Id, .json { payment with State := payload.State })],
        [(TicketPaymentStateChanged,
          { PaymentKey := getPaymentKey payment.Id, PaymentId := payment.Id,
            PreviousState := payment.State, CurrentState := payload.State,
            To := actors.merchant, From := agent, Amount := payment.Amount,
            Currency := payment.Currency })]⟩ := by
  unfold updateState at h ⊢
  cases hargs : stub.args with
  | nil => simp [hargs, crashed] at h
  | cons arg rest =>
    simp only [hargs] at h ⊢
    cases hdec : stub.unmarshalRequestUpdateState arg with
    | error e => simp [hdec, WriteError] at h
    | ok payload =>
      simp only [hdec] at h ⊢
      by_cases hs : payload.State = PaymentStateEmpty
      · simp [hs, WriteError] at h
      · by_cases hp : payload.PaymentId = ""
        · simp [hs, hp, WriteError] at h
        · simp only [hs, hp, if_false] at h ⊢
          cases hact : getActors stub with
          | error e => simp [hact, WriteError] at h
          | ok actors =>
            simp only [hact] at h ⊢
            cases hget : getPayment stub payload.PaymentId with
            | error e => simp [hget, WriteError] at h
            | ok payment =>
              simp only [hget] at h ⊢
              cases hcan : canChangePaymentState payment payload.State actors.invoker
                  actors.invokerRole with
              | crash => simp [hcan, crashed] at h
              | error e => simp [hcan, WriteError] at h
              | ok =>
                simp only [hcan] at h ⊢
                cases hitn : getMemberByItn stub payment.PayerNumber with
                | error e => simp [hitn, WriteError] at h
                | ok agent =>
                  exact ⟨arg, rest, payload, actors, payment, agent, rfl, hdec, rfl, hget,
                    hitn, rfl⟩

/-- The merchant `getActors` hands back is the one `getMerchant` resolved. -/
theorem getActors_merchant (stub : Stub) (actors : Actors) (h : getActors stub = .ok actors) :
    getMerchant stub = .ok actors.merchant := by
  unfold getActors at h
  cases hm : getMerchant stub with
  | failed e => simp [hm] at h
  | withError m e => simp [hm] at h
  | ok merchant =>
    simp only [hm] at h
    split at h
    · cases h
    · split at h
      · cases h; rfl
      · split at h
        · cases h; rfl
        · split at h
          · cases h; rfl
          · cases h; rfl

/-- The event of a successful `/updateState` on a reachable ledger, in terms
of the request and of what the ledger and the registry hold. -/
theorem updateState_event (stub : Stub) (arg : String) (rest : List String)
    (pid : String) (s : PaymentState)
    (hreach : Reachable stub.state)
    (hargs : stub.args = arg :: rest)
    (hdec : stub.unmarshalRequestUpdateState arg = .ok ⟨pid, s⟩)
    (hok : (updateState stub).response = .success none) :
    ∃ old merchant agent,
      stub.state (getPaymentKey pid) = some (.json old) ∧
      getMerchant stub = .ok merchant ∧
      getMemberByItn stub old.PayerNumber = .ok agent ∧
      (updateState stub).events = [(TicketPaymentStateChanged,
        { PaymentKey := getPaymentKey pid, PaymentId := pid,
          PreviousState := old.State, CurrentState := s,
          To := merchant, From := agent, Amount := old.Amount,
          Currency := old.Currency })] := by
  obtain ⟨arg', rest', payload, actors, payment, agent, hargs', hdec', hact, hget, hitn, h⟩ :=
    updateState_success stub hok
  rw [hargs] at hargs'
  cases hargs'
  rw [hdec] at hdec'
  cases hdec'
  have hstored : stub.state (getPaymentKey pid) = some (.json payment) := by
    unfold getPayment at hget
    split at hget
    · cases hget
    · cases hget
    · next heq => cases hget; exact heq
  have hkey : getPaymentKey pid = getPaymentKey payment.Id :=
    (reachable_wellKeyed _ hreach _ _ hstored).1
  have hid : pid = payment.Id := getPaymentKey_injective _ _ hkey
  refine ⟨payment, actors.merchant, agent, hstored, getActors_merchant stub actors hact,
    hitn, ?_⟩
  rw [h, hid]

/-- C16: every successful `/updateState` on a reachable ledger emits exactly
one event, named TicketPaymentStateChanged: payment_id is the requested id and
payment_key its key, previous_state is the state stored before the call,
current_state the requested state, amount and currency are the stored
payment's, `to` is the merchant member and `from` the member resolved from the
payment's payer number. A second successful run on the same ledger, request
and registry, whoever invokes it, emits an equal event. -/
theorem C16_updateState_event (stub : Stub) (arg : String) (rest : List String)
    (pid : String) (s : PaymentState)
    (hreach : Reachable stub.state)
    (hargs : stub.args = arg :: rest)
    (hdec : stub.unmarshalRequestUpdateState arg = .ok ⟨pid, s⟩)
    (hok : (updateState stub).response = .success none) :
    (∃ old merchant agent,
      stub.state (getPaymentKey pid) = some (.json old) ∧
      getMerchant stub = .ok merchant ∧
      getMemberByItn stub old.PayerNumber = .ok agent ∧
      (updateState stub).events = [(TicketPaymentStateChanged,
        { PaymentKey := paymentKey ++ "_" ++ pid, PaymentId := pid,
          PreviousState := old.State, CurrentState := s,
          To := merchant, From := agent, Amount := old.Amount,
          Currency := old.Currency })]) ∧
    (∀ creator : Except String String,
      (updateState { stub with creator := creator }).response = .success none →
      (updateState { stub with creator := creator }).events = (updateState stub).events) := by
  obtain ⟨old, merchant, agent, hst, hm, hitn, hev⟩ :=
    updateState_event stub arg rest pid s hreach hargs hdec hok
  refine ⟨⟨old, merchant, agent, hst, hm, hitn, hev⟩, ?_⟩
  intro creator hok2
  obtain ⟨old2, merchant2, agent2, hst2, hm2, hitn2, hev2⟩ :=
    updateState_event { stub with creator := creator } arg rest pid s hreach hargs hdec hok2
  have e1 : old2 = old := by
    have hst2' : stub.state (getPaymentKey pid) = some (.json old2) := hst2
    rw [hst] at hst2'
    cases hst2'
    rfl
  subst e1
  have e2 : merchant2 = merchant := by
    have hm2' : getMerchant stub = .ok merchant2 := hm2
    rw [hm] at hm2'
    cases hm2'
    rfl
  have e3 : agent2 = agent := by
    have hitn2' : getMemberByItn stub old2.PayerNumber = .ok agent2 := hitn2
    rw [hitn] at hitn2'
    cases hitn2'
    rfl
  rw [hev2, hev, e2, e3]

/-- C16 (witness): the payer's bank moves payment p1 of `exLedger1` to
CheckFundsInProgress. -/
theorem C16_updateState_event_witness :
    Reachable (exStub "Org2MSP" exLedger1 ⟨"p1", CheckFundsInProgress⟩).state ∧
    (updateState (exStub "Org2MSP" exLedger1 ⟨"p1", CheckFundsInProgress⟩)).response
      = .success none ∧
    ∃ old merchant agent,
      exLedger1 (getPaymentKey "p1") = some (.json old) ∧
      getMerchant (exStub "Org2MSP" exLedger1 ⟨"p1", CheckFundsInProgress⟩) = .ok merchant ∧
      getMemberByItn (exStub "Org2MSP" exLedger1 ⟨"p1", CheckFundsInProgress⟩) old.PayerNumber
        = .ok agent ∧
      (updateState (exStub "Org2MSP" exLedger1 ⟨"p1", CheckFundsInProgress⟩)).events
        = [(TicketPaymentStateChanged,
          { PaymentKey := paymentKey ++ "_" ++ "p1", PaymentId := "p1",
            PreviousState := old.State, CurrentState := CheckFundsInProgress,
            To := merchant, From := agent, Amount := old.Amount,
            Currency := old.Currency })] :=
  ⟨exLedger1_reachable, by decide,
    (C16_updateState_event (exStub "Org2MSP" exLedger1 ⟨"p1", CheckFundsInProgress⟩)
      "payload" [] "p1" CheckFundsInProgress exLedger1_reachable rfl rfl (by decide)).1⟩

/-- The event of a successful `/create`: every field but the currency is taken
from the payment, the merchant and the invoking agent; the currency is left at
its zero value, while the stored payment carries the payload's currency. -/
theorem create_success_event (stub : Stub) (h : (create stub).response = .success none) :
    ∃ (payload : PaymentCreatePayload) (actors : Actors) (invoker : Member)
        (payment : Payment),
      getActors stub = .ok actors ∧ actors.invoker = some invoker ∧
      (create stub).writes = [(getPaymentKey payload.Id, .json payment)] ∧
      payment.Id = payload.Id ∧ payment.Amount = payload.Amount ∧
      payment.Currency = payload.Currency ∧
      (create stub).events = [(TicketPaymentCreated,
        { PaymentKey := getPaymentKey payload.Id, PaymentId := payload.Id,
          PreviousState := PaymentStateEmpty, CurrentState := CheckFundsRequest,
          To := actors.merchant, From := invoker, Amount := payload.Amount,
          Currency := "" })] := by
  obtain ⟨arg, rest, payload, actors, invoker, hargs, hdec, hact, hrole, hinv⟩ :=
    create_success_agent stub h
  have hc := create_of_agent stub arg rest payload actors invoker hargs hdec hact hrole hinv
  cases hb : (getMember stub invoker.BankOrganizationId).err? with
  | some e =>
    rw [hc, hb] at h
    cases h
  | none =>
    cases hv : validatePaymentPayload stub payload invoker with
    | some e =>
      rw [hc, hb, hv] at h
      cases h
    | none =>
      rw [hb, hv] at hc
      simp only at hc
      rw [hc]
      exact ⟨payload, actors, invoker, _, hact, hinv, rfl, rfl, rfl, rfl, rfl⟩

/-- C17 (failing input): the agent Org4MSP creates payment p1 with currency
RUB; the stored payment carries RUB, the one event, named
TicketPaymentCreated, carries the identifier, the key, an unset previous
state, CheckFundsRequest, the amount, the merchant and the agent, and an empty
currency. -/
theorem C17_create_event_without_currency :
    (create (exStub "Org4MSP" exLedger0 ⟨"p1", CheckFundsInProgress⟩)).response
      = .success none ∧
    (create (exStub "Org4MSP" exLedger0 ⟨"p1", CheckFundsInProgress⟩)).writes
      = [("PAYMENT_p1", .json (exPayment CheckFundsRequest))] ∧
    (exPayment CheckFundsRequest).Currency = "RUB" ∧
    (create (exStub "Org4MSP" exLedger0 ⟨"p1", CheckFundsInProgress⟩)).events
      = [("TicketPaymentCreated",
          { PaymentKey := "PAYMENT_p1", PaymentId := "p1", PreviousState := "",
            CurrentState := "CheckFundsRequest", To := exMerchant, From := exAgent,
            Amount := 1500, Currency := "" })] := by
  decide

/-! ## Identity resolution: claims -/

/-- The bank lookup hands back the pointer the member lookup gave. -/
theorem getBank_member? (stub : Stub) (bankId : String) :
    (getBank stub bankId).member? = (getMember stub bankId).member? := by
  unfold getBank
  cases h : getMember stub bankId with
  | ok bank =>
    simp only
    split <;> rfl
  | withError m e => rfl
  | failed e => rfl

/-- The bank lookup succeeds exactly on a member of type BANK. -/
theorem getBank_ok_iff (stub : Stub) (bankId : String) (bank : Member) :
    getBank stub bankId = .ok bank ↔
      getMember stub bankId = .ok bank ∧ bank.Type_ = stub.BANK_TYPE := by
  unfold getBank
  cases h : getMember stub bankId with
  | ok b =>
    simp only
    by_cases ht : b.Type_ = stub.BANK_TYPE
    · simp only [ht, ne_eq, not_true_eq_false, if_false, Lookup.ok.injEq]
      constructor
      · intro e
        subst e
        exact ⟨rfl, ht⟩
      · intro e
        exact e.1
    · simp only [ht, ne_eq, not_false_eq_true, if_true]
      constructor
      · intro e
        cases e
      · rintro ⟨e, ht2⟩
        cases e
        exact absurd ht2 ht
  | withError m e => simp
  | failed e => simp

/-- `getActors` once the merchant and the creator are resolved, branch by
branch. -/
theorem getActors_resolved (stub : Stub) (merchant : Member) (mspID : String)
    (hm : getMerchant stub = .ok merchant) (hc : stub.creator = .ok mspID) :
    getActors stub =
      if mspID = merchant.OrganizationId then .ok ⟨merchant, some merchant, RoleMerchant⟩
      else match getAgent stub mspID with
        | .ok agent => .ok ⟨merchant, some agent, RoleAgent⟩
        | _ =>
          match getBank stub mspID with
          | .ok bank => .ok ⟨merchant, some bank, RoleBank⟩
          | r => .ok ⟨merchant, r.member?, RoleUnknown⟩ := by
  unfold getActors
  simp only [hm, hc]

/-- C18 (counterexample): the merchant resolves, Org8MSP is not the merchant
and has an entry in the agent registry, but the registry of organizations
holds it as not confirmed by its bank: `getActors` returns role UNKNOWN. -/
theorem C18_counterexample :
    getMerchant exStubOrg8 = .ok exMerchant ∧
    exStubOrg8.creator = .ok "Org8MSP" ∧
    "Org8MSP" ≠ exMerchant.OrganizationId ∧
    getAgentKey "Org8MSP" = .ok "\x00AGENT\x00Org8MSP\x00" ∧
    exStubOrg8.state "\x00AGENT\x00Org8MSP\x00" = some (.text "Org8MSP") ∧
    getActors exStubOrg8 = .ok ⟨exMerchant, some exUnconfirmed, RoleUnknown⟩ :=
  ⟨by decide, rfl, by decide, rfl, by decide, rfl⟩

/-- C18 (amended): on every ledger whose merchant resolves, for every invoker
whose organization id differs from the merchant's and has an entry in the
agent registry, `getActors` returns role AGENT with the member resolved for
that id as invoker whenever the member lookup for that id succeeds; when the
lookup fails (the organization is not found, or is neither a bank nor
confirmed by its bank) it returns role UNKNOWN with whatever the lookup left
as invoker. -/
theorem C18_registered_agent (stub : Stub) (merchant : Member) (mspID key : String)
    (entry : Bytes)
    (hm : getMerchant stub = .ok merchant)
    (hc : stub.creator = .ok mspID)
    (hne : mspID ≠ merchant.OrganizationId)
    (hkey : getAgentKey mspID = .ok key)
    (hentry : stub.state key = some entry) :
    (∀ m, getMember stub mspID = .ok m →
      getActors stub = .ok ⟨merchant, some m, RoleAgent⟩) ∧
    ((∀ m, getMember stub mspID ≠ .ok m) →
      getActors stub = .ok ⟨merchant, (getMember stub mspID).member?, RoleUnknown⟩) := by
  have hagent : getAgent stub mspID = getMember stub mspID := by
    unfold getAgent
    simp only [hkey, hentry]
  rw [getActors_resolved stub merchant mspID hm hc]
  simp only [hne, if_false, hagent]
  constructor
  · intro m hmem
    simp only [hmem]
  · intro hno
    have hb := getBank_member? stub mspID
    cases hmem : getMember stub mspID with
    | ok m => exact absurd hmem (hno m)
    | withError m e =>
      have hbank : getBank stub mspID = .withError m e := by
        unfold getBank
        simp only [hmem]
      simp only [hbank]
    | failed e =>
      have hbank : getBank stub mspID = .failed e := by
        unfold getBank
        simp only [hmem]
      simp only [hbank]

/-- C18 (witness): the registered and confirmed agent Org4MSP on
`exLedger0`. -/
theorem C18_registered_agent_witness :
    getMerchant (exStub "Org4MSP" exLedger0 ⟨"p1", CheckFundsInProgress⟩) = .ok exMerchant ∧
    "Org4MSP" ≠ exMerchant.OrganizationId ∧
    exLedger0 "\x00AGENT\x00Org4MSP\x00" = some (.text "Org4MSP") ∧
    getActors (exStub "Org4MSP" exLedger0 ⟨"p1", CheckFundsInProgress⟩)
      = .ok ⟨exMerchant, some exAgent, RoleAgent⟩ :=
  ⟨by decide, by decide, by decide,
    (C18_registered_agent (exStub "Org4MSP" exLedger0 ⟨"p1", CheckFundsInProgress⟩)
      exMerchant "Org4MSP" "\x00AGENT\x00Org4MSP\x00" (.text "Org4MSP")
      (by decide) rfl (by decide) rfl (by decide)).1 exAgent (by decide)⟩

/-- C19: when the merchant binding is set and the merchant member resolves,
`getActors` returns no error for an invoker with organization id `mspID`, and
the role follows a fixed precedence: MERCHANT, with the merchant as invoker,
if and only if `mspID` is the merchant's organization id, whatever the agent
registry and the member's type are; otherwise AGENT if `getAgent` resolves it
as a registered agent; otherwise BANK if and only if the id resolves to a
member of type BANK; otherwise UNKNOWN. -/
theorem C19_role_precedence (stub : Stub) (merchant : Member) (mspID : String)
    (hm : getMerchant stub = .ok merchant) (hc : stub.creator = .ok mspID) :
    (∃ actors, getActors stub = .ok actors ∧ actors.merchant = merchant ∧
      (actors.invokerRole = RoleMerchant ↔ mspID = merchant.OrganizationId) ∧
      (actors.invokerRole = RoleAgent ↔
        mspID ≠ merchant.OrganizationId ∧ ∃ a, getAgent stub mspID = .ok a) ∧
      (actors.invokerRole = RoleBank ↔
        mspID ≠ merchant.OrganizationId ∧ (¬ ∃ a, getAgent stub mspID = .ok a) ∧
          ∃ b, getMember stub mspID = .ok b ∧ b.Type_ = stub.BANK_TYPE) ∧
      (actors.invokerRole = RoleUnknown ↔
        mspID ≠ merchant.OrganizationId ∧ (¬ ∃ a, getAgent stub mspID = .ok a) ∧
          ¬ ∃ b, getMember stub mspID = .ok b ∧ b.Type_ = stub.BANK_TYPE)) ∧
    (mspID = merchant.OrganizationId →
      getActors stub = .ok ⟨merchant, some merchant, RoleMerchant⟩) ∧
    (mspID ≠ merchant.OrganizationId → ∀ a, getAgent stub mspID = .ok a →
      getActors stub = .ok ⟨merchant, some a, RoleAgent⟩) ∧
    (mspID ≠ merchant.OrganizationId → (¬ ∃ a, getAgent stub mspID = .ok a) →
      ∀ b, getMember stub mspID = .ok b → b.Type_ = stub.BANK_TYPE →
      getActors stub = .ok ⟨merchant, some b, RoleBank⟩) ∧
    (mspID ≠ merchant.OrganizationId → (¬ ∃ a, getAgent stub mspID = .ok a) →
      (¬ ∃ b, getMember stub mspID = .ok b ∧ b.Type_ = stub.BANK_TYPE) →
      getActors stub = .ok ⟨merchant, (getMember stub mspID).member?, RoleUnknown⟩) := by
  have hres := getActors_resolved stub merchant mspID hm hc
  have hMA : RoleMerchant ≠ RoleAgent := by decide
  have hMB : RoleMerchant ≠ RoleBank := by decide
  have hMU : RoleMerchant ≠ RoleUnknown := by decide
  have hAB : RoleAgent ≠ RoleBank := by decide
  have hAU : RoleAgent ≠ RoleUnknown := by decide
  have hBU : RoleBank ≠ RoleUnknown := by decide
  by_cases h1 : mspID = merchant.OrganizationId
  · simp only [h1, if_true] at hres
    refine ⟨⟨_, hres, rfl, ?_, ?_, ?_, ?_⟩, fun _ => hres, fun h => absurd h1 h,
      fun h => absurd h1 h, fun h => absurd h1 h⟩
    · simp [h1]
    · simp [h1, hMA]
    · simp [h1, hMB]
    · simp [h1, hMU]
  · simp only [h1, if_false] at hres
    cases ha : getAgent stub mspID with
    | ok a =>
      simp only [ha] at hres
      refine ⟨⟨_, hres, rfl, ?_, ?_, ?_, ?_⟩, fun h => absurd h h1, ?_, ?_, ?_⟩
      · simp [h1, hMA.symm]
      · simp [h1]
      · simp [hAB]
      · simp [hAU]
      · intro _ a2 ha2
        cases ha2
        exact hres
      · intro _ hno
        exact absurd ⟨a, rfl⟩ hno
      · intro _ hno
        exact absurd ⟨a, rfl⟩ hno
    | withError m e =>
      simp only [ha] at hres
      cases hb : getBank stub mspID with
      | ok b =>
        simp only [hb] at hres
        have hb2 := (getBank_ok_iff stub mspID b).1 hb
        refine ⟨⟨_, hres, rfl, ?_, ?_, ?_, ?_⟩, fun h => absurd h h1, ?_, ?_, ?_⟩
        · simp [h1, hMB.symm]
        · simp [hAB.symm]
        · simp only [true_and, h1, not_false_eq_true, ne_eq]
          exact ⟨fun _ => ⟨by simp, b, hb2⟩, fun _ => trivial⟩
        · simp only [hBU, false_iff, not_and, not_not]
          intro _ _
          exact ⟨b, hb2⟩
        · intro _ a2 ha2
          cases ha2
        · intro _ _ b2 hb2m hb2t
          have e := (getBank_ok_iff stub mspID b2).2 ⟨hb2m, hb2t⟩
          rw [hb] at e
          cases e
          exact hres
        · intro _ _ hno
          exact absurd ⟨b, hb2⟩ hno
      | withError m2 e2 =>
        simp only [hb] at hres
        have hmem := getBank_member? stub mspID
        rw [hb] at hmem
        have hnob : ¬ ∃ b, getMember stub mspID = .ok b ∧ b.Type_ = stub.BANK_TYPE := by
          rintro ⟨b, hb2⟩
          have e := (getBank_ok_iff stub mspID b).2 hb2
          rw [hb] at e
          cases e
        refine ⟨⟨_, hres, rfl, ?_, ?_, ?_, ?_⟩, fun h => absurd h h1, ?_, ?_, ?_⟩
        · simp [h1, hMU.symm]
        · simp [hAU.symm]
        · simp only [hBU.symm, false_iff, not_and]
          intro _ _
          exact hnob
        · simp only [true_iff]
          exact ⟨h1, by simp, hnob⟩
        · intro _ a2 ha2
          cases ha2
        · intro _ _ b2 hb2m hb2t
          exact absurd ⟨b2, hb2m, hb2t⟩ hnob
        · intro _ _ _
          rw [hres, ← hmem]
      | failed e2 =>
        simp only [hb] at hres
        have hmem := getBank_member? stub mspID
        rw [hb] at hmem
        have hnob : ¬ ∃ b, getMember stub mspID = .ok b ∧ b.Type_ = stub.BANK_TYPE := by
          rintro ⟨b, hb2⟩
          have e := (getBank_ok_iff stub mspID b).2 hb2
          rw [hb] at e
          cases e
        refine ⟨⟨_, hres, rfl, ?_, ?_, ?_, ?_⟩, fun h => absurd h h1, ?_, ?_, ?_⟩
        · simp [h1, hMU.symm]
        · simp [hAU.symm]
        · simp only [hBU.symm, false_iff, not_and]
          intro _ _
          exact hnob
        · simp only [true_iff]
          exact ⟨h1, by simp, hnob⟩
        · intro _ a2 ha2
          cases ha2
        · intro _ _ b2 hb2m hb2t
          exact absurd ⟨b2, hb2m, hb2t⟩ hnob
        · intro _ _ _
          rw [hres, ← hmem]
    | failed e =>
      simp only [ha] at hres
      cases hb : getBank stub mspID with
      | ok b =>
        simp only [hb] at hres
        have hb2 := (getBank_ok_iff stub mspID b).1 hb
        refine ⟨⟨_, hres, rfl, ?_, ?_, ?_, ?_⟩, fun h => absurd h h1, ?_, ?_, ?_⟩
        · simp [h1, hMB.symm]
        · simp [hAB.symm]
        · simp only [true_and, h1, not_false_eq_true, ne_eq]
          exact ⟨fun _ => ⟨by simp, b, hb2⟩, fun _ => trivial⟩
        · simp only [hBU, false_iff, not_and, not_not]
          intro _ _
          exact ⟨b, hb2⟩
        · intro _ a2 ha2
          cases ha2
        · intro _ _ b2 hb2m hb2t
          have e := (getBank_ok_iff stub mspID b2).2 ⟨hb2m, hb2t⟩
          rw [hb] at e
          cases e
          exact hres
        · intro _ _ hno
          exact absurd ⟨b, hb2⟩ hno
      | withError m2 e2 =>
        simp only [hb] at hres
        have hmem := getBank_member? stub mspID
        rw [hb] at hmem
        have hnob : ¬ ∃ b, getMember stub mspID = .ok b ∧ b.Type_ = stub.BANK_TYPE := by
          rintro ⟨b, hb2⟩
          have e := (getBank_ok_iff stub mspID b).2 hb2
          rw [hb] at e
          cases e
        refine ⟨⟨_, hres, rfl, ?_, ?_, ?_, ?_⟩, fun h => absurd h h1, ?_, ?_, ?_⟩
        · simp [h1, hMU.symm]
        · simp [hAU.symm]
        · simp only [hBU.symm, false_iff, not_and]
          intro _ _
          exact hnob
        · simp only [true_iff]
          exact ⟨h1, by simp, hnob⟩
        · intro _ a2 ha2
          cases ha2
        · intro _ _ b2 hb2m hb2t
          exact absurd ⟨b2, hb2m, hb2t⟩ hnob
        · intro _ _ _
          rw [hres, ← hmem]
      | failed e2 =>
        simp only [hb] at hres
        have hmem := getBank_member? stub mspID
        rw [hb] at hmem
        have hnob : ¬ ∃ b, getMember stub mspID = .ok b ∧ b.Type_ = stub.BANK_TYPE := by
          rintro ⟨b, hb2⟩
          have e := (getBank_ok_iff stub mspID b).2 hb2
          rw [hb] at e
          cases e
        refine ⟨⟨_, hres, rfl, ?_, ?_, ?_, ?_⟩, fun h => absurd h h1, ?_, ?_, ?_⟩
        · simp [h1, hMU.symm]
        · simp [hAU.symm]
        · simp only [hBU.symm, false_iff, not_and]
          intro _ _
          exact hnob
        · simp only [true_iff]
          exact ⟨h1, by simp, hnob⟩
        · intro _ a2 ha2
          cases ha2
        · intro _ _ b2 hb2m hb2t
          exact absurd ⟨b2, hb2m, hb2t⟩ hnob
        · intro _ _ _
          rw [hres, ← hmem]

/-- C19 (witness): the merchant Org3MSP invoking on `exLedger0`. -/
theorem C19_role_precedence_witness :
    getMerchant (exStub "Org3MSP" exLedger0 ⟨"p1", CheckFundsInProgress⟩) = .ok exMerchant ∧
    (exStub "Org3MSP" exLedger0 ⟨"p1", CheckFundsInProgress⟩).creator = .ok "Org3MSP" ∧
    getActors (exStub "Org3MSP" exLedger0 ⟨"p1", CheckFundsInProgress⟩)
      = .ok ⟨exMerchant, some exMerchant, RoleMerchant⟩ :=
  ⟨by decide, rfl,
    (C19_role_precedence (exStub "Org3MSP" exLedger0 ⟨"p1", CheckFundsInProgress⟩)
      exMerchant "Org3MSP" (by decide) rfl).2.1 rfl⟩

/-! ## The merchant binding -/

/-- `/create` leaves the value under the merchant key as it is. -/
theorem create_keeps_merchant (stub : Stub) :
    commit stub.state (create stub) merchantKey = stub.state merchantKey := by
  rcases create_cases stub with h | ⟨msg, h⟩ | ⟨payment, event, -, h⟩
  · rw [h, commit_crashed]
  · rw [h, commit_WriteError]
  · rw [h, commit_success_one]
    exact put_other _ _ _ _ (getPaymentKey_ne_merchantKey payment.Id).symm

/-- `/updateState` leaves the value under the merchant key as it is. -/
theorem updateState_keeps_merchant (stub : Stub) :
    commit stub.state (updateState stub) merchantKey = stub.state merchantKey := by
  rcases updateState_cases stub with ⟨-, h⟩ | ⟨msg, h⟩ |
    ⟨_, _, payload, _, payment, event, -, -, -, -, -, h⟩
  · rw [h, commit_crashed]
  · rw [h, commit_WriteError]
  · rw [h, commit_success_one]
    exact put_other _ _ _ _ (getPaymentKey_ne_merchantKey payment.Id).symm

/-- `/agent/add` leaves the value under the merchant key as it is. -/
theorem agentAdd_keeps_merchant (stub : Stub) :
    commit stub.state (agentAdd stub) merchantKey = stub.state merchantKey := by
  unfold agentAdd
  split
  · split
    · rfl
    · split
      · rfl
      · split
        · rfl
        · next key hkey =>
          rw [commit_success_one]
          exact put_other _ _ _ _ (getAgentKey_ne_merchantKey _ key hkey).symm
  · rfl

/-- `/init` on a ledger whose merchant key holds a value returns "MerchantId
already set" and leaves the ledger as it is; on a ledger without one it writes
its argument under that key. -/
theorem initMerchant_once (stub : Stub) (arg : String) (hargs : stub.args = [arg]) :
    (∀ v, stub.state merchantKey = some v →
      initMerchant stub = ⟨.error ("MerchantId already set: " ++ stub.string v), [], []⟩ ∧
      commit stub.state (initMerchant stub) = stub.state) ∧
    (stub.state merchantKey = none →
      initMerchant stub = ⟨.success none, [(merchantKey, .text arg)], []⟩) := by
  unfold initMerchant
  simp only [hargs]
  constructor
  · intro v hv
    simp only [hv]
    exact ⟨rfl, rfl⟩
  · intro hv
    simp only [hv]

/-- `/init` never changes a merchant binding that holds a value. -/
theorem initMerchant_keeps_merchant (stub : Stub) (v : Bytes)
    (hv : stub.state merchantKey = some v) :
    commit stub.state (initMerchant stub) merchantKey = some v := by
  unfold initMerchant
  split
  · simp only [hv]
    exact hv
  · exact hv

/-- Whatever the owner extension answers, the chaincode `Init` has issued the
write of its first argument under the merchant key, with no test of what the
key holds. -/
theorem Init_writes_merchant (stub : Stub) (owner : Result) (mspId : String)
    (rest : List String) (hargs : stub.args = mspId :: rest) :
    (Init stub owner).writes = (merchantKey, .text mspId) :: owner.writes ∧
    (Init stub owner).response = owner.response := by
  unfold Init
  simp [hargs]

/-- C20 (failing input): on `exLedger1` the merchant key holds Org3MSP; the
chaincode `Init` run again with argument Org7MSP, with the owner extension
answering success, returns success and the ledger then holds Org7MSP under the
merchant key. The handler `/init` with the same argument on the same ledger
refuses with "MerchantId already set: Org3MSP". -/
theorem C20_Init_overwrites_merchant :
    exLedger1 merchantKey = some (.text "Org3MSP") ∧
    Init exStubReinit ⟨.success none, [], []⟩
      = ⟨.success none, [("MERCHANT", .text "Org7MSP")], []⟩ ∧
    commit exLedger1 (Init exStubReinit ⟨.success none, [], []⟩) merchantKey
      = some (.text "Org7MSP") ∧
    initMerchant exStubReinit = ⟨.error "MerchantId already set: Org3MSP", [], []⟩ := by
  decide


/-! ## `/init`, `/agent/add`, `/get`: claims -/

/-- C21 (counterexample): `/init` with the empty argument on a ledger that
holds nothing succeeds, the written empty value leaves the merchant key unset,
and `/init` with Org7MSP on the ledger so left succeeds again. -/
theorem C21_counterexample :
    exStubInitEmpty.args = [""] ∧ exStubInitEmpty.state merchantKey = none ∧
    (initMerchant exStubInitEmpty).response = .success none ∧
    commit exStubInitEmpty.state (initMerchant exStubInitEmpty) merchantKey = none ∧
    (initMerchant { exStubReinit with
        state := commit exStubInitEmpty.state (initMerchant exStubInitEmpty) }).response
      = .success none :=
  ⟨rfl, rfl, by decide, by decide, by decide⟩

/-- C21 (amended): `/init` with exactly one argument that is not empty, on a
ledger whose merchant key is unset, stores that argument under the merchant
key and succeeds, changing no other key; with exactly one argument on a ledger
whose merchant key holds a value it returns "MerchantId already set:
<existing id>" and leaves the ledger unchanged. -/
theorem C21_init_once_nonempty (stub : Stub) (arg : String) (hargs : stub.args = [arg]) :
    (arg ≠ "" → stub.state merchantKey = none →
      initMerchant stub = ⟨.success none, [(merchantKey, .text arg)], []⟩ ∧
      commit stub.state (initMerchant stub) merchantKey = some (.text arg) ∧
      ∀ k, k ≠ merchantKey → commit stub.state (initMerchant stub) k = stub.state k) ∧
    (∀ existing, stub.state merchantKey = some existing →
      initMerchant stub
        = ⟨.error ("MerchantId already set: " ++ stub.string existing), [], []⟩ ∧
      commit stub.state (initMerchant stub) = stub.state) := by
  have h := initMerchant_once stub arg hargs
  constructor
  · intro harg hnone
    have h2 := h.2 hnone
    refine ⟨h2, ?_, ?_⟩
    · rw [h2, commit_success_one]
      exact put_same _ _ _ ((isEmpty_text arg).2 harg)
    · intro k hk
      rw [h2, commit_success_one, put_other _ _ _ _ hk]
  · intro existing hset
    exact h.1 existing hset

/-- C21 (witness): `/init` with Org7MSP on `exLedger1`, whose merchant key
holds Org3MSP, and on a ledger that holds nothing. -/
theorem C21_init_once_nonempty_witness :
    exStubReinit.state merchantKey = some (.text "Org3MSP") ∧
    initMerchant exStubReinit = ⟨.error "MerchantId already set: Org3MSP", [], []⟩ ∧
    commit (fun _ => none) (initMerchant { exStubReinit with state := fun _ => none })
      merchantKey = some (.text "Org7MSP") :=
  ⟨by decide,
    ((C21_init_once_nonempty exStubReinit "Org7MSP" rfl).2 (.text "Org3MSP") (by decide)).1,
    ((C21_init_once_nonempty { exStubReinit with state := fun _ => none } "Org7MSP" rfl).1
      (by decide) rfl).2.1⟩

/-- A successful `/agent/add` was invoked by the merchant with an id whose
registry key the shim builds. -/
theorem agentAdd_success (stub : Stub) (a : String) (hargs : stub.args = [a])
    (hok : (agentAdd stub).response = .success none) :
    ∃ actors key, getActors stub = .ok actors ∧ actors.invokerRole = RoleMerchant ∧
      getAgentKey a = .ok key := by
  unfold agentAdd at hok
  simp only [hargs] at hok
  cases hact : getActors stub with
  | error e =>
    rw [hact] at hok
    cases hok
  | ok actors =>
    rw [hact] at hok
    simp only at hok
    by_cases hr : actors.invokerRole = RoleMerchant
    · cases hkey : getAgentKey a with
      | error e =>
        simp only [hr, hkey, ne_eq, not_true_eq_false, if_false] at hok
        cases hok
      | ok key => exact ⟨actors, key, rfl, hr, rfl⟩
    · simp only [ne_eq, hr, not_false_eq_true, if_true] at hok
      cases hok

/-- The shim builds the registry key of an id exactly when the id holds
neither U+0000 nor U+10FFFF. -/
theorem getAgentKey_ok_iff (a : String) :
    (∃ key, getAgentKey a = .ok key) ↔
      ∀ c ∈ a.data, c.val.toNat ≠ 0 ∧ c.val.toNat ≠ 0x10FFFF := by
  have hobj : (agentKey.data.any fun c => c.val.toNat = 0 || c.val.toNat = 0x10FFFF) = false := by
    decide
  unfold getAgentKey CreateCompositeKey
  simp only [hobj, Bool.false_eq_true, if_false, List.find?_cons, List.find?_nil]
  cases hbad : (a.data.any fun c => c.val.toNat = 0 || c.val.toNat = 0x10FFFF) with
  | true =>
    simp only [Bool.false_eq_true, exists_false, false_iff, reduceCtorEq, exists_const]
    intro hall
    rw [List.any_eq_true] at hbad
    obtain ⟨c, hc, hcb⟩ := hbad
    have := hall c hc
    simp only [Bool.or_eq_true, decide_eq_true_eq] at hcb
    rcases hcb with h0 | h1
    · exact this.1 h0
    · exact this.2 h1
  | false =>
    simp only [Except.ok.injEq, exists_eq', true_iff]
    intro c hc
    rw [List.any_eq_false] at hbad
    have := hbad c hc
    simp only [Bool.or_eq_true, decide_eq_true_eq, not_or] at this
    exact this

/-- C22 (counterexample): the merchant Org3MSP asks to add an id that holds
U+0000; the shim refuses to build the registry key and the add fails, although
the invoker's role is MERCHANT. -/
theorem C22_counterexample :
    exStubAddBadId.args = ["Org\x009MSP"] ∧
    getActors exStubAddBadId = .ok ⟨exMerchant, some exMerchant, RoleMerchant⟩ ∧
    ∃ err, getAgentKey "Org\x009MSP" = .error err ∧
      agentAdd exStubAddBadId = ⟨.error err, [], []⟩ :=
  ⟨rfl, rfl, _, rfl, rfl⟩

/-- C22 (amended): `/agent/add` with one argument succeeds if and only if the
invoker's role is resolved as MERCHANT and the shim builds the registry key of
the argument, which it does exactly when the argument holds neither U+0000
nor U+10FFFF; the merchant's add of an argument the shim refuses returns the
shim's error and leaves the ledger unchanged; for every other resolved role,
whatever the argument, it returns "only merchant can add agent, your role is:
<role>" and leaves the ledger, so the agent registry, unchanged. -/
theorem C22_agentAdd_merchant_and_key (stub : Stub) (arg : String)
    (hargs : stub.args = [arg]) :
    ((agentAdd stub).response = .success none ↔
      ∃ actors, getActors stub = .ok actors ∧ actors.invokerRole = RoleMerchant ∧
        ∀ c ∈ arg.data, c.val.toNat ≠ 0 ∧ c.val.toNat ≠ 0x10FFFF) ∧
    ∀ actors, getActors stub = .ok actors →
      (actors.invokerRole = RoleMerchant → ∀ key, getAgentKey arg = .ok key →
        agentAdd stub = ⟨.success none, [(key, .text arg)], []⟩) ∧
      (actors.invokerRole = RoleMerchant → ∀ err, getAgentKey arg = .error err →
        agentAdd stub = ⟨.error err, [], []⟩ ∧
        commit stub.state (agentAdd stub) = stub.state) ∧
      (actors.invokerRole ≠ RoleMerchant →
        agentAdd stub = ⟨.error ("only merchant can add agent, your role is: "
          ++ actors.invokerRole), [], []⟩ ∧
        commit stub.state (agentAdd stub) = stub.state) := by
  have hyes : ∀ actors, getActors stub = .ok actors → actors.invokerRole = RoleMerchant →
      ∀ key, getAgentKey arg = .ok key →
      agentAdd stub = ⟨.success none, [(key, .text arg)], []⟩ := by
    intro actors hact hr key hkey
    unfold agentAdd
    simp only [hargs, hact, hr, hkey, ne_eq, not_true_eq_false, if_false]
  have hbad : ∀ actors, getActors stub = .ok actors → actors.invokerRole = RoleMerchant →
      ∀ err, getAgentKey arg = .error err →
      agentAdd stub = ⟨.error err, [], []⟩ := by
    intro actors hact hr err hkey
    unfold agentAdd
    simp only [hargs, hact, hr, hkey, ne_eq, not_true_eq_false, if_false]
    rfl
  have hno : ∀ actors, getActors stub = .ok actors → actors.invokerRole ≠ RoleMerchant →
      agentAdd stub = ⟨.error ("only merchant can add agent, your role is: "
        ++ actors.invokerRole), [], []⟩ := by
    intro actors hact hr
    unfold agentAdd
    simp only [hargs, hact, ne_eq, hr, not_false_eq_true, if_true]
    rfl
  constructor
  · rw [← getAgentKey_ok_iff]
    constructor
    · intro hok
      obtain ⟨actors, key, hact, hr, hkey⟩ := agentAdd_success stub arg hargs hok
      exact ⟨actors, hact, hr, key, hkey⟩
    · rintro ⟨actors, hact, hr, key, hkey⟩
      rw [hyes actors hact hr key hkey]
  · intro actors hact
    refine ⟨hyes actors hact, ?_, ?_⟩
    · intro hr err hkey
      refine ⟨hbad actors hact hr err hkey, ?_⟩
      rw [hbad actors hact hr err hkey]
      rfl
    · intro hr
      refine ⟨hno actors hact hr, ?_⟩
      rw [hno actors hact hr]
      rfl

/-- C22 (witness): the agent Org4MSP asks to add an agent on `exLedger0`. -/
theorem C22_agentAdd_merchant_and_key_witness :
    getActors (exStub "Org4MSP" exLedger0 ⟨"p1", CheckFundsInProgress⟩)
      = .ok ⟨exMerchant, some exAgent, RoleAgent⟩ ∧
    agentAdd (exStub "Org4MSP" exLedger0 ⟨"p1", CheckFundsInProgress⟩)
      = ⟨.error ("only merchant can add agent, your role is: " ++ RoleAgent), [], []⟩ :=
  ⟨rfl,
    (((C22_agentAdd_merchant_and_key (exStub "Org4MSP" exLedger0 ⟨"p1", CheckFundsInProgress⟩)
      "payload" rfl).2 ⟨exMerchant, some exAgent, RoleAgent⟩ rfl).2.2 (by decide)).1⟩

/-- `/get` with one argument hands back what the ledger holds under the key of
that identifier, as a success, also when it holds nothing. -/
theorem get_reads (reader : Stub) (id : String) (hargs : reader.args = [id]) :
    get reader = ⟨.success (reader.state (getPaymentKey id)), [], []⟩ := by
  unfold get
  simp only [hargs]

/-- C24 (failing input): no payment is stored under p1 on `exLedger0`; `/get`
with argument p1 returns a success response with a nil payload, while the
internal reader `getPayment` reports the payment as not found. -/
theorem C24_get_absent_payment_succeeds :
    exLedger0 (getPaymentKey "p1") = none ∧
    get { exStub "Org4MSP" exLedger0 ⟨"p1", CheckFundsInProgress⟩ with args := ["p1"] }
      = ⟨.success none, [], []⟩ ∧
    getPayment { exStub "Org4MSP" exLedger0 ⟨"p1", CheckFundsInProgress⟩ with args := ["p1"] }
        "p1"
      = .error "\npayment not found with id p1" :=
  ⟨by decide, by decide, rfl⟩

/-- C27: when the role check and the ownership check pass and the transition
table has no edge from the payment's state to the requested state (a known
state name or not), `canChangePaymentState` fails with "can't change payment
state from: <payment.State>, to: <requested state>, role: <role>". -/
theorem C27_illegal_transition_message (p : Payment) (s : PaymentState) (m : Member)
    (role : String)
    (hrole : roleCanChangeState role p.State = true)
    (hown : passesOwnershipCheck p m role)
    (hedge : (p.State, s) ∉ legalEdges) :
    canChangePaymentState p s (some m) role
      = .error ("can't change payment state from: " ++ p.State ++ ", to: " ++ s
          ++ ", role: " ++ role) := by
  rw [canChange_some]
  have ha : ¬ (role = RoleAgent ∧ m.OrganizationId ≠ p.PayerOrgId) :=
    fun h => h.2 (hown.1 h.1)
  have hb : ¬ (role = RoleBank ∧ m.OrganizationId ≠ p.PayerBankOrgId) :=
    fun h => h.2 (hown.2 h.1)
  simp only [hrole, ha, hb, hedge, if_false, errIllegalTransition]
  rfl

/-- C27 (witness): the payer's bank asks to move a payment from
CheckFundsRequest straight to CheckFundsSuccess. -/
theorem C27_illegal_transition_message_witness :
    roleCanChangeState RoleBank (exPayment CheckFundsRequest).State = true ∧
    (exPayment CheckFundsRequest).State = "CheckFundsRequest" ∧
    canChangePaymentState (exPayment CheckFundsRequest) CheckFundsSuccess (some exBank) RoleBank
      = .error ("can't change payment state from: " ++ (exPayment CheckFundsRequest).State
          ++ ", to: " ++ CheckFundsSuccess ++ ", role: " ++ RoleBank) :=
  ⟨by decide, rfl,
    C27_illegal_transition_message (exPayment CheckFundsRequest) CheckFundsSuccess exBank
      RoleBank (by decide) ⟨fun h => absurd h (by decide), fun _ => rfl⟩ (by decide)⟩

/-! ## What `/create` stores and what can be stored at all -/

/-- The record a successful `/create` leaves under the key of the payload's
identifier. -/
theorem create_stored (stub : Stub) (arg : String) (rest : List String)
    (payload : PaymentCreatePayload)
    (hargs : stub.args = arg :: rest)
    (hdec : stub.unmarshalPaymentCreatePayload arg = .ok payload)
    (hok : (create stub).response = .success none) :
    ∃ (actors : Actors) (invoker : Member) (agentByItn : Member),
      getActors stub = .ok actors ∧ actors.invokerRole = RoleAgent ∧
      actors.invoker = some invoker ∧
      getMemberByItn stub payload.PayerNumber = .ok agentByItn ∧
      isPaymentExists stub payload.Id = false ∧
      create stub = ⟨.success none, [(getPaymentKey payload.Id, .json
          { Id := payload.Id, TicketNumber := "", State := CheckFundsRequest,
            Amount := payload.Amount, Currency := payload.Currency,
            InternationalFlight := payload.InternationalFlight, PaymentType := "SALE",
            VatIncluded := false, Purpose := "", Meta := [],
            PayerOrgId := invoker.OrganizationId,
            PayerBankOrgId := invoker.BankOrganizationId,
            PayerId := payload.PayerId, PayerAccount := payload.PayerAccount,
            PayerNumber := payload.PayerNumber,
            RecipientOrgId := actors.merchant.OrganizationId,
            RecipientBankOrgId := actors.merchant.BankOrganizationId,
            RecipientId := payload.RecipientId,
            RecipientAccount := payload.RecipientAccount,
            RecipientNumber := payload.RecipientNumber })],
        [(TicketPaymentCreated,
          { PaymentKey := getPaymentKey payload.Id, PaymentId := payload.Id,
            PreviousState := PaymentStateEmpty, CurrentState := CheckFundsRequest,
            To := actors.merchant, From := invoker, Amount := payload.Amount,
            Currency := "" })]⟩ := by
  obtain ⟨arg2, rest2, payload2, actors, invoker, hargs2, hdec2, hact, hrole, hinv⟩ :=
    create_success_agent stub hok
  rw [hargs] at hargs2
  cases hargs2
  rw [hdec] at hdec2
  cases hdec2
  have hc := create_of_agent stub arg rest payload actors invoker hargs hdec hact hrole hinv
  cases hb : (getMember stub invoker.BankOrganizationId).err? with
  | some e =>
    rw [hc, hb] at hok
    cases hok
  | none =>
    cases hv : validatePaymentPayload stub payload invoker with
    | some e =>
      rw [hc, hb, hv] at hok
      cases hok
    | none =>
      rw [hb, hv] at hc
      simp only at hc
      have hex : isPaymentExists stub payload.Id = false := by
        cases hx : isPaymentExists stub payload.Id with
        | false => rfl
        | true =>
          unfold validatePaymentPayload at hv
          simp [hx] at hv
      have hitn : ∃ a, getMemberByItn stub payload.PayerNumber = .ok a := by
        cases ha : getMemberByItn stub payload.PayerNumber with
        | ok a => exact ⟨a, rfl⟩
        | error e =>
          unfold validatePaymentPayload at hv
          simp [hex, ha] at hv
      obtain ⟨a, ha⟩ := hitn
      exact ⟨actors, invoker, a, hact, hrole, hinv, ha, hex, hc⟩

/-- C28 (counterexample): the agent Org4MSP creates payment p2 from a payload
with payment type REFUND and the VAT flag set; the payment then read by `/get`
has payment type SALE and the VAT flag unset. -/
theorem C28_counterexample :
    exStubVat.unmarshalPaymentCreatePayload "payload" = .ok exCreatePayloadVat ∧
    exCreatePayloadVat.PaymentType = "REFUND" ∧ exCreatePayloadVat.VatIncluded = true ∧
    (create exStubVat).response = .success none ∧
    ∃ p : Payment,
      get { exStubVat with state := commit exLedger0 (create exStubVat), args := ["p2"] }
        = ⟨.success (some (.json p)), [], []⟩ ∧
      p.PaymentType = "SALE" ∧ p.VatIncluded = false :=
  ⟨rfl, rfl, rfl, by decide,
    { exPayment CheckFundsRequest with Id := "p2" }, by decide, rfl, rfl⟩

/-- C28 (amended): a successful `/create` stores the payment type SALE,
whatever the payload's payment type is: for every accepted payload, the
payment returned by an immediately following `/get` of its identifier has
paymentType "SALE". -/
theorem C28_create_stores_sale (stub : Stub) (arg : String) (rest : List String)
    (payload : PaymentCreatePayload)
    (hargs : stub.args = arg :: rest)
    (hdec : stub.unmarshalPaymentCreatePayload arg = .ok payload)
    (hok : (create stub).response = .success none) :
    ∀ reader : Stub,
      reader.state = commit stub.state (create stub) → reader.args = [payload.Id] →
      ∃ p : Payment,
        get reader = ⟨.success (some (.json p)), [], []⟩ ∧ p.PaymentType = "SALE" := by
  obtain ⟨actors, invoker, a, -, -, -, -, -, hc⟩ := create_stored stub arg rest payload hargs hdec hok
  intro reader hstate hrargs
  rw [get_reads reader payload.Id hrargs, hstate, hc, commit_success_one, put_same_json]
  exact ⟨_, rfl, rfl⟩

/-- C28 (witness): the agent Org4MSP creates payment p2 from
`exCreatePayloadVat`. -/
theorem C28_create_stores_sale_witness :
    (create exStubVat).response = .success none ∧
    ∃ p : Payment,
      get { exStubVat with state := commit exLedger0 (create exStubVat), args := ["p2"] }
        = ⟨.success (some (.json p)), [], []⟩ ∧ p.PaymentType = "SALE" :=
  ⟨by decide,
    C28_create_stores_sale exStubVat "payload" [] exCreatePayloadVat rfl rfl (by decide)
      { exStubVat with state := commit exLedger0 (create exStubVat), args := ["p2"] }
      rfl rfl⟩

/-- A state the guard lets a payment move to is one of the storable states. -/
theorem accepted_state_storable (p : Payment) (s : PaymentState) (inv : Option Member)
    (role : String) (h : canChangePaymentState p s inv role = .ok) : s ∈ storableStates := by
  have h1 := ((canChange_ok_iff p s inv role).1 h).1
  simp only [acceptedTriples, List.mem_cons, List.mem_singleton, List.not_mem_nil,
    Prod.mk.injEq, or_false] at h1
  rcases h1 with e | e | e | e | e | e | e | e <;> rw [e.2.1] <;> decide

theorem put_storable (l : Ledger) (h : StorableOnly l) (k : String) (p : Payment)
    (hp : p.State ∈ storableStates) : StorableOnly (l.put k (.json p)) := by
  intro k2 q hk
  unfold Ledger.put at hk
  split at hk
  · cases hk
    exact hp
  · exact h k2 q hk

/-- Every reachable ledger keeps each payment record in a storable state. -/
theorem reachable_storable (l : Ledger) (h : Reachable l) : StorableOnly l := by
  induction h with
  | start l h0 => intro k p hk; exact absurd hk (h0 k p)
  | create stub _ ih =>
    rcases create_cases stub with h | ⟨msg, h⟩ | ⟨payment, event, hst, h⟩
    · rw [h, commit_crashed]; exact ih
    · rw [h, commit_WriteError]; exact ih
    · rw [h, commit_success_one]
      exact put_storable _ ih _ payment (by rw [hst]; decide)
  | updateState stub _ ih =>
    rcases updateState_cases stub with ⟨-, h⟩ | ⟨msg, h⟩ |
      ⟨arg, rest, payload, actors, payment, event, -, -, -, -, hcan, h⟩
    · rw [h, commit_crashed]; exact ih
    · rw [h, commit_WriteError]; exact ih
    · rw [h, commit_success_one]
      exact put_storable _ ih _ { payment with State := payload.State }
        (accepted_state_storable _ _ _ _ hcan)

/-- C30: no sequence of `/create` and `/updateState` invocations, by any
invokers, starting from a ledger with no payment records stores a payment in
state Refunded or TicketIssuanceTimeout. A payment in DebitSuccess is never
moved, since no role may act on DebitSuccess, and no request for
TicketIssuanceTimeout is accepted from any state. -/
theorem C30_refunded_and_timeout_never_stored (l : Ledger) (hreach : Reachable l)
    (k : String) (p : Payment) (hk : l k = some (.json p)) :
    (p.State ≠ Refunded ∧ p.State ≠ TicketIssuanceTimeout) ∧
    (∀ (q : Payment) (s : PaymentState) (inv : Option Member) (role : String),
      q.State = DebitSuccess →
      canChangePaymentState q s inv role
        = .error ("role can't change from state: " ++ q.State ++ ", role: " ++ role)) ∧
    (∀ (q : Payment) (inv : Option Member) (role : String),
      canChangePaymentState q TicketIssuanceTimeout inv role ≠ .ok) := by
  have hmem := reachable_storable l hreach k p hk
  refine ⟨⟨?_, ?_⟩, ?_, ?_⟩
  · intro h
    rw [h] at hmem
    revert hmem
    decide
  · intro h
    rw [h] at hmem
    revert hmem
    decide
  · intro q s inv role hq
    have hr : roleCanChangeState role q.State = false := by
      cases hc : roleCanChangeState role q.State with
      | false => rfl
      | true =>
        exfalso
        have h := (roleCanChangeState_iff role q.State).1 hc
        rw [hq] at h
        simp [CheckFundsRequest, CheckFundsInProgress, CheckFundsSuccess, DebitRequest,
          DebitInProgress, DebitFail, DebitSuccess] at h
    exact canChange_role_refused q s inv role hr
  · intro q inv role h
    have h1 := ((canChange_ok_iff q TicketIssuanceTimeout inv role).1 h).1
    simp [acceptedTriples, CheckFundsRequest, CheckFundsInProgress, CheckFundsSuccess,
      CheckFundsFail, DebitRequest, DebitInProgress, DebitSuccess, DebitFail, TicketCanceled,
      TicketIssuanceTimeout] at h1

/-- C30 (witness): the ledger after Org4MSP created payment p1. -/
theorem C30_refunded_and_timeout_never_stored_witness :
    Reachable exLedger1 ∧
    exLedger1 "PAYMENT_p1" = some (.json (exPayment CheckFundsRequest)) ∧
    (exPayment CheckFundsRequest).State ≠ Refunded ∧
    (exPayment CheckFundsRequest).State ≠ TicketIssuanceTimeout :=
  ⟨exLedger1_reachable, by decide,
    (C30_refunded_and_timeout_never_stored exLedger1 exLedger1_reachable "PAYMENT_p1"
      (exPayment CheckFundsRequest) (by decide)).1⟩

/-! ## Argument counts -/

/-- The loop of `/agent/list` does not read the arguments. -/
theorem agentListFrom_args (stub : Stub) (args : List String) (iter : List (String × Bytes))
    (agents : List Member) :
    agentListFrom { stub with args := args } iter agents = agentListFrom stub iter agents := by
  induction iter generalizing agents with
  | nil => rfl
  | cons kv rest ih =>
    have hm : getMember { stub with args := args } (Stub.string { stub with args := args } kv.2)
        = getMember stub (stub.string kv.2) := by
      cases kv.2 <;> rfl
    unfold agentListFrom
    rw [hm]
    cases getMember stub (stub.string kv.2) with
    | ok m => exact ih _
    | withError m e => rfl
    | failed e => rfl

/-- C25 (counterexample): `/merchant` and `/agent/list` invoked with an
argument they do not take answer with success, `/create` invoked with two
arguments succeeds and writes the payment, and `/create` invoked with no
argument crashes on `args[0]`. -/
theorem C25_counterexample :
    merchant { exStub "Org4MSP" exLedger0 ⟨"p1", CheckFundsInProgress⟩ with args := ["extra"] }
      = .ok exMerchant ∧
    agentList { exStub "Org4MSP" exLedger0 ⟨"p1", CheckFundsInProgress⟩ with args := ["extra"] }
        [("\x00AGENT\x00Org4MSP\x00", .text "Org4MSP")]
      = .ok [exAgent] ∧
    create { exStub "Org4MSP" exLedger0 ⟨"p1", CheckFundsInProgress⟩ with
        args := ["payload", "extra"] }
      = create (exStub "Org4MSP" exLedger0 ⟨"p1", CheckFundsInProgress⟩) ∧
    (create (exStub "Org4MSP" exLedger0 ⟨"p1", CheckFundsInProgress⟩)).writes
      = [("PAYMENT_p1", .json (exPayment CheckFundsRequest))] ∧
    create { exStub "Org4MSP" exLedger0 ⟨"p1", CheckFundsInProgress⟩ with args := [] }
      = ⟨.crash, [], []⟩ :=
  ⟨rfl, rfl, by decide, by decide, by decide⟩

/-- C25 (amended): `/agent/add`, `/init` and `/get` invoked with a number of
arguments other than one return the count-mismatch error naming the
arguments, and `/history` invoked with none returns the key-not-presented
error, all without writing; `/merchant` and `/agent/list` do not read their
arguments; `/create`, `/updateState` and `/history` read their first argument
only. -/
theorem C25_argument_counts (stub : Stub) :
    (stub.args.length ≠ 1 →
      agentAdd stub = ⟨.error ("arguments count mismatch: " ++ fmtArgs stub.args), [], []⟩ ∧
      initMerchant stub
        = ⟨.error ("Arguments count mismatch: " ++ fmtArgs stub.args), [], []⟩ ∧
      get stub = ⟨.error ("Arguments count mismatch: " ++ fmtArgs stub.args), [], []⟩) ∧
    (∀ (err : String) (hist : String → List HistoryEntry),
      stub.args = [] → history stub err hist = .error err) ∧
    (∀ args : List String,
      merchant { stub with args := args } = merchant stub ∧
      ∀ iter, agentList { stub with args := args } iter = agentList stub iter) ∧
    (∀ (arg : String) (rest : List String) (err : String) (hist : String → List HistoryEntry),
      create { stub with args := arg :: rest } = create { stub with args := [arg] } ∧
      updateState { stub with args := arg :: rest } = updateState { stub with args := [arg] } ∧
      history { stub with args := arg :: rest } err hist
        = history { stub with args := [arg] } err hist) := by
  refine ⟨?_, ?_, ?_, ?_⟩
  · intro hlen
    cases hargs : stub.args with
    | nil => exact ⟨by simp [agentAdd, hargs, WriteError], by simp [initMerchant, hargs, WriteError],
        by simp [get, hargs]⟩
    | cons a rest =>
      cases rest with
      | nil => simp [hargs] at hlen
      | cons b rest2 =>
        exact ⟨by simp [agentAdd, hargs, WriteError], by simp [initMerchant, hargs, WriteError],
          by simp [get, hargs]⟩
  · intro err hist hargs
    simp [history, hargs]
  · intro args
    exact ⟨rfl, fun iter => agentListFrom_args stub args iter []⟩
  · intro arg rest err hist
    exact ⟨rfl, rfl, rfl⟩

/-! ## Runs of `/updateState` on one payment -/

theorem stateRank_le (s : PaymentState) : stateRank s ≤ 6 := by
  unfold stateRank
  split_ifs <;> omega

/-- Every accepted triple leads to a state further on. -/
theorem accepted_rank (a b : PaymentState) (role : String)
    (h : (a, b, role) ∈ acceptedTriples) : stateRank a < stateRank b := by
  simp only [acceptedTriples, List.mem_cons, List.mem_singleton, List.not_mem_nil,
    Prod.mk.injEq, or_false] at h
  rcases h with e | e | e | e | e | e | e | e <;> rw [e.1, e.2.1] <;> decide

/-- The rank of the state stored for `pid`, 0 when nothing is stored. -/
theorem stateOf_put (pid : String) (l : Ledger) (p : Payment) :
    stateOf pid (l.put (getPaymentKey pid) (.json p)) = some p.State := by
  unfold stateOf
  rw [put_same_json]

/-- One successful `/updateState` for `pid` on a reachable ledger: the result
is reachable, and the payment's state moved further on. -/
theorem updatesPayment_step (pid : String) (l1 l2 : Ledger) (hreach : Reachable l1)
    (h : UpdatesPayment pid l1 l2) :
    Reachable l2 ∧
    ∃ a b, stateOf pid l1 = some a ∧ stateOf pid l2 = some b ∧ stateRank a < stateRank b := by
  obtain ⟨stub, arg, rest, s, hstate, hargs, hdec, hok, hl2⟩ := h
  subst hstate
  subst hl2
  refine ⟨Reachable.updateState stub hreach, ?_⟩
  rcases updateState_cases stub with ⟨-, h⟩ | ⟨msg, h⟩ |
    ⟨arg2, rest2, payload, actors, payment, event, hargs2, hdec2, -, hget, hcan, h⟩
  · rw [h] at hok; cases hok
  · rw [h] at hok; cases hok
  · rw [hargs] at hargs2
    cases hargs2
    rw [hdec] at hdec2
    cases hdec2
    have hstored : stub.state (getPaymentKey pid) = some (.json payment) := by
      unfold getPayment at hget
      split at hget
      · cases hget
      · cases hget
      · next heq => cases hget; exact heq
    have hkey : getPaymentKey pid = getPaymentKey payment.Id :=
      (reachable_wellKeyed _ hreach _ _ hstored).1
    refine ⟨payment.State, s, ?_, ?_, ?_⟩
    · unfold stateOf
      rw [hstored]
    · rw [h, commit_success_one, ← hkey]
      exact stateOf_put pid _ _
    · exact accepted_rank _ _ _ ((canChange_ok_iff _ _ _ _).1 hcan).1

/-- The rank of what is stored for `pid`. -/
theorem run_ranks (pid : String) (ledgers : List Ledger)
    (hchain : ledgers.Chain' (UpdatesPayment pid))
    (hstart : ∀ l ∈ ledgers.head?, Reachable l) :
    (ledgers.map fun l => ((stateOf pid l).map stateRank).getD 0).Chain' (· < ·) := by
  induction ledgers with
  | nil => simp
  | cons l1 rest ih =>
    cases rest with
    | nil => simp
    | cons l2 rest2 =>
      have hreach : Reachable l1 := hstart l1 (by simp)
      rw [List.chain'_cons] at hchain
      obtain ⟨hr2, a, b, ha, hb, hlt⟩ := updatesPayment_step pid l1 l2 hreach hchain.1
      have ih2 := ih hchain.2 (by
        intro l hl
        simp only [List.head?_cons, Option.mem_def, Option.some.injEq] at hl
        subst hl
        exact hr2)
      simp only [List.map_cons] at ih2 ⊢
      rw [List.chain'_cons]
      refine ⟨?_, ih2⟩
      rw [ha, hb]
      exact hlt

/-- A strictly increasing list of numbers up to 6 has at most 7 elements. -/
theorem increasing_length (xs : List Nat) (hinc : xs.Chain' (· < ·))
    (hle : ∀ x ∈ xs, x ≤ 6) : xs.Nodup ∧ xs.length ≤ 7 := by
  have hpair : xs.Pairwise (· < ·) := List.chain'_iff_pairwise.1 hinc
  have hnodup : xs.Nodup := hpair.imp (fun h => Nat.ne_of_lt h)
  refine ⟨hnodup, ?_⟩
  have hsub : xs.toFinset ⊆ Finset.range 7 := by
    intro x hx
    rw [List.mem_toFinset] at hx
    rw [Finset.mem_range]
    have := hle x hx
    omega
  have hcard := Finset.card_le_card hsub
  rw [List.toFinset_card_of_nodup hnodup, Finset.card_range] at hcard
  exact hcard

/-- C29: the accepted transitions form an acyclic graph. Along any sequence of
ledgers that starts at a reachable one and in which each ledger comes from the
one before by a successful `/updateState` for payment `pid`, the payment never
is in a state it held before, and there are at most 7 ledgers, so at most 6
transitions. -/
theorem C29_runs_are_acyclic (pid : String) (ledgers : List Ledger)
    (hchain : ledgers.Chain' (UpdatesPayment pid))
    (hstart : ∀ l ∈ ledgers.head?, Reachable l) :
    (ledgers.map (stateOf pid)).Nodup ∧ ledgers.length ≤ 6 + 1 := by
  have hranks := run_ranks pid ledgers hchain hstart
  have hle : ∀ x ∈ ledgers.map (fun l => ((stateOf pid l).map stateRank).getD 0), x ≤ 6 := by
    intro x hx
    rw [List.mem_map] at hx
    obtain ⟨l, -, rfl⟩ := hx
    cases stateOf pid l with
    | none => simp
    | some s => exact stateRank_le s
  obtain ⟨hnodup, hlen⟩ := increasing_length _ hranks hle
  rw [List.length_map] at hlen
  refine ⟨?_, hlen⟩
  have hcomp : (ledgers.map fun l => ((stateOf pid l).map stateRank).getD 0)
      = (ledgers.map (stateOf pid)).map (fun o => (o.map stateRank).getD 0) := by
    rw [List.map_map]
    rfl
  rw [hcomp] at hnodup
  exact hnodup.of_map _

/-! ## The agent registry -/

/-- `/agent/add` by an invoker resolved as MERCHANT, with an argument the shim
takes as a key attribute: the write of the registry entry, whether or not the
entry exists. -/
theorem agentAdd_merchant (stub : Stub) (a key : String) (actors : Actors)
    (hargs : stub.args = [a]) (hact : getActors stub = .ok actors)
    (hrole : actors.invokerRole = RoleMerchant) (hkey : getAgentKey a = .ok key) :
    agentAdd stub = ⟨.success none, [(key, .text a)], []⟩ := by
  unfold agentAdd
  simp only [hargs, hact, hrole, hkey, ne_eq, not_true_eq_false, if_false]

/-- Writing twice under a key leaves the second value. -/
theorem put_put (l : Ledger) (k : String) (v w : Bytes) : (l.put k v).put k w = l.put k w := by
  funext k2
  unfold Ledger.put
  split <;> rfl

/-- For the merchant as invoker, identity resolution reads the merchant key
only: a write under a registry key does not change its result. -/
theorem getActors_put_agent_merchant (stub : Stub) (a key : String) (actors : Actors)
    (v : Bytes) (hact : getActors stub = .ok actors)
    (hrole : actors.invokerRole = RoleMerchant) (hkey : getAgentKey a = .ok key) :
    getActors { stub with state := stub.state.put key v } = .ok actors := by
  have hmer : getMerchant { stub with state := stub.state.put key v } = getMerchant stub := by
    unfold getMerchant
    simp only [Ledger.put, (getAgentKey_ne_merchantKey a key hkey).symm, if_false]
    rfl
  have hm := getActors_merchant stub actors hact
  have hcre : ∃ mspID, stub.creator = .ok mspID := by
    cases hc : stub.creator with
    | error e =>
      unfold getActors at hact
      simp [hm, hc] at hact
    | ok mspID => exact ⟨mspID, rfl⟩
  obtain ⟨mspID, hc⟩ := hcre
  have h1 := getActors_resolved stub actors.merchant mspID hm hc
  have h2 := getActors_resolved { stub with state := stub.state.put key v } actors.merchant
    mspID (by rw [hmer]; exact hm) hc
  by_cases hid : mspID = actors.merchant.OrganizationId
  · rw [h2]
    rw [h1] at hact
    simp only [hid, if_true] at hact ⊢
    exact hact
  · exfalso
    rw [h1] at hact
    simp only [hid, if_false] at hact
    split at hact
    · simp only [Except.ok.injEq] at hact
      rw [← hact] at hrole
      simp [RoleAgent, RoleBank, RoleUnknown, RoleMerchant] at hrole
    · split at hact
      · simp only [Except.ok.injEq] at hact
        rw [← hact] at hrole
        simp [RoleAgent, RoleBank, RoleUnknown, RoleMerchant] at hrole
      · simp only [Except.ok.injEq] at hact
        rw [← hact] at hrole
        simp [RoleAgent, RoleBank, RoleUnknown, RoleMerchant] at hrole

/-- A second `/agent/add` of the same id by the merchant succeeds like the
first and leaves the ledger as the first left it. -/
theorem agentAdd_again (stub : Stub) (a key : String) (actors : Actors)
    (hargs : stub.args = [a]) (hact : getActors stub = .ok actors)
    (hrole : actors.invokerRole = RoleMerchant) (hkey : getAgentKey a = .ok key)
    (l : Ledger) (hl : l = stub.state.put key (.text a)) :
    agentAdd { stub with state := l } = ⟨.success none, [(key, .text a)], []⟩ ∧
    commit l (agentAdd { stub with state := l }) = l := by
  subst hl
  have h := agentAdd_merchant { stub with state := stub.state.put key (.text a) } a key actors
    hargs (getActors_put_agent_merchant stub a key actors _ hact hrole hkey) hrole hkey
  refine ⟨h, ?_⟩
  rw [h, commit_success_one, put_put]

/-- The key `getAgentKey` builds starts with U+0000, the registry's object
type and U+0000. -/
theorem getAgentKey_prefix (a key : String) (h : getAgentKey a = .ok key) :
    ("\x00" ++ agentKey ++ "\x00").data <+: key.data := by
  unfold getAgentKey CreateCompositeKey at h
  simp only at h
  split at h
  · cases h
  · split at h
    · cases h
    · cases h
      refine ⟨(a ++ "\x00").data, ?_⟩
      simp only [List.foldl, String.data_append, List.append_assoc]

/-- The loop of `/agent/list` succeeds exactly with the members the lookups
give, appended in order to what it holds. -/
theorem agentListFrom_ok (stub : Stub) (iter : List (String × Bytes)) (agents ms : List Member)
    (h : agentListFrom stub iter agents = .ok ms) :
    ∃ found, ms = agents ++ found ∧
      List.Forall₂ (fun e m => getMember stub (stub.string e.2) = .ok m) iter found := by
  induction iter generalizing agents with
  | nil =>
    unfold agentListFrom at h
    cases h
    exact ⟨[], by simp, List.Forall₂.nil⟩
  | cons kv rest ih =>
    unfold agentListFrom at h
    cases hm : getMember stub (stub.string kv.2) with
    | ok m =>
      rw [hm] at h
      obtain ⟨found, hms, hall⟩ := ih _ h
      exact ⟨m :: found, by rw [hms]; simp, List.Forall₂.cons hm hall⟩
    | withError m e =>
      rw [hm] at h
      cases h
    | failed e =>
      rw [hm] at h
      cases h

theorem agentListFrom_of_found (stub : Stub) (iter : List (String × Bytes))
    (agents found : List Member)
    (h : List.Forall₂ (fun e m => getMember stub (stub.string e.2) = .ok m) iter found) :
    agentListFrom stub iter agents = .ok (agents ++ found) := by
  induction h generalizing agents with
  | nil =>
    unfold agentListFrom
    simp
  | cons hm _ ih =>
    unfold agentListFrom
    rw [hm]
    simp only
    rw [ih]
    simp

/-- `/agent/list` succeeds exactly when the member lookup succeeds for the
value of every entry. -/
theorem agentList_ok_iff (stub : Stub) (iter : List (String × Bytes)) :
    (∃ ms, agentList stub iter = .ok ms) ↔
      ∀ e ∈ iter, ∃ m, getMember stub (stub.string e.2) = .ok m := by
  unfold agentList
  constructor
  · rintro ⟨ms, h⟩
    obtain ⟨found, -, hall⟩ := agentListFrom_ok stub iter [] ms h
    intro e he
    clear h
    induction hall with
    | nil => cases he
    | cons hm _ ih =>
      rcases List.mem_cons.1 he with rfl | he2
      · exact ⟨_, hm⟩
      · exact ih he2
  · intro hall
    have hex : ∃ found, List.Forall₂ (fun e m => getMember stub (stub.string e.2) = .ok m)
        iter found := by
      induction iter with
      | nil => exact ⟨[], List.Forall₂.nil⟩
      | cons kv rest ih =>
        obtain ⟨m, hm⟩ := hall kv (List.mem_cons_self _ _)
        obtain ⟨found, hf⟩ := ih (fun e he => hall e (List.mem_cons_of_mem _ he))
        exact ⟨m :: found, List.Forall₂.cons hm hf⟩
    obtain ⟨found, hf⟩ := hex
    exact ⟨_, agentListFrom_of_found stub iter [] found hf⟩

/-- When the lookups give each member under the id looked up, the members of
a listing with organization id `a` are as many as the entries holding `a`. -/
theorem found_count (stub : Stub) (a : String) (iter : List (String × Bytes))
    (found : List Member)
    (hid : ∀ x m, getMember stub x = .ok m → m.OrganizationId = x)
    (h : List.Forall₂ (fun e m => getMember stub (stub.string e.2) = .ok m) iter found) :
    found.countP (fun m => m.OrganizationId = a)
      = iter.countP (fun e => stub.string e.2 = a) := by
  induction h with
  | nil => rfl
  | @cons e m rest restFound hm _ ih =>
    have he : m.OrganizationId = stub.string e.2 := hid _ _ hm
    simp only [List.countP_cons, ih, he]

/-- The range query yields each key once. -/
theorem range_count (l : Ledger) (objectType : String) (iter : List (String × Bytes))
    (hrange : IsPartialCompositeKeyRange l objectType iter) (k : String) (v : Bytes)
    (hmem : (k, v) ∈ iter) :
    iter.countP (fun e => e.1 = k) = 1 := by
  have hnodup : (iter.map Prod.fst).Nodup := by
    rw [List.Nodup, List.pairwise_map]
    exact hrange.1.imp (fun hlt heq => ne_of_lt hlt (congrArg String.data heq))
  have hk : k ∈ iter.map Prod.fst := List.mem_map.2 ⟨(k, v), hmem, rfl⟩
  have hc := List.count_eq_one_of_mem hnodup hk
  rw [List.count, List.countP_map] at hc
  rw [← hc]
  apply List.countP_congr
  intro e _
  simp [Function.comp]

/-- The agent registry of `exLedgerOrg8` is what the range query yields on
it. -/
theorem exAgentRangeOrg8_isRange :
    IsPartialCompositeKeyRange exLedgerOrg8 agentKey exAgentRangeOrg8 := by
  constructor
  · decide
  · intro k v
    have hfull : (Bytes.text "Org8MSP").isEmpty = false := rfl
    unfold exAgentRangeOrg8 exLedgerOrg8 exLedger0 Ledger.put
    simp only [List.mem_cons, List.mem_singleton, List.not_mem_nil, Prod.mk.injEq, or_false,
      hfull, Bool.false_eq_true, if_false]
    by_cases h8 : k = "\x00AGENT\x00Org8MSP\x00"
    · subst h8
      simp only [if_true, Option.some.injEq]
      constructor
      · rintro (⟨h, -⟩ | ⟨-, h⟩)
        · exact absurd h (by decide)
        · exact ⟨h.symm, by decide⟩
      · rintro ⟨h, -⟩
        exact Or.inr ⟨trivial, h.symm⟩
    · by_cases hm : k = "MERCHANT"
      · subst hm
        simp only [if_true, if_false, h8]
        constructor
        · rintro (⟨h, -⟩ | ⟨h, -⟩) <;> exact absurd h (by decide)
        · rintro ⟨-, h⟩
          exact absurd h (by decide)
      · by_cases h4 : k = "\x00AGENT\x00Org4MSP\x00"
        · subst h4
          simp only [if_true, if_false, h8, hm, Option.some.injEq]
          constructor
          · rintro (⟨-, h⟩ | ⟨h, -⟩)
            · exact ⟨h.symm, by decide⟩
            · exact absurd h (by decide)
          · rintro ⟨h, -⟩
            exact Or.inl ⟨trivial, h.symm⟩
        · simp [h8, hm, h4]

/-- C23 (counterexample): the merchant adds Org8MSP, which the registry of
organizations holds as not confirmed by its bank; the add succeeds, the ledger
then is `exLedgerOrg8`, and `/agent/list` on it fails on the lookup of
Org8MSP. And the merchant's add of the empty id succeeds and leaves nothing
under the key of that id, the written value being empty. -/
theorem C23_counterexample :
    agentAdd exStubAddOrg8
      = ⟨.success none, [("\x00AGENT\x00Org8MSP\x00", .text "Org8MSP")], []⟩ ∧
    commit exLedger0 (agentAdd exStubAddOrg8) = exLedgerOrg8 ∧
    IsPartialCompositeKeyRange exLedgerOrg8 agentKey exAgentRangeOrg8 ∧
    agentList exStubOrg8 exAgentRangeOrg8
      = .error "member is not confirmed by bank: Org8MSP" ∧
    agentAdd exStubAddEmpty = ⟨.success none, [("\x00AGENT\x00\x00", .text "")], []⟩ ∧
    commit exLedger0 (agentAdd exStubAddEmpty) "\x00AGENT\x00\x00" = none :=
  ⟨by decide, rfl, exAgentRangeOrg8_isRange, rfl, by decide, by decide⟩

/-- The registry key determines the id it was built from. -/
theorem getAgentKey_injective (a b key : String) (ha : getAgentKey a = .ok key)
    (hb : getAgentKey b = .ok key) : a = b := by
  unfold getAgentKey CreateCompositeKey at ha hb
  simp only at ha hb
  split at ha
  · cases ha
  · split at ha
    · cases ha
    · split at hb
      · cases hb
      · split at hb
        · cases hb
        · simp only [Except.ok.injEq] at ha hb
          have hd := congrArg String.data (ha.trans hb.symm)
          simp only [List.foldl, String.data_append, List.append_assoc] at hd
          exact String.ext (List.append_cancel_right
            (List.append_cancel_left (List.append_cancel_left (List.append_cancel_left hd))))

/-! ## The registry holds each id under its own key -/

theorem paymentKey_not_registry (id : String) :
    ¬ ("\x00" ++ agentKey ++ "\x00").data <+: (getPaymentKey id).data := by
  rw [getPaymentKey_data]
  rintro ⟨t, ht⟩
  have hd := (List.cons.inj ht).1
  exact absurd hd (by decide)

theorem merchantKey_not_registry :
    ¬ ("\x00" ++ agentKey ++ "\x00").data <+: merchantKey.data := by
  rintro ⟨t, ht⟩
  have hd := (List.cons.inj ht).1
  exact absurd hd (by decide)

/-- A write under a key outside the registry keeps the registry as it is. -/
theorem put_registryKeyed_other (l : Ledger) (h : RegistryKeyed l) (k0 : String) (v0 : Bytes)
    (hk0 : ¬ ("\x00" ++ agentKey ++ "\x00").data <+: k0.data) :
    RegistryKeyed (l.put k0 v0) := by
  intro k v hk hpre
  have hne : k ≠ k0 := fun e => hk0 (e ▸ hpre)
  rw [put_other _ _ _ _ hne] at hk
  exact h k v hk hpre

/-- The write `/agent/add` makes keeps every registry value the id of its
key. -/
theorem put_registryKeyed_agent (l : Ledger) (h : RegistryKeyed l) (a key : String)
    (hkey : getAgentKey a = .ok key) : RegistryKeyed (l.put key (.text a)) := by
  intro k v hk hpre
  by_cases hkk : k = key
  · subst hkk
    unfold Ledger.put at hk
    simp only [if_true] at hk
    split at hk
    · cases hk
    · cases hk
      exact ⟨a, rfl, hkey⟩
  · rw [put_other _ _ _ _ hkk] at hk
    exact h k v hk hpre

/-- On every ledger the operations produce from one without registry entries,
each registry value is the id its key was built from. -/
theorem operated_registryKeyed (l : Ledger) (h : Operated l) : RegistryKeyed l := by
  induction h with
  | start l h0 => intro k v hk hpre; exact absurd hpre (h0 k v hk)
  | initMerchant stub _ ih =>
    unfold initMerchant
    split
    · split
      · exact ih
      · rw [commit_success_one]
        exact put_registryKeyed_other _ ih _ _ merchantKey_not_registry
    · exact ih
  | agentAdd stub _ ih =>
    unfold agentAdd
    split
    · split
      · exact ih
      · split
        · exact ih
        · split
          · exact ih
          · next key hkey =>
            rw [commit_success_one]
            exact put_registryKeyed_agent _ ih _ key hkey
    · exact ih
  | create stub _ ih =>
    rcases create_cases stub with h | ⟨msg, h⟩ | ⟨payment, event, -, h⟩
    · rw [h, commit_crashed]; exact ih
    · rw [h, commit_WriteError]; exact ih
    · rw [h, commit_success_one]
      exact put_registryKeyed_other _ ih _ _ (paymentKey_not_registry payment.Id)
  | updateState stub _ ih =>
    rcases updateState_cases stub with ⟨-, h⟩ | ⟨msg, h⟩ |
      ⟨arg, rest, payload, actors, payment, event, -, -, -, -, -, h⟩
    · rw [h, commit_crashed]; exact ih
    · rw [h, commit_WriteError]; exact ih
    · rw [h, commit_success_one]
      exact put_registryKeyed_other _ ih _ _ (paymentKey_not_registry payment.Id)

/-- C23 (amended): on a ledger reached from one without registry entries by
`/init`, `/agent/add`, `/create` and `/updateState` invocations, after a
successful `/agent/add` of a non-empty id `a` (so one by the merchant):
however often the add is repeated, each add succeeds and the ledger is as
after the first. On that ledger the range query over the registry yields the
entry of `a` exactly once; `/agent/list` succeeds exactly when the member
lookup succeeds for every entry of the registry, it then lists one member per
entry, and, where the lookups give each member under the id looked up,
exactly one listed member has organization id `a`. -/
theorem C23_repeated_add_single_entry (stub : Stub) (a : String)
    (hargs : stub.args = [a]) (ha : a ≠ "")
    (hok : (agentAdd stub).response = .success none)
    (hop : Operated stub.state) :
    ∃ (actors : Actors) (key : String),
      getActors stub = .ok actors ∧ actors.invokerRole = RoleMerchant ∧
      getAgentKey a = .ok key ∧
      (∀ n : Nat,
        agentAdd { stub with
            state := (fun l => commit l (agentAdd { stub with state := l }))^[n] stub.state }
          = ⟨.success none, [(key, .text a)], []⟩ ∧
        (fun l => commit l (agentAdd { stub with state := l }))^[n + 1] stub.state
          = commit stub.state (agentAdd stub)) ∧
      ∀ (reader : Stub) (iter : List (String × Bytes)),
        reader.state = commit stub.state (agentAdd stub) →
        IsPartialCompositeKeyRange reader.state agentKey iter →
        (key, .text a) ∈ iter ∧ iter.countP (fun e => e.1 = key) = 1 ∧
        ((∃ ms, agentList reader iter = .ok ms) ↔
          ∀ e ∈ iter, ∃ m, getMember reader (reader.string e.2) = .ok m) ∧
        ∀ ms, agentList reader iter = .ok ms →
          ms.length = iter.length ∧
          ((∀ x m, getMember reader x = .ok m → m.OrganizationId = x) →
            ms.countP (fun m => m.OrganizationId = a) = 1) := by
  obtain ⟨actors, key, hact, hrole, hkey⟩ := agentAdd_success stub a hargs hok
  have hadd := agentAdd_merchant stub a key actors hargs hact hrole hkey
  have hfirst : commit stub.state (agentAdd stub) = stub.state.put key (.text a) := by
    rw [hadd, commit_success_one]
  have hfix := agentAdd_again stub a key actors hargs hact hrole hkey _ rfl
  have hgen : ∀ (f : Ledger → Ledger) (x y : Ledger), f x = y → f y = y →
      ∀ n : Nat, f^[n + 1] x = y := by
    intro f x y h1 h2 n
    rw [Function.iterate_succ_apply, h1]
    exact Function.iterate_fixed h2 n
  have hiter : ∀ n : Nat,
      (fun l => commit l (agentAdd { stub with state := l }))^[n + 1] stub.state
        = stub.state.put key (.text a) :=
    hgen _ _ _ hfirst hfix.2
  refine ⟨actors, key, hact, hrole, hkey, ?_, ?_⟩
  · intro n
    refine ⟨?_, (hiter n).trans hfirst.symm⟩
    cases n with
    | zero => exact hadd
    | succ m =>
      rw [hiter m]
      exact hfix.1
  · intro reader iter hstate hrange
    have hmem : (key, Bytes.text a) ∈ iter := by
      refine (hrange.2 key (.text a)).2 ⟨?_, getAgentKey_prefix a key hkey⟩
      rw [hstate, hfirst]
      exact put_same _ _ _ ((isEmpty_text a).2 ha)
    have hone := range_count reader.state agentKey iter hrange key (.text a) hmem
    have hreg : RegistryKeyed reader.state := by
      rw [hstate]
      exact operated_registryKeyed _ (Operated.agentAdd stub hop)
    have hheld : ∀ e ∈ iter, getAgentKey (reader.string e.2) = .ok e.1 := by
      intro e he
      obtain ⟨hl, hpre⟩ := (hrange.2 e.1 e.2).1 he
      obtain ⟨b, hb, hbk⟩ := hreg e.1 e.2 hl hpre
      rw [hb]
      exact hbk
    refine ⟨hmem, hone, agentList_ok_iff reader iter, ?_⟩
    intro ms hms
    obtain ⟨found, hfound, hall⟩ := agentListFrom_ok reader iter [] ms hms
    rw [List.nil_append] at hfound
    subst hfound
    refine ⟨hall.length_eq.symm, ?_⟩
    intro hid
    rw [found_count reader a iter ms hid hall, ← hone]
    apply List.countP_congr
    intro e he
    simp only [decide_eq_true_eq]
    constructor
    · intro hea
      have := hheld e he
      rw [hea, hkey] at this
      exact (Except.ok.inj this).symm
    · intro hek
      have := hheld e he
      rw [hek] at this
      exact getAgentKey_injective _ _ _ this hkey

/-- C23 (witness): the merchant Org3MSP adds Org4MSP on a ledger that holds
the merchant binding only; the ledger after it is `exLedger0`. -/
theorem C23_repeated_add_single_entry_witness :
    (agentAdd { exStub "Org3MSP" exLedgerMerchant ⟨"p1", CheckFundsInProgress⟩ with
      args := ["Org4MSP"] }).response = .success none ∧
    Operated exLedgerMerchant ∧
    ∃ (actors : Actors) (key : String),
      getActors { exStub "Org3MSP" exLedgerMerchant ⟨"p1", CheckFundsInProgress⟩ with
        args := ["Org4MSP"] } = .ok actors ∧
      actors.invokerRole = RoleMerchant ∧ getAgentKey "Org4MSP" = .ok key :=
  have hop : Operated exLedgerMerchant := Operated.start _ (by
    intro k v hk
    unfold exLedgerMerchant at hk
    split at hk
    · next hm => rw [hm]; exact merchantKey_not_registry
    · cases hk)
  ⟨by decide, hop,
    match C23_repeated_add_single_entry
      { exStub "Org3MSP" exLedgerMerchant ⟨"p1", CheckFundsInProgress⟩ with
        args := ["Org4MSP"] }
      "Org4MSP" rfl (by decide) (by decide) hop with
    | ⟨actors, key, hact, hrole, hkey, _⟩ => ⟨actors, key, hact, hrole, hkey⟩⟩

/-- C29 (witness): payment p1, created on `exLedger0`, moved on by its payer's
bank. -/
theorem C29_runs_are_acyclic_witness :
    UpdatesPayment "p1" exLedger1 exLedger2 ∧ Reachable exLedger1 ∧
    ([exLedger1, exLedger2].map (stateOf "p1")).Nodup ∧
    [exLedger1, exLedger2].length ≤ 6 + 1 :=
  have hstep : UpdatesPayment "p1" exLedger1 exLedger2 :=
    ⟨exStub "Org2MSP" exLedger1 ⟨"p1", CheckFundsInProgress⟩, "payload", [],
      CheckFundsInProgress, rfl, rfl, rfl, rfl, rfl⟩
  ⟨hstep, exLedger1_reachable,
    C29_runs_are_acyclic "p1" [exLedger1, exLedger2] (List.chain'_pair.2 hstep) (by
      intro l hl
      simp only [List.head?_cons, Option.mem_def, Option.some.injEq] at hl
      rw [← hl]
      exact exLedger1_reachable)⟩

/-! ## The end-to-end scenario -/

/-- Identity resolution reads neither the arguments nor the payment records. -/
theorem getActors_invoke (e : Stub) (X arg arg2 : String) (l : Ledger) (id : String)
    (v : Bytes) :
    getActors (invoke e X arg (l.put (getPaymentKey id) v)) = getActors (invoke e X arg2 l) :=
  (getActors_put_payment (invoke e X arg l) id v).trans rfl

/-- One accepted `/updateState` on a world: the response, the ledger and the
history after it. -/
theorem updateState_step (e : Stub) (w : World) (X arg tx : String)
    (ts : Int) (pid : String) (s : PaymentState) (p : Payment) (actors : Actors) (ag : Member)
    (hdec : e.unmarshalRequestUpdateState arg = .ok ⟨pid, s⟩)
    (hs : s ≠ PaymentStateEmpty) (hpid : pid ≠ "")
    (hact : getActors (invoke e X arg w.state) = .ok actors)
    (hp : w.state (getPaymentKey pid) = some (.json p)) (hidp : p.Id = pid)
    (hcan : canChangePaymentState p s actors.invoker actors.invokerRole = .ok)
    (hitn : getMemberByItn e p.PayerNumber = .ok ag) :
    (updateState (invoke e X arg w.state)).response = .success none ∧
    (w.step e updateState X arg tx ts).state
      = w.state.put (getPaymentKey pid) (.json { p with State := s }) ∧
    (w.step e updateState X arg tx ts).log
      = w.log ++ [(getPaymentKey pid, ⟨tx, .json { p with State := s }, ts, false⟩)] := by
  have hget : getPayment (invoke e X arg w.state) pid = .ok p := by
    unfold getPayment
    simp only [invoke, hp]
  have hitn2 : getMemberByItn (invoke e X arg w.state) p.PayerNumber = .ok ag := hitn
  have hdec2 : (invoke e X arg w.state).unmarshalRequestUpdateState arg = .ok ⟨pid, s⟩ := hdec
  have hargs : (invoke e X arg w.state).args = [arg] := rfl
  have hu : updateState (invoke e X arg w.state)
      = ⟨.success none, [(getPaymentKey pid, .json { p with State := s })],
          [(TicketPaymentStateChanged,
            { PaymentKey := getPaymentKey p.Id, PaymentId := p.Id,
              PreviousState := p.State, CurrentState := s,
              To := actors.merchant, From := ag, Amount := p.Amount,
              Currency := p.Currency })]⟩ := by
    unfold updateState
    simp only [hargs, hdec2, hs, hpid, hact, hget, hcan, hitn2, if_false, hidp]
  refine ⟨by rw [hu], ?_, ?_⟩
  · unfold World.step
    simp only [hu, commit_success_one]
  · unfold World.step
    simp only [hu, recordWrites, List.map_cons, List.map_nil, Bytes.isEmpty]

/-- An accepted `/create` on a world: the response, the ledger and the history
after it, and what the stored record holds of the payer. -/
theorem create_step (e : Stub) (w : World) (A pa tx : String) (ts : Int)
    (P : PaymentCreatePayload) (m a : Member)
    (hP : e.unmarshalPaymentCreatePayload pa = .ok P)
    (hA : getActors (invoke e A pa w.state) = .ok ⟨m, some a, RoleAgent⟩)
    (hbank : (getMember e a.BankOrganizationId).err? = none)
    (hvalid : validatePaymentPayload (invoke e A pa w.state) P a = none) :
    ∃ p0 : Payment,
      ((create (invoke e A pa w.state)).response = .success none ∧
        (w.step e create A pa tx ts).state = w.state.put (getPaymentKey P.Id) (.json p0) ∧
        (w.step e create A pa tx ts).log
          = w.log ++ [(getPaymentKey P.Id, ⟨tx, .json p0, ts, false⟩)]) ∧
      p0.Id = P.Id ∧ p0.State = CheckFundsRequest ∧
      p0.PayerOrgId = a.OrganizationId ∧ p0.PayerBankOrgId = a.BankOrganizationId ∧
      p0.PayerNumber = P.PayerNumber := by
  have hbank2 : (getMember (invoke e A pa w.state) a.BankOrganizationId).err? = none := hbank
  have hc := create_of_agent (invoke e A pa w.state) pa [] P ⟨m, some a, RoleAgent⟩ a
    rfl hP hA rfl rfl
  simp only [hbank2, hvalid] at hc
  have hex : ∃ (p0 : Payment) (evs : List (String × TicketsPaymentStateChangedEvent)),
      create (invoke e A pa w.state) = ⟨.success none, [(getPaymentKey P.Id, .json p0)], evs⟩ ∧
      p0.Id = P.Id ∧ p0.State = CheckFundsRequest ∧
      p0.PayerOrgId = a.OrganizationId ∧ p0.PayerBankOrgId = a.BankOrganizationId ∧
      p0.PayerNumber = P.PayerNumber := ⟨_, _, hc, rfl, rfl, rfl, rfl, rfl⟩
  obtain ⟨p0, evs, hcr, hfacts⟩ := hex
  refine ⟨p0, ⟨by rw [hcr], ?_, ?_⟩, hfacts⟩
  · unfold World.step
    simp only [hcr, commit_success_one]
  · unfold World.step
    simp only [hcr, recordWrites, List.map_cons, List.map_nil, Bytes.isEmpty]

/-- A payload that passes validation names a payer number the registry
resolves. -/
theorem validatePaymentPayload_itn (stub : Stub) (P : PaymentCreatePayload) (a : Member)
    (h : validatePaymentPayload stub P a = none) :
    ∃ ag, getMemberByItn stub P.PayerNumber = .ok ag := by
  unfold validatePaymentPayload at h
  split at h
  · cases h
  · cases hitn : getMemberByItn stub P.PayerNumber with
    | error err => simp [hitn] at h
    | ok ag => exact ⟨ag, rfl⟩

/-- The scenario, step by step: the six invocations succeed, the payment ends
in DebitSuccess, and the history of its key holds the six writes in order
after what it held. -/
theorem scenario_run (e : Stub) (w : World) (A B pa u1 u2 u3 u4 u5 : String)
    (tx : Nat → String) (time : Nat → Int)
    (P : PaymentCreatePayload) (m a b : Member)
    (hP : e.unmarshalPaymentCreatePayload pa = .ok P)
    (hid : P.Id ≠ "")
    (hu1 : e.unmarshalRequestUpdateState u1 = .ok ⟨P.Id, CheckFundsInProgress⟩)
    (hu2 : e.unmarshalRequestUpdateState u2 = .ok ⟨P.Id, CheckFundsSuccess⟩)
    (hu3 : e.unmarshalRequestUpdateState u3 = .ok ⟨P.Id, DebitRequest⟩)
    (hu4 : e.unmarshalRequestUpdateState u4 = .ok ⟨P.Id, DebitInProgress⟩)
    (hu5 : e.unmarshalRequestUpdateState u5 = .ok ⟨P.Id, DebitSuccess⟩)
    (hA : getActors (invoke e A pa w.state) = .ok ⟨m, some a, RoleAgent⟩)
    (hB : getActors (invoke e B u1 w.state) = .ok ⟨m, some b, RoleBank⟩)
    (hAB : b.OrganizationId = a.BankOrganizationId)
    (hbank : (getMember e a.BankOrganizationId).err? = none)
    (hvalid : validatePaymentPayload (invoke e A pa w.state) P a = none) :
    w.responses e (paymentScenario A B pa u1 u2 u3 u4 u5 tx time)
      = List.replicate 6 (.success none) ∧
    stateOf P.Id (w.run e (paymentScenario A B pa u1 u2 u3 u4 u5 tx time)).state
      = some DebitSuccess ∧
    ∃ p0 : Payment, p0.State = CheckFundsRequest ∧
      (w.run e (paymentScenario A B pa u1 u2 u3 u4 u5 tx time)).log = w.log ++
        [ (getPaymentKey P.Id, ⟨tx 0, .json p0, time 0, false⟩),
          (getPaymentKey P.Id,
            ⟨tx 1, .json { p0 with State := CheckFundsInProgress }, time 1, false⟩),
          (getPaymentKey P.Id,
            ⟨tx 2, .json { p0 with State := CheckFundsSuccess }, time 2, false⟩),
          (getPaymentKey P.Id,
            ⟨tx 3, .json { p0 with State := DebitRequest }, time 3, false⟩),
          (getPaymentKey P.Id,
            ⟨tx 4, .json { p0 with State := DebitInProgress }, time 4, false⟩),
          (getPaymentKey P.Id,
            ⟨tx 5, .json { p0 with State := DebitSuccess }, time 5, false⟩) ] := by
  obtain ⟨ag, hitn⟩ := validatePaymentPayload_itn _ P a hvalid
  have hitn0 : getMemberByItn e P.PayerNumber = .ok ag := hitn
  obtain ⟨p0, ⟨hr0, hs0, hl0⟩, hp0id, hp0st, hp0org, hp0bank, hp0num⟩ :=
    create_step e w A pa (tx 0) (time 0) P m a hP hA hbank hvalid
  have hitnp : getMemberByItn e p0.PayerNumber = .ok ag := by rw [hp0num]; exact hitn0
  have hbankEdge : ∀ (p : Payment) (s t : PaymentState), p.State = s →
      p.PayerBankOrgId = p0.PayerBankOrgId → (s, t, RoleBank) ∈ acceptedTriples →
      canChangePaymentState p t (some b) RoleBank = .ok := by
    intro p s t hst hpb hmem
    refine (canChange_ok_iff p t (some b) RoleBank).2 ⟨by rw [hst]; exact hmem, b, rfl, ?_⟩
    exact Or.inr ⟨rfl, by rw [hpb, hp0bank, hAB]⟩
  have hagentEdge : ∀ (p : Payment) (s t : PaymentState), p.State = s →
      p.PayerOrgId = p0.PayerOrgId → (s, t, RoleAgent) ∈ acceptedTriples →
      canChangePaymentState p t (some a) RoleAgent = .ok := by
    intro p s t hst hpo hmem
    refine (canChange_ok_iff p t (some a) RoleAgent).2 ⟨by rw [hst]; exact hmem, a, rfl, ?_⟩
    exact Or.inl ⟨rfl, by rw [hpo, hp0org]⟩
  have hkeep : ∀ (v v2 : World) (X : String) (actors : Actors) (q : Payment),
      v2.state = v.state.put (getPaymentKey P.Id) (.json q) →
      (∀ arg, getActors (invoke e X arg v.state) = .ok actors) →
      ∀ arg, getActors (invoke e X arg v2.state) = .ok actors := by
    intro v v2 X actors q hst hall arg
    rw [hst]
    exact (getActors_invoke e X arg arg v.state P.Id (.json q)).trans (hall arg)
  have hA0 : ∀ arg, getActors (invoke e A arg w.state) = .ok ⟨m, some a, RoleAgent⟩ :=
    fun _ => hA
  have hB0 : ∀ arg, getActors (invoke e B arg w.state) = .ok ⟨m, some b, RoleBank⟩ :=
    fun _ => hB
  simp only [paymentScenario, World.run, World.responses]
  generalize w.step e create A pa (tx 0) (time 0) = w1 at hs0 hl0 ⊢
  have hA1 := hkeep w w1 A _ _ hs0 hA0
  have hB1 := hkeep w w1 B _ _ hs0 hB0
  obtain ⟨hr1, hs1, hl1⟩ := updateState_step e w1 B u1 (tx 1) (time 1) P.Id
    CheckFundsInProgress p0 ⟨m, some b, RoleBank⟩ ag hu1 (by decide) hid (hB1 u1)
    (by rw [hs0]; exact put_same _ _ _ rfl) hp0id
    (hbankEdge p0 CheckFundsRequest _ hp0st rfl (by decide)) hitnp
  generalize w1.step e updateState B u1 (tx 1) (time 1) = w2 at hs1 hl1 ⊢
  have hA2 := hkeep w1 w2 A _ _ hs1 hA1
  have hB2 := hkeep w1 w2 B _ _ hs1 hB1
  obtain ⟨hr2, hs2, hl2⟩ := updateState_step e w2 B u2 (tx 2) (time 2) P.Id
    CheckFundsSuccess { p0 with State := CheckFundsInProgress } ⟨m, some b, RoleBank⟩ ag hu2
    (by decide) hid (hB2 u2) (by rw [hs1]; exact put_same _ _ _ rfl) hp0id
    (hbankEdge _ CheckFundsInProgress _ rfl rfl (by decide)) hitnp
  generalize w2.step e updateState B u2 (tx 2) (time 2) = w3 at hs2 hl2 ⊢
  have hA3 := hkeep w2 w3 A _ _ hs2 hA2
  have hB3 := hkeep w2 w3 B _ _ hs2 hB2
  obtain ⟨hr3, hs3, hl3⟩ := updateState_step e w3 A u3 (tx 3) (time 3) P.Id
    DebitRequest { p0 with State := CheckFundsSuccess } ⟨m, some a, RoleAgent⟩ ag hu3
    (by decide) hid (hA3 u3) (by rw [hs2]; exact put_same _ _ _ rfl) hp0id
    (hagentEdge _ CheckFundsSuccess _ rfl rfl (by decide)) hitnp
  generalize w3.step e updateState A u3 (tx 3) (time 3) = w4 at hs3 hl3 ⊢
  have hB4 := hkeep w3 w4 B _ _ hs3 hB3
  obtain ⟨hr4, hs4, hl4⟩ := updateState_step e w4 B u4 (tx 4) (time 4) P.Id
    DebitInProgress { p0 with State := DebitRequest } ⟨m, some b, RoleBank⟩ ag hu4
    (by decide) hid (hB4 u4) (by rw [hs3]; exact put_same _ _ _ rfl) hp0id
    (hbankEdge _ DebitRequest _ rfl rfl (by decide)) hitnp
  generalize w4.step e updateState B u4 (tx 4) (time 4) = w5 at hs4 hl4 ⊢
  have hB5 := hkeep w4 w5 B _ _ hs4 hB4
  obtain ⟨hr5, hs5, hl5⟩ := updateState_step e w5 B u5 (tx 5) (time 5) P.Id
    DebitSuccess { p0 with State := DebitInProgress } ⟨m, some b, RoleBank⟩ ag hu5
    (by decide) hid (hB5 u5) (by rw [hs4]; exact put_same _ _ _ rfl) hp0id
    (hbankEdge _ DebitInProgress _ rfl rfl (by decide)) hitnp
  generalize w5.step e updateState B u5 (tx 5) (time 5) = w6 at hs5 hl5 ⊢
  refine ⟨?_, ?_, p0, hp0st, ?_⟩
  · rw [hr0, hr1, hr2, hr3, hr4, hr5]
    rfl
  · rw [hs5]
    exact stateOf_put P.Id _ _
  · rw [hl5, hl4, hl3, hl2, hl1, hl0]
    simp only [List.append_assoc, List.cons_append, List.nil_append]

/-- What `/history` returns for a payment whose key the history held nothing
of before the given entries: the entries, in their order. -/
theorem history_of_entries (stub : Stub) (E pid : String) (rest : List String) (w : World)
    (base entries : HistoryLog) (hargs : stub.args = pid :: rest)
    (hlog : w.log = base ++ entries)
    (hbase : (base.filter fun x => x.1 = getPaymentKey pid) = [])
    (hall : ∀ x ∈ entries, x.1 = getPaymentKey pid) :
    history stub E w.historyForKey
      = .ok (entries.map fun x => ⟨x.2.TxId, x.2.Value, x.2.Timestamp, x.2.IsDelete⟩) := by
  have hfilter : (entries.filter fun x => x.1 = getPaymentKey pid) = entries := by
    rw [List.filter_eq_self]
    intro x hx
    simp only [decide_eq_true_eq]
    exact hall x hx
  unfold history World.historyForKey
  simp only [hargs, hlog, List.filter_append, hbase, hfilter, List.nil_append, List.map_map]
  rfl

/-- The scenario with the history query after it: the six invocations succeed,
the payment ends in DebitSuccess, and `/history` returns the six versions
written, from the created one to DebitSuccess. -/
theorem scenario_history (e : Stub) (w : World) (A B pa u1 u2 u3 u4 u5 : String)
    (tx : Nat → String) (time : Nat → Int) (E : String)
    (P : PaymentCreatePayload) (m a b : Member)
    (hP : e.unmarshalPaymentCreatePayload pa = .ok P)
    (hid : P.Id ≠ "")
    (hu1 : e.unmarshalRequestUpdateState u1 = .ok ⟨P.Id, CheckFundsInProgress⟩)
    (hu2 : e.unmarshalRequestUpdateState u2 = .ok ⟨P.Id, CheckFundsSuccess⟩)
    (hu3 : e.unmarshalRequestUpdateState u3 = .ok ⟨P.Id, DebitRequest⟩)
    (hu4 : e.unmarshalRequestUpdateState u4 = .ok ⟨P.Id, DebitInProgress⟩)
    (hu5 : e.unmarshalRequestUpdateState u5 = .ok ⟨P.Id, DebitSuccess⟩)
    (hA : getActors (invoke e A pa w.state) = .ok ⟨m, some a, RoleAgent⟩)
    (hB : getActors (invoke e B u1 w.state) = .ok ⟨m, some b, RoleBank⟩)
    (hAB : b.OrganizationId = a.BankOrganizationId)
    (hbank : (getMember e a.BankOrganizationId).err? = none)
    (hvalid : validatePaymentPayload (invoke e A pa w.state) P a = none)
    (hfresh : w.historyForKey (getPaymentKey P.Id) = []) :
    w.responses e (paymentScenario A B pa u1 u2 u3 u4 u5 tx time)
      = List.replicate 6 (.success none) ∧
    stateOf P.Id (w.run e (paymentScenario A B pa u1 u2 u3 u4 u5 tx time)).state
      = some DebitSuccess ∧
    ∃ mods : List KeyModification,
      history (invoke e A P.Id (w.run e (paymentScenario A B pa u1 u2 u3 u4 u5 tx time)).state)
        E (w.run e (paymentScenario A B pa u1 u2 u3 u4 u5 tx time)).historyForKey = .ok mods ∧
      mods.length = 6 ∧
      mods.map KeyModification.state
        = [some CheckFundsRequest, some CheckFundsInProgress, some CheckFundsSuccess,
            some DebitRequest, some DebitInProgress, some DebitSuccess] ∧
      mods.map (fun k => (k.TxID, k.Time)) = (List.range 6).map fun n => (tx n, time n) := by
  obtain ⟨hresp, hstate, p0, hp0, hlog⟩ := scenario_run e w A B pa u1 u2 u3 u4 u5 tx time P m a b
    hP hid hu1 hu2 hu3 hu4 hu5 hA hB hAB hbank hvalid
  have hbase : (w.log.filter fun x => x.1 = getPaymentKey P.Id) = [] := by
    unfold World.historyForKey at hfresh
    exact List.map_eq_nil_iff.1 hfresh
  have hh := history_of_entries
    (invoke e A P.Id (w.run e (paymentScenario A B pa u1 u2 u3 u4 u5 tx time)).state) E P.Id []
    (w.run e (paymentScenario A B pa u1 u2 u3 u4 u5 tx time)) w.log _ rfl hlog hbase (by
      intro x hx
      simp only [List.mem_cons, List.mem_singleton, List.not_mem_nil, or_false] at hx
      rcases hx with h | h | h | h | h | h <;> rw [h])
  refine ⟨hresp, hstate, _, hh, rfl, ?_, rfl⟩
  simp only [List.map_cons, List.map_nil, KeyModification.state, hp0]

/-- C26 (counterexample): the scenario for the agent Org4MSP, its bank Org2MSP
and payment p1 on `exLedger0` with an empty history: every invocation
succeeds, and `/history` returns 6 versions, not 5. -/
theorem C26_counterexample :
    exWorld0.responses exScenarioStub exScenario = List.replicate 6 (.success none) ∧
    ∃ mods : List KeyModification,
      history (invoke exScenarioStub "Org4MSP" "p1" (exWorld0.run exScenarioStub exScenario).state)
        "key not presented" (exWorld0.run exScenarioStub exScenario).historyForKey = .ok mods ∧
      mods.length = 6 ∧ mods.length ≠ 5 := by
  obtain ⟨hresp, -, mods, hmods, hlen, -⟩ := scenario_history exScenarioStub exWorld0
    "Org4MSP" "Org2MSP" "payload" "u1" "u2" "u3" "u4" "u5" (fun _ => "tx") (fun n => n)
    "key not presented" exCreatePayload exMerchant exAgent exBank
    rfl (by decide) rfl rfl rfl rfl rfl rfl rfl rfl rfl rfl rfl
  exact ⟨hresp, mods, hmods, hlen, by rw [hlen]; decide⟩

/-- C26 (amended): from a ledger on which `A` resolves as agent and `B` as the
bank of `A`, with a payload `P` of non-empty identifier that passes validation
and a history that holds nothing under the key of `P`: the create by `A`, the moves by `B` to
CheckFundsInProgress and CheckFundsSuccess, the move by `A` to DebitRequest
and the moves by `B` to DebitInProgress and DebitSuccess all succeed, the
payment ends in DebitSuccess, and `/history` returns exactly 6 versions, the
created one and one per move, in the order the history iterator yields them,
each under its transaction's id and timestamp. -/
theorem C26_scenario_six_versions (e : Stub) (w : World) (A B pa u1 u2 u3 u4 u5 : String)
    (tx : Nat → String) (time : Nat → Int) (E : String)
    (P : PaymentCreatePayload) (m a b : Member)
    (hP : e.unmarshalPaymentCreatePayload pa = .ok P)
    (hid : P.Id ≠ "")
    (hu1 : e.unmarshalRequestUpdateState u1 = .ok ⟨P.Id, CheckFundsInProgress⟩)
    (hu2 : e.unmarshalRequestUpdateState u2 = .ok ⟨P.Id, CheckFundsSuccess⟩)
    (hu3 : e.unmarshalRequestUpdateState u3 = .ok ⟨P.Id, DebitRequest⟩)
    (hu4 : e.unmarshalRequestUpdateState u4 = .ok ⟨P.Id, DebitInProgress⟩)
    (hu5 : e.unmarshalRequestUpdateState u5 = .ok ⟨P.Id, DebitSuccess⟩)
    (hA : getActors (invoke e A pa w.state) = .ok ⟨m, some a, RoleAgent⟩)
    (hB : getActors (invoke e B u1 w.state) = .ok ⟨m, some b, RoleBank⟩)
    (hAB : b.OrganizationId = a.BankOrganizationId)
    (hbank : (getMember e a.BankOrganizationId).err? = none)
    (hvalid : validatePaymentPayload (invoke e A pa w.state) P a = none)
    (hfresh : w.historyForKey (getPaymentKey P.Id) = []) :
    w.responses e (paymentScenario A B pa u1 u2 u3 u4 u5 tx time)
      = List.replicate 6 (.success none) ∧
    stateOf P.Id (w.run e (paymentScenario A B pa u1 u2 u3 u4 u5 tx time)).state
      = some DebitSuccess ∧
    ∃ mods : List KeyModification,
      history (invoke e A P.Id (w.run e (paymentScenario A B pa u1 u2 u3 u4 u5 tx time)).state)
        E (w.run e (paymentScenario A B pa u1 u2 u3 u4 u5 tx time)).historyForKey = .ok mods ∧
      mods.length = 6 ∧
      mods.map KeyModification.state
        = [some CheckFundsRequest, some CheckFundsInProgress, some CheckFundsSuccess,
            some DebitRequest, some DebitInProgress, some DebitSuccess] ∧
      mods.map (fun k => (k.TxID, k.Time)) = (List.range 6).map fun n => (tx n, time n) :=
  scenario_history e w A B pa u1 u2 u3 u4 u5 tx time E P m a b
    hP hid hu1 hu2 hu3 hu4 hu5 hA hB hAB hbank hvalid hfresh

/-- C26 (witness): the scenario on the example registry. -/
theorem C26_scenario_six_versions_witness :
    stateOf "p1" (exWorld0.run exScenarioStub exScenario).state = some DebitSuccess :=
  (C26_scenario_six_versions exScenarioStub exWorld0
    "Org4MSP" "Org2MSP" "payload" "u1" "u2" "u3" "u4" "u5" (fun _ => "tx") (fun n => n)
    "key not presented" exCreatePayload exMerchant exAgent exBank
    rfl (by decide) rfl rfl rfl rfl rfl rfl rfl rfl rfl rfl rfl).2.1

/-! ## The recipient of a created payment -/

/-- A payload that passes validation names a recipient number the registry
resolves to a member with the payload's recipient account. -/
theorem validatePaymentPayload_recipient (stub : Stub) (P : PaymentCreatePayload) (a : Member)
    (h : validatePaymentPayload stub P a = none) :
    ∃ merchantByItn, getMemberByItn stub P.RecipientNumber = .ok merchantByItn ∧
      merchantByItn.SettlementAccount = P.RecipientAccount := by
  unfold validatePaymentPayload at h
  split at h
  · cases h
  · split at h
    · cases h
    · split at h
      · cases h
      · next merchantByItn hm =>
        refine ⟨merchantByItn, hm, ?_⟩
        split at h
        · cases h
        · split at h
          · cases h
          · split at h
            · cases h
            · next hacc => exact not_not.1 hacc

/-- What a successful `/create` has checked of the recipient and what it
stores of it: the recipient number resolves to a member whose settlement
account is the payload's recipient account, and the record holds the
merchant's organization id next to the payload's recipient number and
account. -/
theorem create_recipient (stub : Stub) (arg : String) (rest : List String)
    (payload : PaymentCreatePayload)
    (hargs : stub.args = arg :: rest)
    (hdec : stub.unmarshalPaymentCreatePayload arg = .ok payload)
    (hok : (create stub).response = .success none) :
    ∃ (actors : Actors) (merchantByItn : Member) (p : Payment),
      getActors stub = .ok actors ∧
      getMemberByItn stub payload.RecipientNumber = .ok merchantByItn ∧
      merchantByItn.SettlementAccount = payload.RecipientAccount ∧
      (create stub).writes = [(getPaymentKey payload.Id, .json p)] ∧
      p.RecipientOrgId = actors.merchant.OrganizationId ∧
      p.RecipientNumber = payload.RecipientNumber ∧
      p.RecipientAccount = payload.RecipientAccount := by
  obtain ⟨arg2, rest2, payload2, actors, invoker, hargs2, hdec2, hact, hrole, hinv⟩ :=
    create_success_agent stub hok
  rw [hargs] at hargs2
  cases hargs2
  rw [hdec] at hdec2
  cases hdec2
  have hc := create_of_agent stub arg rest payload actors invoker hargs hdec hact hrole hinv
  cases hb : (getMember stub invoker.BankOrganizationId).err? with
  | some e =>
    rw [hc, hb] at hok
    cases hok
  | none =>
    cases hv : validatePaymentPayload stub payload invoker with
    | some e =>
      rw [hc, hb, hv] at hok
      cases hok
    | none =>
      rw [hb, hv] at hc
      simp only at hc
      obtain ⟨merchantByItn, hm, hacc⟩ := validatePaymentPayload_recipient stub payload invoker hv
      exact ⟨actors, merchantByItn, _, hact, hm, hacc, by rw [hc], rfl, rfl, rfl⟩

/-- C31 (failing input): the agent Org4MSP creates payment p3 with the
recipient number and account of Org6MSP, while the merchant is Org3MSP; the
create succeeds and the stored payment names Org3MSP as recipient
organization next to the number and account of Org6MSP. -/
theorem C31_create_accepts_foreign_recipient :
    getMerchant exStubToOther = .ok exMerchant ∧
    getMemberByItn exStubToOther exCreatePayloadToOther.RecipientNumber = .ok exOtherAgent ∧
    exOtherAgent.OrganizationId ≠ exMerchant.OrganizationId ∧
    (create exStubToOther).response = .success none ∧
    ∃ p : Payment,
      (create exStubToOther).writes = [("PAYMENT_p3", .json p)] ∧
      p.RecipientOrgId = "Org3MSP" ∧ p.RecipientNumber = "7700000006" ∧
      p.RecipientAccount = "40702-C" ∧
      exOtherAgent.OrganizationId ≠ p.RecipientOrgId :=
  ⟨rfl, rfl, by decide, by decide,
    { exPayment CheckFundsRequest with
      Id := "p3", RecipientAccount := "40702-C", RecipientNumber := "7700000006" },
    by decide, rfl, rfl, rfl, by decide⟩

end Tickets
